import Mathlib

/-!
RTP base depayloader, RTP metas and header extensions.

A shallow embedding of the stateful core of `gstrtpbasedepayload.c` together
with the RTP metas of `gstrtpaudiolevelmeta.c` and `gstrtpmeta.c`, the NTP
header extensions and the header-extension base class of `gstrtphdrext.c`, and
the header extension of the tests, `rtpdummyhdrextimpl.c`.

Conventions of the embedding:

* C unsigned integers are natural numbers, reduced with an explicit `%` at the
  places where the C code truncates; `gint` is `Int`.
* `gboolean` is `Bool`.
* A `gdouble` is only ever copied by this code, so it is kept as its bit
  pattern.
* A `guint32 *` kept in a meta is `none` for `NULL` and otherwise the memory it
  points to: a block of the allocator, a variable of a running function, or a
  variable of a function that has returned.
* The element state is passed explicitly; what the element pushes on its
  source pad is appended to a trace kept in the state.
* Virtual methods of the subclass and answers of the downstream peer are
  parameters.
-/

namespace GstRtp

/-! ## Scalars -/

/-- The value of `(guint32) -1`, which `next_seqnum` and `clock_base` hold
while they are unset. -/
def G_MAXUINT32 : Nat := 2 ^ 32 - 1

/-- The value of `GST_CLOCK_TIME_NONE`, `(GstClockTime) -1`. -/
def GST_CLOCK_TIME_NONE : Nat := 2 ^ 64 - 1

/-- The macro `GST_CLOCK_TIME_IS_VALID`. -/
def GST_CLOCK_TIME_IS_VALID (t : Nat) : Bool := t != GST_CLOCK_TIME_NONE

/-- The value of `GST_SEQNUM_INVALID`. -/
def GST_SEQNUM_INVALID : Nat := 0

/-- The C cast `(gint16) n`. -/
def to_gint16 (n : Int) : Int :=
  if n % 65536 < 32768 then n % 65536 else n % 65536 - 65536

/-- A `gdouble`, kept as its IEEE-754 bit pattern: the code only copies it. -/
structure gdouble where
  bits : Nat
deriving DecidableEq, Repr

/-- The `gdouble` constant `1.0`. -/
def gdouble_one : gdouble := ⟨0x3FF0000000000000⟩

/-- The enumeration `GstFlowReturn`. -/
inductive GstFlowReturn where
  | GST_FLOW_OK
  | GST_FLOW_NOT_LINKED
  | GST_FLOW_FLUSHING
  | GST_FLOW_EOS
  | GST_FLOW_NOT_NEGOTIATED
  | GST_FLOW_ERROR
  | GST_FLOW_NOT_SUPPORTED
deriving DecidableEq, Repr

open GstFlowReturn

/-- The enumeration `GstFormat`. -/
inductive GstFormat where
  | GST_FORMAT_UNDEFINED
  | GST_FORMAT_DEFAULT
  | GST_FORMAT_BYTES
  | GST_FORMAT_TIME
  | GST_FORMAT_BUFFERS
  | GST_FORMAT_PERCENT
deriving DecidableEq, Repr

open GstFormat

/-! ## RTP packets, metas and buffers -/

/-- What `gst_rtp_buffer_map` gives access to: the header fields of a mapped
RTP packet and the bytes of its one-byte-form header-extension elements. -/
structure GstRTPBuffer where
  ssrc : Nat
  seq : Nat
  timestamp : Nat
  csrc : List Nat
  ext_onebyte : List Nat
deriving DecidableEq, Repr

/-- The memory behind a `guint32 *` that is not `NULL`: a block from the GLib
allocator with the values it holds, which `g_free` may release; a variable of
a function that is still running, with the values it holds; or a variable of a
function that has returned, which can no longer be read. -/
inductive Guint32Memory where
  | allocated (values : List Nat)
  | automatic (values : List Nat)
  | expired
deriving DecidableEq, Repr

/-- The metas a buffer can carry: `GstRTPSourceMeta` with its fields `ssrc`,
`csrc` (two pointers, `none` for `NULL`) and `csrc_count`,
`GstRTPAudioLevelMeta`, or a meta of another API type. -/
inductive GstMeta where
  | rtp_source (ssrc : Option Guint32Memory) (csrc : Option Guint32Memory) (csrc_count : Nat)
  | rtp_audio_level (level : Nat) (voice_activity : Bool)
  | other (api : Nat) (payload : Nat)
deriving DecidableEq, Repr

/-- A `GstBuffer`: timestamps, the DISCONT flag, its metas, and the outcome
of `gst_rtp_buffer_map` on it (`none` when the bytes are not a valid RTP
packet). -/
structure GstBuffer where
  pts : Nat
  dts : Nat
  duration : Nat
  discont : Bool
  metas : List GstMeta
  rtp : Option GstRTPBuffer
deriving DecidableEq, Repr

/-- The function `gst_rtp_buffer_get_ssrc`, a `guint32`. -/
def gst_rtp_buffer_get_ssrc (rtp : GstRTPBuffer) : Nat := rtp.ssrc % 2 ^ 32

/-- The function `gst_rtp_buffer_get_seq`, a `guint16`. -/
def gst_rtp_buffer_get_seq (rtp : GstRTPBuffer) : Nat := rtp.seq % 2 ^ 16

/-- The function `gst_rtp_buffer_get_timestamp`, a `guint32`. -/
def gst_rtp_buffer_get_timestamp (rtp : GstRTPBuffer) : Nat := rtp.timestamp % 2 ^ 32

/-- The function `gst_rtp_buffer_get_csrc_count`, the 4-bit CSRC count of the header. -/
def gst_rtp_buffer_get_csrc_count (rtp : GstRTPBuffer) : Nat := min rtp.csrc.length 15

/-- Modelled from the spec: `gst_rtp_buffer_compare_seqnum` is defined in
`gstrtpbuffer.c`, which is not among the sources. The spec describes its
result as the shortest signed rotation distance on the 16-bit ring; the sign
is the one the caller relies on (`gap < 0` when `seqnum > next_seqnum`), so
the result is `(gint16) (seqnum2 - seqnum1)` on `guint16` arguments. -/
def gst_rtp_buffer_compare_seqnum (seqnum1 seqnum2 : Nat) : Int :=
  to_gint16 ((seqnum2 % 2 ^ 16 : Nat) - (seqnum1 % 2 ^ 16 : Nat))

/-- Modelled from the spec: the scan behind
`gst_rtp_buffer_get_extension_onebyte_header` (`gstrtpbuffer.c` is not among
the sources). Each element of the one-byte form starts with a byte holding a
4-bit id and a 4-bit length-minus-one; id 0 is a padding byte, id 15 is
reserved and ends the scan. The `nth` element with the requested id is
returned. -/
def onebyte_scan (id : Nat) : Nat → Nat → List Nat → Option (List Nat)
  | 0, _, _ => none
  | _, _, [] => none
  | fuel + 1, nth, b :: rest =>
    let read_id := b / 16 % 16
    let read_len := b % 16 + 1
    if read_id = 0 then onebyte_scan id fuel nth rest
    else if read_id = 15 then none
    else if rest.length < read_len then none
    else if read_id = id then
      if nth = 0 then some (rest.take read_len)
      else onebyte_scan id fuel (nth - 1) (rest.drop read_len)
    else onebyte_scan id fuel nth (rest.drop read_len)

/-- Modelled from the spec: `gst_rtp_buffer_get_extension_onebyte_header`
(`gstrtpbuffer.c` is not among the sources): the payload of the `nth`
one-byte-form element with this id, if the packet has one. -/
def gst_rtp_buffer_get_extension_onebyte_header (rtp : GstRTPBuffer)
    (id nth : Nat) : Option (List Nat) :=
  if id = 0 ∨ 14 < id then none
  else onebyte_scan id rtp.ext_onebyte.length nth rtp.ext_onebyte

/-- Modelled from the spec: `gst_rtp_buffer_add_extension_onebyte_header`
(`gstrtpbuffer.c` is not among the sources): appends one element in the
one-byte form, a byte with the 4-bit id and the 4-bit length-minus-one
followed by the payload. It refuses an id outside 1..14 and a payload of
fewer than 1 or more than 16 bytes. -/
def gst_rtp_buffer_add_extension_onebyte_header (rtp : GstRTPBuffer)
    (id : Nat) (data : List Nat) : Bool × GstRTPBuffer :=
  if id = 0 ∨ 14 < id ∨ data.length = 0 ∨ 16 < data.length then (false, rtp)
  else
    (true, { rtp with
      ext_onebyte := rtp.ext_onebyte ++ ((id * 16 + (data.length - 1)) :: data) })

/-- Modelled from the spec: `gst_rtp_buffer_new_allocate (payload_len, 0, 0)`
followed by `gst_rtp_buffer_map` (`gstrtpbuffer.c` is not among the sources):
a packet with zeroed header fields, no CSRC and no header extension. -/
def gst_rtp_buffer_new_allocate : GstRTPBuffer :=
  { ssrc := 0, seq := 0, timestamp := 0, csrc := [], ext_onebyte := [] }

/-- The function `gst_buffer_new`: an empty buffer without timestamps, flags or metas. -/
def gst_buffer_new : GstBuffer :=
  { pts := GST_CLOCK_TIME_NONE, dts := GST_CLOCK_TIME_NONE,
    duration := GST_CLOCK_TIME_NONE, discont := false, metas := [], rtp := none }

/-! ## `gstrtpaudiolevelmeta.c` -/

/-- The function `gst_buffer_add_rtp_audio_level_meta`: attaches the meta; `level` is a
`guint8` parameter. Returns the buffer and the attached meta. -/
def gst_buffer_add_rtp_audio_level_meta (buffer : GstBuffer) (level : Nat)
    (voice_activity : Bool) : GstBuffer × GstMeta :=
  let meta := GstMeta.rtp_audio_level (level % 2 ^ 8) voice_activity
  ({ buffer with metas := buffer.metas ++ [meta] }, meta)

/-- The function `gst_buffer_extract_rtp_audio_level_meta_one_byte_ext`: reads the first
one-byte-form element with this id and attaches it as an audio-level meta.
Returns the buffer and the attached meta, `none` (the C `NULL`) when the
arguments are refused or the packet has no such element. -/
def gst_buffer_extract_rtp_audio_level_meta_one_byte_ext (buffer : GstBuffer)
    (rtp : GstRTPBuffer) (id : Nat) : GstBuffer × Option GstMeta :=
  if ¬ (0 < id) then (buffer, none)
  else if ¬ (id ≤ 14) then (buffer, none)
  else
    match gst_rtp_buffer_get_extension_onebyte_header rtp id 0 with
    | some (data :: _) =>
      let val := data % 2 ^ 8
      let level := val &&& 0x7F
      let voice_activity := ((val &&& 0x80) >>> 7) != 0
      let r := gst_buffer_add_rtp_audio_level_meta buffer level voice_activity
      (r.1, some r.2)
    | _ => (buffer, none)

/-- The function `gst_rtp_audio_level_meta_add_one_byte_ext`, applied to the fields of the
meta: writes the audio level as a one-byte-form element. Returns whether the
element was added, and the packet. -/
def gst_rtp_audio_level_meta_add_one_byte_ext (level : Nat) (voice_activity : Bool)
    (rtp : GstRTPBuffer) (id : Nat) : Bool × GstRTPBuffer :=
  if ¬ (level ≤ 127) then (false, rtp)
  else if ¬ (0 < id) then (false, rtp)
  else if ¬ (id ≤ 14) then (false, rtp)
  else
    let data := ((level &&& 0x7F) ||| (voice_activity.toNat <<< 7)) % 2 ^ 8
    gst_rtp_buffer_add_extension_onebyte_header rtp id [data]

/-! ## `gstrtpmeta.c` -/

/-- The values that can be read through a pointer: none through `NULL` and
through a pointer to a variable of a function that has returned. -/
def guint32_read : Option Guint32Memory → Option (List Nat)
  | some (Guint32Memory.allocated values) => some values
  | some (Guint32Memory.automatic values) => some values
  | some Guint32Memory.expired => none
  | none => none

/-- The function `g_free` of GLib: defined for `NULL` and for memory of the
GLib allocator, undefined (`false`) for any other pointer. -/
def g_free : Option Guint32Memory → Bool
  | none => true
  | some (Guint32Memory.allocated _) => true
  | some (Guint32Memory.automatic _) => false
  | some Guint32Memory.expired => false

/-- The function `gst_buffer_add_rtp_source_meta`: attaches a source meta that
holds the two pointers it is handed and `csrc_count`, a `guint`. It refuses
more than 15 CSRCs, and a `csrc` pointer that does not go with the count.
Returns the buffer and the attached meta. -/
def gst_buffer_add_rtp_source_meta (buffer : GstBuffer) (ssrc : Option Guint32Memory)
    (csrc : Option Guint32Memory) (csrc_count : Nat) : GstBuffer × Option GstMeta :=
  if ¬ (csrc_count % 2 ^ 32 ≤ 15) then (buffer, none)
  else if ¬ ((csrc = none ∧ csrc_count % 2 ^ 32 = 0) ∨
      (csrc ≠ none ∧ csrc_count % 2 ^ 32 ≠ 0)) then (buffer, none)
  else
    let meta := GstMeta.rtp_source ssrc csrc (csrc_count % 2 ^ 32)
    ({ buffer with metas := buffer.metas ++ [meta] }, some meta)

/-- The function `gst_rtp_source_meta_free`, which a buffer runs on a source
meta it removes or is disposed with: both pointers are handed to `g_free` and
set to `NULL`. The result is `none` when one of the two calls of `g_free` is
undefined. -/
def gst_rtp_source_meta_free (meta : GstMeta) : Option GstMeta :=
  match meta with
  | GstMeta.rtp_source ssrc csrc csrc_count =>
    if g_free ssrc ∧ g_free csrc then some (GstMeta.rtp_source none none csrc_count)
    else none
  | _ => some meta

/-- Modelled from the spec: `gst_rtp_source_meta_append_csrc` is called by the
depayloader and by the tests but is not defined in the sources. Following the
test `test_rtp_source_meta_set_get_max_sources`, it appends the CSRCs unless
the meta would then hold more than 15 of them, in which case the meta is left
as it was. The CSRCs move to a new block of the allocator; the SSRC pointer is
not touched. -/
def gst_rtp_source_meta_append_csrc (meta : GstMeta) (csrc : List Nat) :
    Bool × GstMeta :=
  match meta with
  | GstMeta.rtp_source s cs csrc_count =>
    if 15 < csrc_count + csrc.length then (false, meta)
    else
      match cs, guint32_read cs with
      | some _, none => (false, meta)
      | _, held =>
        (true, GstMeta.rtp_source s
          (some (Guint32Memory.allocated ((held.getD []).take csrc_count ++ csrc)))
          (csrc_count + csrc.length))
  | _ => (false, meta)

/-- The function `gst_rtp_source_meta_get_source_count`: `csrc_count` plus one
when the SSRC pointer is not `NULL`; 0 stands for a meta of another kind, on
which the function is not called. -/
def gst_rtp_source_meta_get_source_count (meta : GstMeta) : Nat :=
  match meta with
  | GstMeta.rtp_source ssrc _ csrc_count =>
    let ssrc_count := if ssrc.isSome then 1 else 0
    (csrc_count + ssrc_count) % 2 ^ 32
  | _ => 0

/-! ## `gstrtphdrext.c`: the NTP header extensions -/

/-- The value of `GST_RTP_HDREXT_NTP_64_SIZE`. -/
def GST_RTP_HDREXT_NTP_64_SIZE : Nat := 8

/-- The value of `GST_RTP_HDREXT_NTP_56_SIZE`. -/
def GST_RTP_HDREXT_NTP_56_SIZE : Nat := 7

/-- The macro `GST_WRITE_UINT64_BE` of the GStreamer core: the eight bytes of a
`guint64` are stored at the start of `data`, most significant byte first. -/
def GST_WRITE_UINT64_BE (data : List Nat) (num : Nat) : List Nat :=
  ((((((((data.set 0 ((num % 2 ^ 64) >>> 56 &&& 0xff)).set 1
    ((num % 2 ^ 64) >>> 48 &&& 0xff)).set 2
    ((num % 2 ^ 64) >>> 40 &&& 0xff)).set 3
    ((num % 2 ^ 64) >>> 32 &&& 0xff)).set 4
    ((num % 2 ^ 64) >>> 24 &&& 0xff)).set 5
    ((num % 2 ^ 64) >>> 16 &&& 0xff)).set 6
    ((num % 2 ^ 64) >>> 8 &&& 0xff)).set 7
    ((num % 2 ^ 64) &&& 0xff))

/-- The byte `data[i]`, a `guint8`. -/
def read_guint8 (data : List Nat) (i : Nat) : Nat := data.getD i 0 % 2 ^ 8

/-- The macro `GST_READ_UINT64_BE` of the GStreamer core: the `guint64` whose
eight bytes, most significant first, are at the start of `data`. -/
def GST_READ_UINT64_BE (data : List Nat) : Nat :=
  (read_guint8 data 0 <<< 56) ||| (read_guint8 data 1 <<< 48) |||
  (read_guint8 data 2 <<< 40) ||| (read_guint8 data 3 <<< 32) |||
  (read_guint8 data 4 <<< 24) ||| (read_guint8 data 5 <<< 16) |||
  (read_guint8 data 6 <<< 8) ||| read_guint8 data 7

/-- The function `gst_rtp_hdrext_set_ntp_64`; `data` is `none` for `NULL`, and
`size` is the size the caller states for it. Returns the result and the
bytes. -/
def gst_rtp_hdrext_set_ntp_64 (data : Option (List Nat)) (size : Nat) (ntptime : Nat) :
    Bool × Option (List Nat) :=
  match data with
  | none => (false, data)
  | some d =>
    if ¬ (size ≥ GST_RTP_HDREXT_NTP_64_SIZE) then (false, data)
    else (true, some (GST_WRITE_UINT64_BE d ntptime))

/-- The function `gst_rtp_hdrext_get_ntp_64`, called with a place for the
result. Returns the result of the call and the value stored in `*ntptime`. -/
def gst_rtp_hdrext_get_ntp_64 (data : Option (List Nat)) (size : Nat) :
    Bool × Option Nat :=
  match data with
  | none => (false, none)
  | some d =>
    if ¬ (size ≥ GST_RTP_HDREXT_NTP_64_SIZE) then (false, none)
    else (true, some (GST_READ_UINT64_BE d))

/-- The loop of `gst_rtp_hdrext_set_ntp_56`: in round `i` (from 0 to 6) the
low byte of `ntptime` goes to `d[6 - i]` and `ntptime` is shifted right by 8
bits. The state is the bytes and the remaining `ntptime`. -/
def set_ntp_56_loop (d : List Nat) (ntptime : Nat) : List Nat × Nat :=
  (List.range 7).foldl
    (fun (s : List Nat × Nat) (i : Nat) => (s.1.set (6 - i) (s.2 &&& 0xff), s.2 >>> 8))
    (d, ntptime % 2 ^ 64)

/-- The function `gst_rtp_hdrext_set_ntp_56`; `data` is `none` for `NULL`, and
`size` is the size the caller states for it. Returns the result and the
bytes. -/
def gst_rtp_hdrext_set_ntp_56 (data : Option (List Nat)) (size : Nat) (ntptime : Nat) :
    Bool × Option (List Nat) :=
  match data with
  | none => (false, data)
  | some d =>
    if ¬ (size ≥ GST_RTP_HDREXT_NTP_56_SIZE) then (false, data)
    else (true, some (set_ntp_56_loop d ntptime).1)

/-- The loop of `gst_rtp_hdrext_get_ntp_56`: starting from 0, in round `i`
(from 0 to 6) the `guint64` result is shifted left by 8 bits and `d[i]` is
or-ed in. -/
def get_ntp_56_loop (d : List Nat) : Nat :=
  (List.range 7).foldl
    (fun (ntptime : Nat) (i : Nat) => ((ntptime <<< 8) % 2 ^ 64) ||| read_guint8 d i) 0

/-- The function `gst_rtp_hdrext_get_ntp_56`, called with a place for the
result. Returns the result of the call and the value stored in `*ntptime`. -/
def gst_rtp_hdrext_get_ntp_56 (data : Option (List Nat)) (size : Nat) :
    Bool × Option Nat :=
  match data with
  | none => (false, none)
  | some d =>
    if ¬ (size ≥ GST_RTP_HDREXT_NTP_56_SIZE) then (false, none)
    else (true, some (get_ntp_56_loop d))

/-! ## `gstrtphdrext.c`: the header-extension base class -/

/-- The value of `MAX_RTP_EXT_ID`. -/
def MAX_RTP_EXT_ID : Nat := 256

/-- The instance struct `GstRTPHeaderExtension`: the public field `ext_id`, a
`guint`, and the fields a subclass adds to the instance. -/
structure GstRTPHeaderExtension (σ : Type) where
  ext_id : Nat
  subclass : σ
deriving DecidableEq, Repr

/-- What a `write` method leaves behind: the `gsize` it returns, the bytes at
`data`, the output buffer and the instance. -/
structure WriteResult (σ : Type) where
  written : Nat
  data : List Nat
  output : GstBuffer
  ext : GstRTPHeaderExtension σ
deriving DecidableEq, Repr

/-- What a `read` method leaves behind: the `gboolean` it returns, the buffer
and the instance. -/
structure ReadResult (σ : Type) where
  ok : Bool
  buffer : GstBuffer
  ext : GstRTPHeaderExtension σ
deriving DecidableEq, Repr

/-- The virtual methods of `GstRTPHeaderExtensionClass` that size, write and
read an extension (`none` for a method the class leaves `NULL`). A method that
does not return, because an assertion in it aborts, yields `none`. -/
structure GstRTPHeaderExtensionClass (σ : Type) where
  get_max_size : Option (GstRTPHeaderExtension σ → Option GstBuffer → Nat)
  write : Option (GstRTPHeaderExtension σ → GstBuffer → Nat → GstBuffer → List Nat → Nat →
    Option (WriteResult σ))
  read : Option (GstRTPHeaderExtension σ → Nat → List Nat → Nat → GstBuffer →
    Option (ReadResult σ))

/-- The state after `gst_rtp_header_extension_write`: the returned `gsize`,
the bytes at `data` (`none` for `NULL`), the output buffer and the instance. -/
structure HdrExtWritten (σ : Type) where
  ret : Nat
  data : Option (List Nat)
  output : Option GstBuffer
  ext : GstRTPHeaderExtension σ
deriving DecidableEq, Repr

/-- The state after `gst_rtp_header_extension_read`: the returned `gboolean`,
the buffer and the instance. -/
structure HdrExtRead (σ : Type) where
  ret : Bool
  buffer : Option GstBuffer
  ext : GstRTPHeaderExtension σ
deriving DecidableEq, Repr

/-- The function `gst_rtp_header_extension_init`, run on an instance whose
subclass fields are given. -/
def gst_rtp_header_extension_init {σ : Type} (subclass : σ) : GstRTPHeaderExtension σ :=
  { ext_id := G_MAXUINT32, subclass := subclass }

/-- The function `gst_rtp_header_extension_get_max_size`; `input_meta` is
`none` when the argument is not a buffer. -/
def gst_rtp_header_extension_get_max_size {σ : Type} (klass : GstRTPHeaderExtensionClass σ)
    (ext : GstRTPHeaderExtension σ) (input_meta : Option GstBuffer) : Nat :=
  match input_meta with
  | none => 0
  | some _ =>
    match klass.get_max_size with
    | none => 0
    | some get_max_size => get_max_size ext input_meta

/-- The function `gst_rtp_header_extension_write`. A buffer argument is `none`
when it is not a buffer, `output_writable` is the answer of
`gst_buffer_is_writable (output)`, `data` is `none` for `NULL` and `size` is
the size the caller states for it. Each refused argument returns 0 and leaves
everything as it was; otherwise the result is that of the `write` method. -/
def gst_rtp_header_extension_write {σ : Type} (klass : GstRTPHeaderExtensionClass σ)
    (ext : GstRTPHeaderExtension σ) (input_meta : Option GstBuffer) (write_flags : Nat)
    (output : Option GstBuffer) (output_writable : Bool) (data : Option (List Nat))
    (size : Nat) : Option (HdrExtWritten σ) :=
  let refused : Option (HdrExtWritten σ) :=
    some { ret := 0, data := data, output := output, ext := ext }
  match input_meta with
  | none => refused
  | some input =>
    match output with
    | none => refused
    | some out =>
      if ¬ output_writable then refused
      else
        match data with
        | none => refused
        | some d =>
          if ¬ (ext.ext_id ≤ MAX_RTP_EXT_ID) then refused
          else
            match klass.write with
            | none => refused
            | some write =>
              (write ext input write_flags out d size).map (fun w =>
                { ret := w.written, data := some w.data, output := some w.output,
                  ext := w.ext })

/-- The function `gst_rtp_header_extension_read`. `buffer` is `none` when the
argument is not a buffer, `buffer_writable` is the answer of
`gst_buffer_is_writable (buffer)`, `data` is `none` for `NULL`. Each refused
argument returns `FALSE` and leaves everything as it was; otherwise the result
is that of the `read` method. -/
def gst_rtp_header_extension_read {σ : Type} (klass : GstRTPHeaderExtensionClass σ)
    (ext : GstRTPHeaderExtension σ) (read_flags : Nat) (data : Option (List Nat))
    (size : Nat) (buffer : Option GstBuffer) (buffer_writable : Bool) :
    Option (HdrExtRead σ) :=
  let refused : Option (HdrExtRead σ) := some { ret := false, buffer := buffer, ext := ext }
  match buffer with
  | none => refused
  | some buf =>
    if ¬ buffer_writable then refused
    else
      match data with
      | none => refused
      | some d =>
        if ¬ (ext.ext_id ≤ MAX_RTP_EXT_ID) then refused
        else
          match klass.read with
          | none => refused
          | some read =>
            (read ext read_flags d size buf).map (fun r =>
              { ret := r.ok, buffer := some r.buffer, ext := r.ext })

/-- The function `gst_rtp_header_extension_get_id`. -/
def gst_rtp_header_extension_get_id {σ : Type} (ext : GstRTPHeaderExtension σ) : Nat :=
  ext.ext_id

/-- The function `gst_rtp_header_extension_set_id`; `ext_id` is a `guint`
parameter. -/
def gst_rtp_header_extension_set_id {σ : Type} (ext : GstRTPHeaderExtension σ)
    (ext_id : Nat) : GstRTPHeaderExtension σ :=
  if ¬ (ext_id % 2 ^ 32 < MAX_RTP_EXT_ID) then ext
  else { ext with ext_id := ext_id % 2 ^ 32 }

/-! ## `rtpdummyhdrextimpl.c`: the header extension of the tests -/

/-- The fields `GstRTPDummyHdrExt` adds to the instance. -/
structure GstRTPDummyHdrExt where
  supported_flags : Nat
  read_count : Nat
  write_count : Nat
deriving DecidableEq, Repr

/-- The value of `TEST_DATA_BYTE`. -/
def TEST_DATA_BYTE : Nat := 0x9d

/-- The function `gst_rtp_dummy_hdr_ext_get_max_size`. -/
def gst_rtp_dummy_hdr_ext_get_max_size (_ext : GstRTPHeaderExtension GstRTPDummyHdrExt)
    (_input_meta : Option GstBuffer) : Nat := 1

/-- The function `gst_rtp_dummy_hdr_ext_write`: it asserts that `size` is at
least its maximum size, stores the test byte in `data[0]` and counts the
call. -/
def gst_rtp_dummy_hdr_ext_write (ext : GstRTPHeaderExtension GstRTPDummyHdrExt)
    (_input_meta : GstBuffer) (_write_flags : Nat) (output : GstBuffer) (data : List Nat)
    (size : Nat) : Option (WriteResult GstRTPDummyHdrExt) :=
  if ¬ (size ≥ gst_rtp_dummy_hdr_ext_get_max_size ext none) then none
  else
    some { written := 1, data := data.set 0 TEST_DATA_BYTE, output := output,
           ext := { ext with subclass := { ext.subclass with
             write_count := (ext.subclass.write_count + 1) % 2 ^ 32 } } }

/-- The function `gst_rtp_dummy_hdr_ext_read`: it checks that `data[0]` is the
test byte (the test fails otherwise) and counts the call. -/
def gst_rtp_dummy_hdr_ext_read (ext : GstRTPHeaderExtension GstRTPDummyHdrExt)
    (_read_flags : Nat) (data : List Nat) (_size : Nat) (buffer : GstBuffer) :
    Option (ReadResult GstRTPDummyHdrExt) :=
  if ¬ (read_guint8 data 0 = TEST_DATA_BYTE) then none
  else
    some { ok := true, buffer := buffer,
           ext := { ext with subclass := { ext.subclass with
             read_count := (ext.subclass.read_count + 1) % 2 ^ 32 } } }

/-- The class set up by `gst_rtp_dummy_hdr_ext_class_init`. -/
def gst_rtp_dummy_hdr_ext_class : GstRTPHeaderExtensionClass GstRTPDummyHdrExt :=
  { get_max_size := some gst_rtp_dummy_hdr_ext_get_max_size,
    write := some gst_rtp_dummy_hdr_ext_write,
    read := some gst_rtp_dummy_hdr_ext_read }

/-- The function `rtp_dummy_hdr_ext_new`: the instance after
`gst_rtp_header_extension_init` and `gst_rtp_dummy_hdr_ext_init`, which
supports the one-byte and the two-byte form. -/
def rtp_dummy_hdr_ext_new : GstRTPHeaderExtension GstRTPDummyHdrExt :=
  gst_rtp_header_extension_init { supported_flags := 3, read_count := 0, write_count := 0 }

/-! ## `gstrtpbasedepayload.c`: data -/

/-- A `GstSegment` (the fields this code reads or writes). -/
structure GstSegment where
  format : GstFormat
  rate : gdouble
  applied_rate : gdouble
  base : Nat
  offset : Nat
  start : Nat
  stop : Nat
  time : Nat
  position : Nat
  duration : Nat
deriving DecidableEq, Repr

/-- The function `gst_segment_init` of the GStreamer core. -/
def gst_segment_init (format : GstFormat) : GstSegment :=
  { format := format, rate := gdouble_one, applied_rate := gdouble_one,
    base := 0, offset := 0, start := 0, stop := GST_CLOCK_TIME_NONE, time := 0,
    position := 0, duration := GST_CLOCK_TIME_NONE }

/-- The first structure of a `GstCaps`: the fields `setcaps` looks up (absent,
or present with the expected type), the `extmap-<id>` fields in order, and
everything else. -/
structure GstCaps where
  onvif_mode : Option Bool
  npt_start : Option Nat
  npt_stop : Option Nat
  play_speed : Option gdouble
  play_scale : Option gdouble
  clock_base : Option Nat
  extmap : List (Int × String)
  rest : Nat
deriving DecidableEq, Repr

/-- The fields of the structure of a `GstRTPPacketLost` event. -/
structure GstRTPPacketLost where
  timestamp : Option Nat
  duration : Option Nat
  no_packet_loss : Option Bool
  might_have_been_fec : Option Bool
deriving DecidableEq, Repr

/-- The events the element receives or sends. -/
inductive GstEvent where
  | flush_stop
  | caps (caps : GstCaps)
  | segment (segment : GstSegment) (seqnum : Nat)
  | custom_downstream (name : String) (s : GstRTPPacketLost)
  | gap (timestamp : Nat) (duration : Nat) (no_packet_loss : Bool)
  | other (type : Nat)
deriving DecidableEq, Repr

/-- What is sent out on the source pad. -/
inductive PadItem where
  | buffer (b : GstBuffer)
  | event (e : GstEvent)
deriving DecidableEq, Repr

/-- The struct `_GstRTPBaseDepayloadPrivate`. -/
structure GstRTPBaseDepayloadPrivate where
  npt_start : Nat
  npt_stop : Nat
  play_speed : gdouble
  play_scale : gdouble
  clock_base : Nat
  onvif_mode : Bool
  discont : Bool
  pts : Nat
  dts : Nat
  duration : Nat
  last_ssrc : Nat
  last_seqnum : Nat
  last_rtptime : Nat
  next_seqnum : Nat
  max_reorder : Int
  negotiated : Bool
  last_caps : Option GstCaps
  segment_event : Option GstEvent
  segment_seqnum : Nat
  source_info : Bool
  audio_level_id : Nat
  roi_ext_id : Nat
  input_buffer : Option GstBuffer
  process_flow_ret : GstFlowReturn
deriving DecidableEq, Repr

/-- The element instance `GstRTPBaseDepayload`: its public fields, its private
struct, and the trace of what it has sent on its source pad (oldest first). -/
structure GstRTPBaseDepayload where
  clock_rate : Nat
  segment : GstSegment
  need_newsegment : Bool
  priv : GstRTPBaseDepayloadPrivate
  srcpad : List PadItem
deriving DecidableEq, Repr

/-- What a subclass does in its `process` or `process_rtp_packet` method: the
buffers it pushes itself with `gst_rtp_base_depayload_push` during the call,
and the buffer it returns (`none` for `NULL`). -/
structure ProcessResult where
  pushed : List GstBuffer
  out_buf : Option GstBuffer

/-- The virtual methods of `GstRTPBaseDepayloadClass` (`none` for a method the
class leaves `NULL`). `set_caps` also yields the clock rate the subclass stores
in the public field `clock_rate`; `packet_lost` yields its result and the
events it sends on the source pad. -/
structure GstRTPBaseDepayloadClass where
  set_caps : Option (GstRTPBaseDepayload → GstCaps → Bool × Nat)
  process : Option (GstRTPBaseDepayload → GstBuffer → ProcessResult)
  process_rtp_packet :
    Option (GstRTPBaseDepayload → GstBuffer → GstRTPBuffer → ProcessResult)
  packet_lost : Option (GstRTPBaseDepayload → GstEvent → Bool × List GstEvent)

/-- What surrounds the element: the answers of the downstream peer (which may
depend on everything sent so far), functions of the GStreamer core and of
`gstrtpbuffer.c` that are not among the sources, and the handler an
application may have connected to the signal `roi-ext-hdr-read`. The two
region-of-interest readers yield the metas they attach to the output buffer. -/
structure Env where
  gst_pad_push : List PadItem → GstBuffer → GstFlowReturn
  gst_pad_push_event : List PadItem → GstEvent → Bool
  gst_segment_to_running_time : GstSegment → Nat → Nat
  gst_rtp_buffer_ext_timestamp : Nat → Nat → Nat
  gst_rtp_buffer_video_roi_meta_from_one_byte_ext :
    GstRTPBuffer → GstBuffer → Nat → List GstMeta
  roi_ext_hdr_read : Option (GstBuffer → GstRTPBuffer → Nat → List GstMeta)

/-- The default of the property `max-reorder`. -/
def DEFAULT_MAX_REORDER : Int := 100

/-- The function `gst_rtp_base_depayload_init`: the instance starts zero-filled, then the
listed fields are assigned. -/
def gst_rtp_base_depayload_init : GstRTPBaseDepayload :=
  { clock_rate := 0,
    segment := gst_segment_init GST_FORMAT_UNDEFINED,
    need_newsegment := false,
    srcpad := [],
    priv :=
      { npt_start := 0, npt_stop := GST_CLOCK_TIME_NONE,
        play_speed := gdouble_one, play_scale := gdouble_one,
        clock_base := G_MAXUINT32, onvif_mode := false,
        discont := false,
        pts := GST_CLOCK_TIME_NONE, dts := GST_CLOCK_TIME_NONE,
        duration := GST_CLOCK_TIME_NONE,
        last_ssrc := 0, last_seqnum := 0, last_rtptime := 0, next_seqnum := 0,
        max_reorder := DEFAULT_MAX_REORDER,
        negotiated := false, last_caps := none, segment_event := none,
        segment_seqnum := 0,
        source_info := false, audio_level_id := 0, roi_ext_id := 0,
        input_buffer := none, process_flow_ret := GST_FLOW_OK } }

/-! ## `gstrtpbasedepayload.c`: negotiation -/

/-- The function `gst_rtp_base_depayload_setcaps`. Caps equal to the last accepted ones
return at once (`caps_not_changed`); otherwise the stream parameters are read
from the caps, the subclass is asked, and the outcome is stored in
`negotiated`. -/
def gst_rtp_base_depayload_setcaps (bclass : GstRTPBaseDepayloadClass)
    (filter : GstRTPBaseDepayload) (caps : GstCaps) : Bool × GstRTPBaseDepayload :=
  if filter.priv.last_caps = some caps then (true, filter)
  else
    let onvif_mode := match caps.onvif_mode with
      | some v => v
      | none => false
    let priv1 := { filter.priv with
      last_caps := none,
      onvif_mode := onvif_mode,
      npt_start := (match caps.npt_start with
        | some v => v % 2 ^ 64
        | none => 0),
      npt_stop := (match caps.npt_stop with
        | some v => v % 2 ^ 64
        | none => GST_CLOCK_TIME_NONE),
      play_speed := (match caps.play_speed with
        | some v => v
        | none => gdouble_one),
      play_scale := (match caps.play_scale with
        | some v => v
        | none => gdouble_one),
      clock_base := (match caps.clock_base with
        | some v => v % 2 ^ 32
        | none => G_MAXUINT32) }
    let filter1 := { filter with
      priv := priv1,
      need_newsegment := if onvif_mode then false else filter.need_newsegment }
    let r : Bool × GstRTPBaseDepayload := match bclass.set_caps with
      | some set_caps =>
        let a := set_caps filter1 caps
        (a.1, { filter1 with clock_rate := a.2 % 2 ^ 32 })
      | none => (true, filter1)
    let res := r.1
    let filter2 := r.2
    (res, { filter2 with priv := { filter2.priv with
      negotiated := res,
      last_caps := if res then some caps else filter2.priv.last_caps } })

/-! ## `gstrtpbasedepayload.c`: the outgoing side -/

/-- The function `gst_util_uint64_scale_int` of the GStreamer core: `val * num / denom`
rounded down, `G_MAXUINT64` on overflow or on a refused argument. -/
def gst_util_uint64_scale_int (val : Nat) (num denom : Int) : Nat :=
  if num < 0 ∨ denom ≤ 0 then 2 ^ 64 - 1
  else min (val * num.toNat / denom.toNat) (2 ^ 64 - 1)

/-- The value of `GST_SECOND`. -/
def GST_SECOND : Nat := 1000000000

/-- The conversion of a `guint` argument to a `gint` parameter. -/
def to_gint (n : Nat) : Int :=
  if n % 2 ^ 32 < 2 ^ 31 then (n % 2 ^ 32 : Nat) else (n % 2 ^ 32 : Nat) - 2 ^ 32

/-- The function `create_segment_event`: the segment event built from the stored segment,
the negotiated parameters, the RTP time and the position of the buffer. The
event takes over `segment_seqnum` when that is valid; otherwise it keeps the
seqnum it was created with, for which `GST_SEQNUM_INVALID` stands here. -/
def create_segment_event (env : Env) (filter : GstRTPBaseDepayload)
    (rtptime : Nat) (position : Nat) : GstEvent :=
  let priv := filter.priv
  let start0 := filter.segment.start
  let start :=
    if priv.clock_base ≠ G_MAXUINT32 ∧ position ≠ GST_CLOCK_TIME_NONE then
      let exttime := env.gst_rtp_buffer_ext_timestamp priv.clock_base rtptime
      let gap := gst_util_uint64_scale_int
        ((exttime + 2 ^ 64 - priv.clock_base) % 2 ^ 64)
        (to_gint filter.clock_rate) GST_SECOND
      if position > gap then position - gap else start0
    else start0
  let stop0 := filter.segment.stop
  let stop :=
    if priv.npt_stop ≠ GST_CLOCK_TIME_NONE then
      (start + (priv.npt_stop + 2 ^ 64 - priv.npt_start) % 2 ^ 64) % 2 ^ 64
    else stop0
  let position1 := if position = GST_CLOCK_TIME_NONE then start else position
  let running_time := env.gst_segment_to_running_time filter.segment start
  let segment := { gst_segment_init GST_FORMAT_TIME with
    rate := priv.play_speed,
    applied_rate := priv.play_scale,
    start := start,
    stop := stop,
    time := priv.npt_start,
    position := position1,
    base := running_time }
  GstEvent.segment segment
    (if priv.segment_seqnum ≠ GST_SEQNUM_INVALID then priv.segment_seqnum
    else GST_SEQNUM_INVALID)

/-- The function `gst_event_parse_segment` of the GStreamer core: the segment
of a SEGMENT event. -/
def gst_event_parse_segment : GstEvent → Option GstSegment
  | GstEvent.segment segment _ => some segment
  | _ => none

/-- The function `foreach_metadata_drop` run over the metas of a buffer with the API type
of the source meta: every source meta is removed. The buffer runs
`gst_rtp_source_meta_free` on each meta it removes; the result here is the
list of the metas that stay. -/
def foreach_metadata_drop (metas : List GstMeta) : List GstMeta :=
  metas.filter (fun m => match m with
    | GstMeta.rtp_source _ _ _ => false
    | _ => true)

/-- A pointer after the function whose variable it may point to has returned:
a pointer to such a variable no longer leads anywhere. -/
def expire : Option Guint32Memory → Option Guint32Memory
  | some (Guint32Memory.automatic _) => some Guint32Memory.expired
  | p => p

/-- A source meta after the function that handed it addresses of its own
variables has returned. -/
def end_of_scope : GstMeta → GstMeta
  | GstMeta.rtp_source ssrc csrc csrc_count =>
    GstMeta.rtp_source (expire ssrc) (expire csrc) csrc_count
  | m => m

/-- The function `add_rtp_source_meta`: replaces the source metas of `outbuf` by one built
from the SSRC and the CSRCs of the RTP packet. The new meta is handed `&ssrc`,
the address of a local variable of this function, and no CSRCs; the CSRCs of
the packet are appended one by one. When the function returns, its variable
`ssrc` is gone and the meta still points to it. -/
def add_rtp_source_meta (outbuf : GstBuffer) (rtpbuf : GstBuffer) : GstBuffer :=
  match rtpbuf.rtp with
  | none => outbuf
  | some rtp =>
    let ssrc := gst_rtp_buffer_get_ssrc rtp
    let outbuf1 := { outbuf with metas := foreach_metadata_drop outbuf.metas }
    match gst_buffer_add_rtp_source_meta outbuf1 (some (Guint32Memory.automatic [ssrc]))
        none 0 with
    | (_, none) => outbuf1
    | (_, some meta0) =>
      let csrc_count := gst_rtp_buffer_get_csrc_count rtp
      let meta := (rtp.csrc.take csrc_count).foldl
        (fun m csrc => (gst_rtp_source_meta_append_csrc m [csrc % 2 ^ 32]).2) meta0
      { outbuf1 with metas := outbuf1.metas ++ [end_of_scope meta] }

/-- The function `add_rtp_audio_level_meta`: the audio level of the packet, if it
has one at this id, is attached to the output buffer. -/
def add_rtp_audio_level_meta (out : GstBuffer) (rtpbuf : GstBuffer) (id : Nat) :
    GstBuffer :=
  match rtpbuf.rtp with
  | none => out
  | some rtp => (gst_buffer_extract_rtp_audio_level_meta_one_byte_ext out rtp id).1

/-- The function `add_rtp_roi_meta`: the region-of-interest metas read from the
packet at this id are attached to the output buffer. -/
def add_rtp_roi_meta (env : Env) (out : GstBuffer) (rtpbuf : GstBuffer) (id : Nat) :
    GstBuffer :=
  match rtpbuf.rtp with
  | none => out
  | some rtp =>
    { out with
      metas := out.metas ++ env.gst_rtp_buffer_video_roi_meta_from_one_byte_ext rtp out id }

/-- The function `set_headers`: completes an outgoing buffer from the state of the
depayloader. Returns the buffer and the new state. -/
def set_headers (env : Env) (buffer : GstBuffer) (depayload : GstRTPBaseDepayload) :
    GstBuffer × GstRTPBaseDepayload :=
  let priv := depayload.priv
  let pts := buffer.pts
  let dts := buffer.dts
  let duration := buffer.duration
  let b1 := { buffer with
    pts := if !GST_CLOCK_TIME_IS_VALID pts then priv.pts else buffer.pts,
    dts := if !GST_CLOCK_TIME_IS_VALID dts then priv.dts else buffer.dts,
    duration := if !GST_CLOCK_TIME_IS_VALID duration then priv.duration
      else buffer.duration }
  let b2 := if priv.discont then { b1 with discont := true } else b1
  let priv1 := { priv with
    discont := if priv.discont then false else priv.discont,
    pts := GST_CLOCK_TIME_NONE,
    dts := GST_CLOCK_TIME_NONE,
    duration := GST_CLOCK_TIME_NONE }
  let b3 := match priv1.source_info, priv1.input_buffer with
    | true, some input_buffer => add_rtp_source_meta b2 input_buffer
    | _, _ => b2
  let b4 := match decide (priv1.audio_level_id > 0), priv1.input_buffer with
    | true, some input_buffer =>
      add_rtp_audio_level_meta b3 input_buffer priv1.audio_level_id
    | _, _ => b3
  let b5 := match priv1.input_buffer, decide (priv1.roi_ext_id > 0) with
    | some input_buffer, true =>
      (match env.roi_ext_hdr_read with
      | some reader =>
        (match input_buffer.rtp with
        | some rtp => { b4 with metas := b4.metas ++ reader b4 rtp priv1.roi_ext_id }
        | none => b4)
      | none => add_rtp_roi_meta env b4 input_buffer priv1.roi_ext_id)
    | _, _ => b4
  (b5, { depayload with priv := priv1 })

/-- The function `gst_rtp_base_depayload_prepare_push` for a single buffer: the headers are
set and a pending segment event is sent first. -/
def gst_rtp_base_depayload_prepare_push (env : Env) (filter : GstRTPBaseDepayload)
    (buf : GstBuffer) : GstFlowReturn × GstBuffer × GstRTPBaseDepayload :=
  let r := set_headers env buf filter
  let filter1 := r.2
  let filter2 := match filter1.priv.segment_event with
    | some ev => { filter1 with
        srcpad := filter1.srcpad ++ [PadItem.event ev],
        priv := { filter1.priv with segment_event := none } }
    | none => filter1
  (GST_FLOW_OK, r.1, filter2)

/-- The function `gst_rtp_base_depayload_push`: prepares and pushes a buffer downstream; a
result other than `GST_FLOW_OK` is stored in `process_flow_ret`. -/
def gst_rtp_base_depayload_push (env : Env) (filter : GstRTPBaseDepayload)
    (out_buf : GstBuffer) : GstFlowReturn × GstRTPBaseDepayload :=
  let p := gst_rtp_base_depayload_prepare_push env filter out_buf
  let filter1 := p.2.2
  let r : GstFlowReturn × GstRTPBaseDepayload :=
    if p.1 = GST_FLOW_OK then
      (env.gst_pad_push filter1.srcpad p.2.1,
        { filter1 with srcpad := filter1.srcpad ++ [PadItem.buffer p.2.1] })
    else (p.1, filter1)
  let res := r.1
  let filter2 := r.2
  if res ≠ GST_FLOW_OK then
    (res, { filter2 with priv := { filter2.priv with process_flow_ret := res } })
  else (res, filter2)

/-! ## `gstrtpbasedepayload.c`: the incoming side -/

/-- The seqnum check of `gst_rtp_base_depayload_handle_buffer` (the `if` on
`next_seqnum != -1`), as a function of the three fields of the private struct
it reads. `none` stands for `goto dropping`; otherwise the result is the value
of the local `discont` after the check, which starts as `buf_discont`. -/
def check_seqnum (next_seqnum last_ssrc : Nat) (max_reorder : Int) (ssrc seqnum : Nat)
    (buf_discont : Bool) : Option Bool :=
  if next_seqnum ≠ G_MAXUINT32 then
    if ssrc ≠ last_ssrc then some true
    else
      let gap := gst_rtp_buffer_compare_seqnum seqnum next_seqnum
      if gap ≠ 0 then
        if gap < 0 then some true
        else if gap ≤ max_reorder then none
        else some true
      else some buf_discont
  else some buf_discont

/-- The label at which `gst_rtp_base_depayload_handle_buffer` leaves: `done`
is the regular `return` after processing. -/
inductive HandleBufferExit where
  | done
  | not_negotiated
  | invalid_buffer
  | dropping
  | no_process
deriving DecidableEq, Repr

/-- The outcome of `gst_rtp_base_depayload_handle_buffer`: the label at which
it left, the flow return and the new state. -/
structure HandleBufferResult where
  exit : HandleBufferExit
  ret : GstFlowReturn
  filter : GstRTPBaseDepayload
deriving DecidableEq, Repr

/-- The packet as it is handed to the subclass: the state, the input buffer
(with DISCONT marked on it when a discontinuity was found), the mapped packet
and its RTP time. -/
structure Accepted where
  filter : GstRTPBaseDepayload
  buffer : GstBuffer
  rtp : GstRTPBuffer
  rtptime : Nat
deriving DecidableEq, Repr

/-- The first half of `gst_rtp_base_depayload_handle_buffer`, from its entry to
the point where DISCONT has been marked on the input buffer: the negotiation
check, the mapping, the bookkeeping of the last packet and the seqnum check.
The result is either an early leave or the accepted packet. -/
def handle_buffer_accept (filter : GstRTPBaseDepayload) (buf : GstBuffer) :
    HandleBufferResult ⊕ Accepted :=
  let priv0 := { filter.priv with process_flow_ret := GST_FLOW_OK }
  let filter0 := { filter with priv := priv0 }
  if ¬ priv0.negotiated then
    Sum.inl ⟨HandleBufferExit.not_negotiated, GST_FLOW_NOT_NEGOTIATED, filter0⟩
  else
    match buf.rtp with
    | none => Sum.inl ⟨HandleBufferExit.invalid_buffer, GST_FLOW_OK, filter0⟩
    | some rtp =>
      let buf_discont := buf.discont
      let ssrc := gst_rtp_buffer_get_ssrc rtp
      let seqnum := gst_rtp_buffer_get_seq rtp
      let rtptime := gst_rtp_buffer_get_timestamp rtp
      let priv1 := { priv0 with
        pts := buf.pts, dts := buf.dts, duration := buf.duration,
        last_seqnum := seqnum, last_rtptime := rtptime }
      match check_seqnum priv1.next_seqnum priv1.last_ssrc priv1.max_reorder
        ssrc seqnum buf_discont with
      | none =>
        Sum.inl ⟨HandleBufferExit.dropping, GST_FLOW_OK, { filter0 with priv := priv1 }⟩
      | some discont =>
        let priv2 := { priv1 with
          next_seqnum := (seqnum + 1) % 65536,
          last_ssrc := ssrc }
        let priv3 := if discont then { priv2 with discont := true } else priv2
        let buf1 := if discont ∧ ¬ buf_discont then { buf with discont := true } else buf
        Sum.inr ⟨{ filter0 with priv := priv3 }, buf1, rtp, rtptime⟩

/-- The buffers a subclass pushes itself while it processes a packet, sent in
order through `gst_rtp_base_depayload_push`. -/
def push_all (env : Env) (filter : GstRTPBaseDepayload) :
    List GstBuffer → GstRTPBaseDepayload
  | [] => filter
  | b :: bs => push_all env (gst_rtp_base_depayload_push env filter b).2 bs

/-- The second half of `gst_rtp_base_depayload_handle_buffer`: the segment
event is prepared if needed, the subclass processes the packet and the buffer
it returns is pushed unless a push already failed. -/
def handle_buffer_process (bclass : GstRTPBaseDepayloadClass) (env : Env)
    (a : Accepted) : HandleBufferResult :=
  let filter1 :=
    if a.filter.need_newsegment then
      { a.filter with
        priv := { a.filter.priv with
          segment_event := some (create_segment_event env a.filter a.rtptime a.buffer.pts) },
        need_newsegment := false }
    else a.filter
  let filter2 := { filter1 with priv := { filter1.priv with input_buffer := some a.buffer } }
  let processed : Option ProcessResult :=
    match bclass.process_rtp_packet with
    | some process_rtp_packet_func => some (process_rtp_packet_func filter2 a.buffer a.rtp)
    | none =>
      match bclass.process with
      | some process_func => some (process_func filter2 a.buffer)
      | none => none
  match processed with
  | none => ⟨HandleBufferExit.no_process, GST_FLOW_ERROR, filter2⟩
  | some r =>
    let filter3 := push_all env filter2 r.pushed
    let filter4 := match r.out_buf with
      | some out_buf =>
        if filter3.priv.process_flow_ret = GST_FLOW_OK then
          let q := gst_rtp_base_depayload_push env filter3 out_buf
          { q.2 with priv := { q.2.priv with process_flow_ret := q.1 } }
        else filter3
      | none => filter3
    let filter5 := { filter4 with priv := { filter4.priv with input_buffer := none } }
    ⟨HandleBufferExit.done, filter5.priv.process_flow_ret, filter5⟩

/-- The function `gst_rtp_base_depayload_handle_buffer`: its two halves in
sequence. -/
def gst_rtp_base_depayload_handle_buffer (bclass : GstRTPBaseDepayloadClass)
    (env : Env) (filter : GstRTPBaseDepayload) (buf : GstBuffer) :
    HandleBufferResult :=
  match handle_buffer_accept filter buf with
  | Sum.inl r => r
  | Sum.inr a => handle_buffer_process bclass env a

/-- The function `gst_rtp_base_depayload_chain`: the chain function of the sink
pad. -/
def gst_rtp_base_depayload_chain (bclass : GstRTPBaseDepayloadClass) (env : Env)
    (basedepay : GstRTPBaseDepayload) (buf : GstBuffer) :
    GstFlowReturn × GstRTPBaseDepayload :=
  let r := gst_rtp_base_depayload_handle_buffer bclass env basedepay buf
  (r.ret, r.filter)

/-- The function `gst_rtp_base_depayload_chain_list`: the buffers of the list are handled
one by one until one of them does not return `GST_FLOW_OK`. -/
def gst_rtp_base_depayload_chain_list (bclass : GstRTPBaseDepayloadClass) (env : Env)
    (basedepay : GstRTPBaseDepayload) :
    List GstBuffer → GstFlowReturn × GstRTPBaseDepayload
  | [] => (GST_FLOW_OK, basedepay)
  | buffer :: rest =>
    let r := gst_rtp_base_depayload_handle_buffer bclass env basedepay buffer
    if r.ret ≠ GST_FLOW_OK then (r.ret, r.filter)
    else gst_rtp_base_depayload_chain_list bclass env r.filter rest

/-! ## `gstrtpbasedepayload.c`: events, state changes, properties -/

/-- The function `gst_rtp_base_depayload_handle_event`, the default `handle_event` method.
Returns its result and the new state. -/
def gst_rtp_base_depayload_handle_event (bclass : GstRTPBaseDepayloadClass)
    (env : Env) (filter : GstRTPBaseDepayload) (event : GstEvent) :
    Bool × GstRTPBaseDepayload :=
  let r : Bool × Bool × GstRTPBaseDepayload :=
    match event with
    | GstEvent.flush_stop =>
      (true, true, { filter with
        segment := gst_segment_init GST_FORMAT_UNDEFINED,
        need_newsegment := !filter.priv.onvif_mode,
        priv := { filter.priv with next_seqnum := G_MAXUINT32, segment_event := none } })
    | GstEvent.caps caps =>
      let c := gst_rtp_base_depayload_setcaps bclass filter caps
      (c.1, false, c.2)
    | GstEvent.segment segment seqnum =>
      let res := if segment.format ≠ GST_FORMAT_TIME then false else true
      let filter1 := { filter with
        segment := segment,
        priv := { filter.priv with segment_seqnum := seqnum } }
      (res, if !filter1.priv.onvif_mode then false else true, filter1)
    | GstEvent.custom_downstream name _ =>
      if name = "GstRTPPacketLost" then
        match bclass.packet_lost with
        | some packet_lost =>
          let l := packet_lost filter event
          (l.1, false, { filter with srcpad := filter.srcpad ++ l.2.map PadItem.event })
        | none => (true, false, filter)
      else (true, true, filter)
    | _ => (true, true, filter)
  let res := r.1
  let forward := r.2.1
  let filter1 := r.2.2
  if forward then
    (env.gst_pad_push_event filter1.srcpad event,
      { filter1 with srcpad := filter1.srcpad ++ [PadItem.event event] })
  else (res, filter1)

/-- The string `ROI_EXTMAP_STR`. -/
def ROI_EXTMAP_STR : String := "TBD:draft-ford-avtcore-roi-extension-00"

/-- The function `_get_extmap_id_for_attribute` on the `extmap-<id>` fields of the caps, in
order: the id of the first field whose value is `ext_name` and whose id is in
1..14, else 0. -/
def _get_extmap_id_for_attribute (extmap : List (Int × String)) (ext_name : String) :
    Nat :=
  match extmap.find? (fun f => f.2 = ext_name ∧ 0 < f.1 ∧ f.1 < 15) with
  | some f => f.1.toNat
  | none => 0

/-- The function `gst_rtp_base_depayload_handle_sink_event` for a class that keeps the
default `handle_event` method. -/
def gst_rtp_base_depayload_handle_sink_event (bclass : GstRTPBaseDepayloadClass)
    (env : Env) (filter : GstRTPBaseDepayload) (event : GstEvent) :
    Bool × GstRTPBaseDepayload :=
  let filter1 := match event with
    | GstEvent.caps caps =>
      let ext_id := _get_extmap_id_for_attribute caps.extmap ROI_EXTMAP_STR
      if ext_id > 0 then { filter with priv := { filter.priv with roi_ext_id := ext_id } }
      else filter
    | _ => filter
  gst_rtp_base_depayload_handle_event bclass env filter1 event

/-- The enumeration `GstStateChange`. -/
inductive GstStateChange where
  | GST_STATE_CHANGE_NULL_TO_READY
  | GST_STATE_CHANGE_READY_TO_PAUSED
  | GST_STATE_CHANGE_PAUSED_TO_PLAYING
  | GST_STATE_CHANGE_PLAYING_TO_PAUSED
  | GST_STATE_CHANGE_PAUSED_TO_READY
  | GST_STATE_CHANGE_READY_TO_NULL
deriving DecidableEq, Repr

open GstStateChange

/-- The function `gst_rtp_base_depayload_change_state`: what the transition does to the
state of the depayloader. -/
def gst_rtp_base_depayload_change_state (filter : GstRTPBaseDepayload)
    (transition : GstStateChange) : GstRTPBaseDepayload :=
  let filter1 := match transition with
    | GST_STATE_CHANGE_READY_TO_PAUSED =>
      { filter with
        need_newsegment := true,
        priv := { filter.priv with
          npt_start := 0,
          npt_stop := GST_CLOCK_TIME_NONE,
          play_speed := gdouble_one,
          play_scale := gdouble_one,
          clock_base := G_MAXUINT32,
          onvif_mode := false,
          next_seqnum := G_MAXUINT32,
          negotiated := false,
          discont := false,
          segment_seqnum := GST_SEQNUM_INVALID } }
    | _ => filter
  match transition with
  | GST_STATE_CHANGE_PAUSED_TO_READY =>
    { filter1 with priv := { filter1.priv with last_caps := none, segment_event := none } }
  | _ => filter1

/-- The writable properties, with the value `gst_rtp_base_depayload_set_property`
receives. -/
inductive Property where
  | PROP_SOURCE_INFO (value : Bool)
  | PROP_MAX_REORDER (value : Int)
  | PROP_AUDIO_LEVEL_ID (value : Nat)
  | PROP_ROI_EXT_ID (value : Nat)
deriving DecidableEq, Repr

/-- The function `gst_rtp_base_depayload_set_property`; the values of `audio-level-id` and
`roi-ext-id` are stored in `guint8` fields. -/
def gst_rtp_base_depayload_set_property (depayload : GstRTPBaseDepayload) :
    Property → GstRTPBaseDepayload
  | Property.PROP_SOURCE_INFO value =>
    { depayload with priv := { depayload.priv with source_info := value } }
  | Property.PROP_MAX_REORDER value =>
    { depayload with priv := { depayload.priv with max_reorder := value } }
  | Property.PROP_AUDIO_LEVEL_ID value =>
    { depayload with priv := { depayload.priv with audio_level_id := value % 2 ^ 8 } }
  | Property.PROP_ROI_EXT_ID value =>
    { depayload with priv := { depayload.priv with roi_ext_id := value % 2 ^ 8 } }

/-! ## `gstrtpbasedepayload.c`: lost packets and statistics -/

/-- The function `gst_event_get_structure` of the GStreamer core, as far as
`gst_rtp_base_depayload_packet_lost` looks into its result: the fields
`timestamp`, `duration`, `no-packet-loss` and `might-have-been-fec`, each
absent or present with the type looked for. -/
def gst_event_get_structure : GstEvent → GstRTPPacketLost
  | GstEvent.custom_downstream _ s => s
  | GstEvent.gap timestamp duration no_packet_loss =>
    { timestamp := some timestamp, duration := some duration,
      no_packet_loss := some no_packet_loss, might_have_been_fec := none }
  | _ =>
    { timestamp := none, duration := none, no_packet_loss := none,
      might_have_been_fec := none }

/-- The function `gst_rtp_base_depayload_packet_lost`, the default
`packet_lost` method. `sticky_segment` is the answer of
`gst_pad_get_sticky_event (filter->srcpad, GST_EVENT_SEGMENT, 0)`. Returns the
result and the events sent on the source pad. -/
def gst_rtp_base_depayload_packet_lost (env : Env) (sticky_segment : Option GstEvent)
    (filter : GstRTPBaseDepayload) (event : GstEvent) : Bool × List GstEvent :=
  let s := gst_event_get_structure event
  match s.timestamp, s.duration with
  | some timestamp, some duration =>
    let noloss := match s.no_packet_loss with
      | some v => v
      | none => false
    match sticky_segment with
    | none => (false, [])
    | some _ =>
      if s.might_have_been_fec = none ∨ s.might_have_been_fec = some false then
        let sevent := GstEvent.gap timestamp duration noloss
        (env.gst_pad_push_event filter.srcpad sevent, [sevent])
      else (true, [])
  | _, _ => (false, [])

/-- A `GValue` of one of the types `gst_rtp_base_depayload_create_stats`
stores. -/
inductive GValue where
  | G_TYPE_UINT (v : Nat)
  | G_TYPE_UINT64 (v : Nat)
  | G_TYPE_DOUBLE (v : gdouble)
deriving DecidableEq, Repr

/-- A `GstStructure`: its name and its fields in the order they were set. -/
structure GstStructure where
  name : String
  fields : List (String × GValue)
deriving DecidableEq, Repr

/-- The function `gst_rtp_base_depayload_create_stats`. -/
def gst_rtp_base_depayload_create_stats (env : Env) (depayload : GstRTPBaseDepayload) :
    GstStructure :=
  let priv := depayload.priv
  let pts :=
    if depayload.segment.format ≠ GST_FORMAT_UNDEFINED then
      env.gst_segment_to_running_time depayload.segment priv.pts
    else GST_CLOCK_TIME_NONE
  let dts :=
    if depayload.segment.format ≠ GST_FORMAT_UNDEFINED then
      env.gst_segment_to_running_time depayload.segment priv.dts
    else GST_CLOCK_TIME_NONE
  { name := "application/x-rtp-depayload-stats",
    fields :=
      [("clock_rate", GValue.G_TYPE_UINT (depayload.clock_rate % 2 ^ 32)),
       ("npt-start", GValue.G_TYPE_UINT64 priv.npt_start),
       ("npt-stop", GValue.G_TYPE_UINT64 priv.npt_stop),
       ("play-speed", GValue.G_TYPE_DOUBLE priv.play_speed),
       ("play-scale", GValue.G_TYPE_DOUBLE priv.play_scale),
       ("running-time-dts", GValue.G_TYPE_UINT64 dts),
       ("running-time-pts", GValue.G_TYPE_UINT64 pts),
       ("seqnum", GValue.G_TYPE_UINT (priv.last_seqnum % 2 ^ 32)),
       ("timestamp", GValue.G_TYPE_UINT (priv.last_rtptime % 2 ^ 32))] }

/-! ## The element seen from outside -/

/-- What can be done to the element from outside: a buffer or a buffer list
arrives on the sink pad, an event arrives on the sink pad, the element changes
state, or a property is set. -/
inductive Action where
  | chain (buf : GstBuffer)
  | chain_list (list : List GstBuffer)
  | sink_event (event : GstEvent)
  | change_state (transition : GstStateChange)
  | set_property (prop : Property)

/-- The state of the element after an action. -/
def step (bclass : GstRTPBaseDepayloadClass) (env : Env) (filter : GstRTPBaseDepayload) :
    Action → GstRTPBaseDepayload
  | Action.chain buf => (gst_rtp_base_depayload_chain bclass env filter buf).2
  | Action.chain_list list => (gst_rtp_base_depayload_chain_list bclass env filter list).2
  | Action.sink_event event =>
    (gst_rtp_base_depayload_handle_sink_event bclass env filter event).2
  | Action.change_state transition => gst_rtp_base_depayload_change_state filter transition
  | Action.set_property prop => gst_rtp_base_depayload_set_property filter prop

/-- The states the element can be in: the state after
`gst_rtp_base_depayload_init`, and every state an action leads to from one of
them. -/
inductive Reachable (bclass : GstRTPBaseDepayloadClass) (env : Env) :
    GstRTPBaseDepayload → Prop where
  | init : Reachable bclass env gst_rtp_base_depayload_init
  | step (filter : GstRTPBaseDepayload) (a : Action) :
    Reachable bclass env filter → Reachable bclass env (step bclass env filter a)

/-! ## Notions used to state the properties -/

/-- How far `seqnum` is behind `next_seqnum` on the 16-bit ring:
`(next_seqnum - seqnum) mod 2^16`. -/
def seqnum_behind (next_seqnum seqnum : Nat) : Int :=
  ((next_seqnum : Int) - (seqnum : Int)) % 65536

/-- How far `seqnum` is ahead of `next_seqnum` on the 16-bit ring:
`(seqnum - next_seqnum) mod 2^16`. -/
def seqnum_ahead (next_seqnum seqnum : Nat) : Int :=
  ((seqnum : Int) - (next_seqnum : Int)) % 65536

/-- What is observed of one packet given to
`gst_rtp_base_depayload_handle_buffer`: the label at which the call left;
whether DISCONT was marked on an input buffer that did not carry it, which is
what the code does when the seqnum check finds a discontinuity; whether the
input buffer carried DISCONT itself; and the pending discont flag
`priv->discont` before the call and at the point where the packet is handed to
the subclass (for a call that leaves early, when it leaves). -/
structure PacketTrace where
  exit : HandleBufferExit
  marked_discont : Bool
  buffer_discont : Bool
  pending_before : Bool
  pending_discont : Bool
deriving DecidableEq, Repr

/-- The observation of a single packet. -/
def observe (bclass : GstRTPBaseDepayloadClass) (env : Env)
    (filter : GstRTPBaseDepayload) (buf : GstBuffer) : PacketTrace :=
  { exit := (gst_rtp_base_depayload_handle_buffer bclass env filter buf).exit,
    marked_discont := match handle_buffer_accept filter buf with
      | Sum.inl _ => false
      | Sum.inr a => a.buffer.discont && !buf.discont,
    buffer_discont := buf.discont,
    pending_before := filter.priv.discont,
    pending_discont := match handle_buffer_accept filter buf with
      | Sum.inl r => r.filter.priv.discont
      | Sum.inr a => a.filter.priv.discont }

/-- The observations of a run of packets given one after the other to
`gst_rtp_base_depayload_handle_buffer`. -/
def feed (bclass : GstRTPBaseDepayloadClass) (env : Env) :
    GstRTPBaseDepayload → List GstBuffer → List PacketTrace
  | _, [] => []
  | filter, buf :: rest =>
    observe bclass env filter buf ::
      feed bclass env (gst_rtp_base_depayload_handle_buffer bclass env filter buf).filter rest

/-- A run of RTP packets of one SSRC with consecutive sequence numbers starting
at `seqnum`, each one more than the one before modulo 2^16. -/
def consecutive (ssrc : Nat) : Nat → List GstBuffer → Bool
  | _, [] => true
  | seqnum, buf :: rest =>
    (match buf.rtp with
      | some rtp =>
        decide (gst_rtp_buffer_get_ssrc rtp = ssrc) &&
          decide (gst_rtp_buffer_get_seq rtp = seqnum)
      | none => false) &&
    consecutive ssrc ((seqnum + 1) % 65536) rest

/-- The bytes are a well-formed run of one-byte-form elements and padding
bytes, and no element in it has this id. -/
def onebyte_without (id : Nat) : Nat → List Nat → Bool
  | _, [] => true
  | 0, _ :: _ => false
  | fuel + 1, b :: rest =>
    let read_id := b / 16 % 16
    let read_len := b % 16 + 1
    if read_id = 0 then onebyte_without id fuel rest
    else if read_id = 15 then false
    else if rest.length < read_len then false
    else if read_id = id then false
    else onebyte_without id fuel (rest.drop read_len)

/-- The fields of the tracker and of the negotiation, which the outgoing side
never writes. -/
def same_tracker (f g : GstRTPBaseDepayload) : Prop :=
  g.priv.next_seqnum = f.priv.next_seqnum ∧ g.priv.last_ssrc = f.priv.last_ssrc ∧
  g.priv.negotiated = f.priv.negotiated ∧ g.priv.max_reorder = f.priv.max_reorder

/-- Whether a meta is a `GstRTPSourceMeta`, the kind `foreach_metadata_drop`
removes. -/
def is_rtp_source_meta : GstMeta → Bool
  | GstMeta.rtp_source _ _ _ => true
  | _ => false

/-- Two buffers that differ at most in their metas. -/
def same_but_metas (a b : GstBuffer) : Prop :=
  a.pts = b.pts ∧ a.dts = b.dts ∧ a.duration = b.duration ∧ a.discont = b.discont ∧
  a.rtp = b.rtp

/-- The state `gst_rtp_base_depayload_handle_buffer` is in when it calls the
subclass for an accepted packet: the segment event is prepared if one is
needed, and `input_buffer` is set. -/
def process_input (env : Env) (a : Accepted) : GstRTPBaseDepayload :=
  let filter1 :=
    if a.filter.need_newsegment then
      { a.filter with
        priv := { a.filter.priv with
          segment_event := some (create_segment_event env a.filter a.rtptime a.buffer.pts) },
        need_newsegment := false }
    else a.filter
  { filter1 with priv := { filter1.priv with input_buffer := some a.buffer } }

/-- What the subclass does with an accepted packet: `process_rtp_packet` is
preferred over `process`; `none` when the class has neither. -/
def subclass_process (bclass : GstRTPBaseDepayloadClass) (env : Env) (a : Accepted) :
    Option ProcessResult :=
  match bclass.process_rtp_packet with
  | some process_rtp_packet_func =>
    some (process_rtp_packet_func (process_input env a) a.buffer a.rtp)
  | none =>
    match bclass.process with
    | some process_func => some (process_func (process_input env a) a.buffer)
    | none => none

/-- The flow returns of a run of `gst_rtp_base_depayload_push` calls, in
order. -/
def push_results (env : Env) : GstRTPBaseDepayload → List GstBuffer → List GstFlowReturn
  | _, [] => []
  | filter, b :: bs =>
    (gst_rtp_base_depayload_push env filter b).1 ::
      push_results env (gst_rtp_base_depayload_push env filter b).2 bs

/-- The last flow return of a list that is not `GST_FLOW_OK`, if there is
one. -/
def last_failure (rs : List GstFlowReturn) : Option GstFlowReturn :=
  (rs.filter (fun r => decide (r ≠ GST_FLOW_OK))).getLast?

/-- The field names the documentation of the property `stats` lists, in its
order. -/
def documented_stats_fields : List String :=
  ["clock-rate", "npt-start", "npt-stop", "play-speed", "play-scale",
   "running-time-dts", "running-time-pts", "seqnum", "timestamp"]

/-! ## Concrete inputs -/

/-- A class whose `process` method returns the payload of the packet as one
output buffer. -/
def sample_class : GstRTPBaseDepayloadClass :=
  { set_caps := none,
    process := some (fun _ buf =>
      { pushed := [], out_buf := some { gst_buffer_new with metas := buf.metas } }),
    process_rtp_packet := none,
    packet_lost := none }

/-- A class whose `process` method keeps the packet and returns `NULL`. -/
def silent_class : GstRTPBaseDepayloadClass :=
  { set_caps := none,
    process := some (fun _ _ => { pushed := [], out_buf := none }),
    process_rtp_packet := none,
    packet_lost := none }

/-- A downstream peer that accepts everything. -/
def sample_env : Env :=
  { gst_pad_push := fun _ _ => GST_FLOW_OK,
    gst_pad_push_event := fun _ _ => true,
    gst_segment_to_running_time := fun _ t => t,
    gst_rtp_buffer_ext_timestamp := fun _ t => t,
    gst_rtp_buffer_video_roi_meta_from_one_byte_ext := fun _ _ _ => [],
    roi_ext_hdr_read := none }

/-- A negotiated depayloader with the given tracker fields. -/
def sample_filter (next_seqnum last_ssrc : Nat) (max_reorder : Int) : GstRTPBaseDepayload :=
  { gst_rtp_base_depayload_init with
    priv := { gst_rtp_base_depayload_init.priv with
      negotiated := true,
      next_seqnum := next_seqnum,
      last_ssrc := last_ssrc,
      max_reorder := max_reorder } }

/-- The mapped view of an RTP packet with the given SSRC and sequence number. -/
def sample_rtp (ssrc seq : Nat) : GstRTPBuffer :=
  { ssrc := ssrc, seq := seq, timestamp := 0, csrc := [], ext_onebyte := [] }

/-- A buffer holding an RTP packet with the given SSRC and sequence number,
carrying the DISCONT flag or not. -/
def sample_packet (ssrc seq : Nat) (discont : Bool) : GstBuffer :=
  { gst_buffer_new with discont := discont, rtp := some (sample_rtp ssrc seq) }

/-- Caps without any of the optional fields; `rest` tells them apart. -/
def sample_caps (rest : Nat) : GstCaps :=
  { onvif_mode := none, npt_start := none, npt_stop := none, play_speed := none,
    play_scale := none, clock_base := none, extmap := [], rest := rest }

/-- A negotiated depayloader with the given tracker fields whose last accepted
caps are `sample_caps 0`. -/
def sample_filter_with_caps (next_seqnum last_ssrc : Nat) (max_reorder : Int) :
    GstRTPBaseDepayload :=
  { sample_filter next_seqnum last_ssrc max_reorder with
    priv := { (sample_filter next_seqnum last_ssrc max_reorder).priv with
      last_caps := some (sample_caps 0) } }

/-- A negotiated depayloader whose caps gave `npt-start` and `npt-stop` and
whose stored segment starts at `start`; the clock base is unknown. -/
def sample_filter_npt (npt_start npt_stop start : Nat) : GstRTPBaseDepayload :=
  { sample_filter 4294967295 0 100 with
    segment := { gst_segment_init GST_FORMAT_TIME with start := start },
    priv := { (sample_filter 4294967295 0 100).priv with
      npt_start := npt_start, npt_stop := npt_stop } }

/-- A depayloader in the middle of a packet: the input buffer is known, the
timestamps of the packet are carried, and a discontinuity is pending or not. -/
def sample_filter_pending (discont : Bool) (pts dts duration : Nat) : GstRTPBaseDepayload :=
  { sample_filter 11 7 100 with
    priv := { (sample_filter 11 7 100).priv with
      discont := discont, pts := pts, dts := dts, duration := duration,
      input_buffer := some (sample_packet 7 10 false) } }

/-- A negotiated depayloader whose caps gave no `npt-stop` and whose stored
segment runs from `start` to `stop`; the clock base is unknown. -/
def sample_filter_upstream (start stop : Nat) : GstRTPBaseDepayload :=
  { sample_filter 4294967295 0 100 with
    segment := { gst_segment_init GST_FORMAT_TIME with start := start, stop := stop } }

/-- A negotiated depayloader with a known clock base and clock rate; its stored
segment starts at 0. -/
def sample_filter_clock (clock_base clock_rate : Nat) : GstRTPBaseDepayload :=
  { sample_filter 4294967295 0 100 with
    clock_rate := clock_rate,
    priv := { (sample_filter 4294967295 0 100).priv with clock_base := clock_base } }

/-- A negotiated depayloader in ONVIF mode or not. -/
def sample_filter_onvif (onvif_mode : Bool) : GstRTPBaseDepayload :=
  { sample_filter 11 7 100 with
    priv := { (sample_filter 11 7 100).priv with onvif_mode := onvif_mode } }

/-- A segment in the BYTES format that starts at 7. -/
def sample_segment_bytes : GstSegment :=
  { gst_segment_init GST_FORMAT_BYTES with start := 7 }

/-- A downstream peer that refuses the first buffer with `GST_FLOW_ERROR` and
accepts everything after it. -/
def failing_once_env : Env :=
  { sample_env with
    gst_pad_push := fun sent _ => if sent.length = 0 then GST_FLOW_ERROR else GST_FLOW_OK }

/-- A class whose `process` method pushes the payload itself through
`gst_rtp_base_depayload_push` and also returns a buffer. -/
def pushing_class : GstRTPBaseDepayloadClass :=
  { set_caps := none,
    process := some (fun _ buf =>
      { pushed := [{ gst_buffer_new with metas := buf.metas }],
        out_buf := some gst_buffer_new }),
    process_rtp_packet := none,
    packet_lost := none }

/-- A packet-lost notification with the given fields. -/
def sample_packet_lost (timestamp duration : Option Nat)
    (no_packet_loss might_have_been_fec : Option Bool) : GstEvent :=
  GstEvent.custom_downstream "GstRTPPacketLost"
    { timestamp := timestamp, duration := duration, no_packet_loss := no_packet_loss,
      might_have_been_fec := might_have_been_fec }

/-- A segment event as a source pad keeps it once a segment was sent. -/
def sample_sticky_segment : GstEvent :=
  GstEvent.segment (gst_segment_init GST_FORMAT_TIME) 0

/-- A header-extension codec that needs at most two bytes and writes the one
byte 42 for every input; it refuses a destination without room for it. -/
def sample_hdr_ext_class : GstRTPHeaderExtensionClass Unit :=
  { get_max_size := some (fun _ _ => 2),
    write := some (fun ext _ _ output data size =>
      if size = 0 then some { written := 0, data := data, output := output, ext := ext }
      else some { written := 1, data := data.set 0 42, output := output, ext := ext }),
    read := none }

/-- An instance of the sample codec with the id 1. -/
def sample_hdr_ext : GstRTPHeaderExtension Unit :=
  gst_rtp_header_extension_set_id (gst_rtp_header_extension_init ()) 1

/-- A TIME segment from `start` to `stop` as `create_segment_event` builds it
when the position is unknown and the running time of `start` is `start`. -/
def sample_segment (start stop time : Nat) : GstSegment :=
  { gst_segment_init GST_FORMAT_TIME with
    start := start, stop := stop, time := time, position := start, base := start }

/-- The first packet of a stream, SSRC 7 and seqnum 10, as
`gst_rtp_base_depayload_handle_buffer` accepts it from a negotiated
depayloader whose tracker is unset. -/
def sample_accepted : Accepted :=
  { filter :=
      { sample_filter 4294967295 0 100 with
        priv := { (sample_filter 4294967295 0 100).priv with
          next_seqnum := 11, last_ssrc := 7, last_seqnum := 10 } },
    buffer := sample_packet 7 10 false,
    rtp := sample_rtp 7 10,
    rtptime := 0 }

/-! ## Auxiliary facts -/

theorem to_gint16_low (x g : Int) (h : x % 65536 = g) (hg : g < 32768) :
    to_gint16 x = g := by
  unfold to_gint16
  rw [h]
  simp [hg]

theorem to_gint16_high (x g : Int) (h : x % 65536 = g) (hg : 32768 ≤ g) :
    to_gint16 x = g - 65536 := by
  unfold to_gint16
  rw [h]
  have : ¬ g < 32768 := by omega
  simp [this]

theorem compare_seqnum_behind (seqnum next_seqnum : Nat)
    (h : seqnum_behind next_seqnum seqnum < 32768) :
    gst_rtp_buffer_compare_seqnum seqnum next_seqnum = seqnum_behind next_seqnum seqnum := by
  unfold gst_rtp_buffer_compare_seqnum
  unfold seqnum_behind at *
  apply to_gint16_low
  · omega
  · exact h

theorem compare_seqnum_ahead (seqnum next_seqnum : Nat)
    (h1 : 1 ≤ seqnum_ahead next_seqnum seqnum)
    (h2 : seqnum_ahead next_seqnum seqnum ≤ 32768) :
    gst_rtp_buffer_compare_seqnum seqnum next_seqnum = - seqnum_ahead next_seqnum seqnum := by
  unfold gst_rtp_buffer_compare_seqnum
  unfold seqnum_ahead at *
  rw [to_gint16_high _ (65536 - ((seqnum : Int) - (next_seqnum : Int)) % 65536)]
  · omega
  · omega
  · omega

theorem check_seqnum_old (next_seqnum last_ssrc : Nat) (max_reorder : Int)
    (ssrc seqnum : Nat) (buf_discont : Bool)
    (hinit : next_seqnum ≠ G_MAXUINT32) (hssrc : ssrc = last_ssrc)
    (h1 : 1 ≤ seqnum_behind next_seqnum seqnum)
    (h2 : seqnum_behind next_seqnum seqnum ≤ 32767) :
    check_seqnum next_seqnum last_ssrc max_reorder ssrc seqnum buf_discont =
      if seqnum_behind next_seqnum seqnum ≤ max_reorder then none else some true := by
  have hc := compare_seqnum_behind seqnum next_seqnum (by omega)
  unfold check_seqnum
  simp only [hinit, hssrc, hc, ne_eq, not_false_eq_true, not_true_eq_false, if_true, if_false]
  have hne : ¬ seqnum_behind next_seqnum seqnum = 0 := by omega
  have hnn : ¬ seqnum_behind next_seqnum seqnum < 0 := by omega
  simp [hne, hnn]

theorem check_seqnum_missing (next_seqnum last_ssrc : Nat) (max_reorder : Int)
    (ssrc seqnum : Nat) (buf_discont : Bool)
    (hinit : next_seqnum ≠ G_MAXUINT32) (hssrc : ssrc = last_ssrc)
    (h1 : 1 ≤ seqnum_ahead next_seqnum seqnum)
    (h2 : seqnum_ahead next_seqnum seqnum ≤ 32768) :
    check_seqnum next_seqnum last_ssrc max_reorder ssrc seqnum buf_discont = some true := by
  have hc := compare_seqnum_ahead seqnum next_seqnum h1 h2
  unfold check_seqnum
  simp only [hinit, hssrc, hc, ne_eq, not_false_eq_true, not_true_eq_false, if_true, if_false]
  have hne : ¬ - seqnum_ahead next_seqnum seqnum = 0 := by omega
  have hnn : - seqnum_ahead next_seqnum seqnum < 0 := by omega
  simp [hne, hnn]

theorem check_seqnum_new_ssrc (next_seqnum last_ssrc : Nat) (max_reorder : Int)
    (ssrc seqnum : Nat) (buf_discont : Bool)
    (hinit : next_seqnum ≠ G_MAXUINT32) (hssrc : ssrc ≠ last_ssrc) :
    check_seqnum next_seqnum last_ssrc max_reorder ssrc seqnum buf_discont = some true := by
  unfold check_seqnum
  simp [hinit, hssrc]

theorem check_seqnum_unset (last_ssrc : Nat) (max_reorder : Int)
    (ssrc seqnum : Nat) (buf_discont : Bool) :
    check_seqnum G_MAXUINT32 last_ssrc max_reorder ssrc seqnum buf_discont =
      some buf_discont := by
  unfold check_seqnum
  simp

theorem check_seqnum_in_order (last_ssrc : Nat) (max_reorder : Int)
    (seqnum : Nat) (buf_discont : Bool) :
    check_seqnum seqnum last_ssrc max_reorder last_ssrc seqnum buf_discont =
      some buf_discont := by
  unfold check_seqnum gst_rtp_buffer_compare_seqnum to_gint16
  simp

/-- When the packet is dropped by the seqnum check. -/
theorem accept_of_check_none (filter : GstRTPBaseDepayload) (buf : GstBuffer)
    (rtp : GstRTPBuffer) (hneg : filter.priv.negotiated = true) (hmap : buf.rtp = some rtp)
    (hc : check_seqnum filter.priv.next_seqnum filter.priv.last_ssrc filter.priv.max_reorder
      (gst_rtp_buffer_get_ssrc rtp) (gst_rtp_buffer_get_seq rtp) buf.discont = none) :
    ∃ r, handle_buffer_accept filter buf = Sum.inl r ∧
      r.exit = HandleBufferExit.dropping ∧ r.ret = GST_FLOW_OK ∧
      r.filter.srcpad = filter.srcpad ∧
      r.filter.priv.next_seqnum = filter.priv.next_seqnum ∧
      r.filter.priv.last_ssrc = filter.priv.last_ssrc ∧
      r.filter.priv.discont = filter.priv.discont := by
  unfold handle_buffer_accept
  simp only [hneg, hmap, hc]
  simp

/-- When the packet passes the seqnum check. -/
theorem accept_of_check_some (filter : GstRTPBaseDepayload) (buf : GstBuffer)
    (rtp : GstRTPBuffer) (discont : Bool)
    (hneg : filter.priv.negotiated = true) (hmap : buf.rtp = some rtp)
    (hc : check_seqnum filter.priv.next_seqnum filter.priv.last_ssrc filter.priv.max_reorder
      (gst_rtp_buffer_get_ssrc rtp) (gst_rtp_buffer_get_seq rtp) buf.discont = some discont) :
    ∃ a, handle_buffer_accept filter buf = Sum.inr a ∧
      a.filter.priv.next_seqnum = (gst_rtp_buffer_get_seq rtp + 1) % 65536 ∧
      a.filter.priv.last_ssrc = gst_rtp_buffer_get_ssrc rtp ∧
      a.filter.priv.discont = (discont || filter.priv.discont) ∧
      a.filter.priv.negotiated = true ∧
      a.filter.priv.max_reorder = filter.priv.max_reorder ∧
      a.filter.srcpad = filter.srcpad ∧
      a.buffer = (if discont ∧ ¬ buf.discont then { buf with discont := true } else buf) ∧
      a.rtp = rtp := by
  unfold handle_buffer_accept
  simp only [hneg, hmap, hc]
  refine ⟨_, rfl, ?_⟩
  cases discont <;> simp

theorem same_tracker_refl (f : GstRTPBaseDepayload) : same_tracker f f :=
  ⟨rfl, rfl, rfl, rfl⟩

theorem same_tracker_trans {f g h : GstRTPBaseDepayload}
    (h1 : same_tracker f g) (h2 : same_tracker g h) : same_tracker f h := by
  unfold same_tracker at *
  obtain ⟨a1, a2, a3, a4⟩ := h1
  obtain ⟨b1, b2, b3, b4⟩ := h2
  exact ⟨b1.trans a1, b2.trans a2, b3.trans a3, b4.trans a4⟩

theorem set_headers_state (env : Env) (buffer : GstBuffer) (f : GstRTPBaseDepayload) :
    (set_headers env buffer f).2 =
      { f with priv := { f.priv with
          discont := if f.priv.discont then false else f.priv.discont,
          pts := GST_CLOCK_TIME_NONE, dts := GST_CLOCK_TIME_NONE,
          duration := GST_CLOCK_TIME_NONE } } := rfl

theorem push_same_tracker (env : Env) (f : GstRTPBaseDepayload) (b : GstBuffer) :
    same_tracker f (gst_rtp_base_depayload_push env f b).2 := by
  unfold gst_rtp_base_depayload_push gst_rtp_base_depayload_prepare_push
  simp only [set_headers_state]
  unfold same_tracker
  cases f.priv.segment_event <;> simp <;> split <;> simp

theorem push_all_same_tracker (env : Env) (bs : List GstBuffer) :
    ∀ f : GstRTPBaseDepayload, same_tracker f (push_all env f bs) := by
  induction bs with
  | nil => intro f; exact same_tracker_refl f
  | cons b bs ih =>
    intro f
    exact same_tracker_trans (push_same_tracker env f b) (ih _)

theorem process_same_tracker (bclass : GstRTPBaseDepayloadClass) (env : Env) (a : Accepted) :
    same_tracker a.filter (handle_buffer_process bclass env a).filter ∧
    ((handle_buffer_process bclass env a).exit = HandleBufferExit.done ∨
      (handle_buffer_process bclass env a).exit = HandleBufferExit.no_process) := by
  have h2 : ∀ f : GstRTPBaseDepayload, same_tracker a.filter f →
      same_tracker a.filter
        { f with priv := { f.priv with input_buffer := some a.buffer } } := by
    intro f hf; exact hf
  have h1 : same_tracker a.filter
      (if a.filter.need_newsegment then
        { a.filter with
          priv := { a.filter.priv with
            segment_event :=
              some (create_segment_event env a.filter a.rtptime a.buffer.pts) },
          need_newsegment := false }
      else a.filter) := by
    split
    · exact ⟨rfl, rfl, rfl, rfl⟩
    · exact same_tracker_refl _
  have h5 : ∀ (f : GstRTPBaseDepayload) (r : ProcessResult), same_tracker a.filter f →
      same_tracker a.filter
        (match r.out_buf with
          | some out_buf =>
            if (push_all env f r.pushed).priv.process_flow_ret = GST_FLOW_OK then
              { (gst_rtp_base_depayload_push env (push_all env f r.pushed) out_buf).2 with
                priv := { (gst_rtp_base_depayload_push env (push_all env f r.pushed)
                    out_buf).2.priv with
                  process_flow_ret :=
                    (gst_rtp_base_depayload_push env (push_all env f r.pushed) out_buf).1 } }
            else push_all env f r.pushed
          | none => push_all env f r.pushed) := by
    intro f r hf
    have h3 := same_tracker_trans hf (push_all_same_tracker env r.pushed f)
    split
    · split
      · exact same_tracker_trans h3 (push_same_tracker env _ _)
      · exact h3
    · exact h3
  unfold handle_buffer_process
  cases hp : bclass.process_rtp_packet with
  | some pf =>
    exact ⟨h5 _ _ (h2 _ h1), Or.inl rfl⟩
  | none =>
    cases hq : bclass.process with
    | some pf => exact ⟨h5 _ _ (h2 _ h1), Or.inl rfl⟩
    | none => exact ⟨h2 _ h1, Or.inr rfl⟩

theorem handle_buffer_of_accept (bclass : GstRTPBaseDepayloadClass) (env : Env)
    (filter : GstRTPBaseDepayload) (buf : GstBuffer) (a : Accepted)
    (h : handle_buffer_accept filter buf = Sum.inr a) :
    same_tracker a.filter (gst_rtp_base_depayload_handle_buffer bclass env filter buf).filter ∧
    ((gst_rtp_base_depayload_handle_buffer bclass env filter buf).exit = HandleBufferExit.done ∨
      (gst_rtp_base_depayload_handle_buffer bclass env filter buf).exit =
        HandleBufferExit.no_process) := by
  unfold gst_rtp_base_depayload_handle_buffer
  rw [h]
  exact process_same_tracker bclass env a

/-! ## The sequence tracker -/

/-- C1: for an initialised tracker and a packet of the same SSRC whose seqnum is
behind `next_seqnum` by `g` with `1 ≤ g ≤ 32767` and `g ≤ max_reorder` (the
boundary `g = max_reorder` included), `gst_rtp_base_depayload_handle_buffer`
leaves at `dropping`: it returns `GST_FLOW_OK`, nothing is sent on the source
pad, and `next_seqnum`, `last_ssrc` and the pending discont flag are
unchanged. -/
theorem old_packet_within_max_reorder_is_dropped
    (bclass : GstRTPBaseDepayloadClass) (env : Env) (filter : GstRTPBaseDepayload)
    (buf : GstBuffer) (rtp : GstRTPBuffer)
    (hneg : filter.priv.negotiated = true) (hmap : buf.rtp = some rtp)
    (hinit : filter.priv.next_seqnum ≠ G_MAXUINT32)
    (hssrc : gst_rtp_buffer_get_ssrc rtp = filter.priv.last_ssrc)
    (h1 : 1 ≤ seqnum_behind filter.priv.next_seqnum (gst_rtp_buffer_get_seq rtp))
    (h2 : seqnum_behind filter.priv.next_seqnum (gst_rtp_buffer_get_seq rtp) ≤ 32767)
    (h3 : seqnum_behind filter.priv.next_seqnum (gst_rtp_buffer_get_seq rtp) ≤
      filter.priv.max_reorder) :
    (gst_rtp_base_depayload_handle_buffer bclass env filter buf).exit =
      HandleBufferExit.dropping ∧
    (gst_rtp_base_depayload_handle_buffer bclass env filter buf).ret = GST_FLOW_OK ∧
    (gst_rtp_base_depayload_handle_buffer bclass env filter buf).filter.srcpad =
      filter.srcpad ∧
    (gst_rtp_base_depayload_handle_buffer bclass env filter buf).filter.priv.next_seqnum =
      filter.priv.next_seqnum ∧
    (gst_rtp_base_depayload_handle_buffer bclass env filter buf).filter.priv.last_ssrc =
      filter.priv.last_ssrc ∧
    (gst_rtp_base_depayload_handle_buffer bclass env filter buf).filter.priv.discont =
      filter.priv.discont := by
  have hc := check_seqnum_old filter.priv.next_seqnum filter.priv.last_ssrc
    filter.priv.max_reorder (gst_rtp_buffer_get_ssrc rtp) (gst_rtp_buffer_get_seq rtp)
    buf.discont hinit hssrc h1 h2
  rw [if_pos h3] at hc
  obtain ⟨r, hr, hrest⟩ := accept_of_check_none filter buf rtp hneg hmap hc
  unfold gst_rtp_base_depayload_handle_buffer
  rw [hr]
  exact hrest

/-- Witness of C1 at the boundary: `next_seqnum = 110`, a packet with seqnum 10
(behind by 100) and `max_reorder = 100`. -/
theorem old_packet_within_max_reorder_is_dropped_witness :
    (gst_rtp_base_depayload_handle_buffer sample_class sample_env
      (sample_filter 110 7 100) (sample_packet 7 10 false)).exit =
      HandleBufferExit.dropping ∧
    (gst_rtp_base_depayload_handle_buffer sample_class sample_env
      (sample_filter 110 7 100) (sample_packet 7 10 false)).ret = GST_FLOW_OK ∧
    (gst_rtp_base_depayload_handle_buffer sample_class sample_env
      (sample_filter 110 7 100) (sample_packet 7 10 false)).filter.srcpad =
      (sample_filter 110 7 100).srcpad ∧
    (gst_rtp_base_depayload_handle_buffer sample_class sample_env
      (sample_filter 110 7 100) (sample_packet 7 10 false)).filter.priv.next_seqnum =
      (sample_filter 110 7 100).priv.next_seqnum ∧
    (gst_rtp_base_depayload_handle_buffer sample_class sample_env
      (sample_filter 110 7 100) (sample_packet 7 10 false)).filter.priv.last_ssrc =
      (sample_filter 110 7 100).priv.last_ssrc ∧
    (gst_rtp_base_depayload_handle_buffer sample_class sample_env
      (sample_filter 110 7 100) (sample_packet 7 10 false)).filter.priv.discont =
      (sample_filter 110 7 100).priv.discont :=
  old_packet_within_max_reorder_is_dropped sample_class sample_env
    (sample_filter 110 7 100) (sample_packet 7 10 false) (sample_rtp 7 10)
    rfl rfl (by decide) (by decide) (by decide) (by decide) (by decide)

/-- With `max_reorder = 0` the seqnum check never takes the `dropping`
branch. -/
theorem check_seqnum_max_reorder_zero (next_seqnum last_ssrc ssrc seqnum : Nat)
    (buf_discont : Bool) :
    check_seqnum next_seqnum last_ssrc 0 ssrc seqnum buf_discont ≠ none := by
  unfold check_seqnum
  split
  · split
    · simp
    · simp only []
      split
      · split
        · simp
        · split
          · omega
          · simp
      · simp
  · simp

/-- C2: for an initialised tracker and a packet of the same SSRC whose seqnum is
behind `next_seqnum` by `g` with `1 ≤ g ≤ 32767` and `g > max_reorder`, the
packet is accepted: it is handed on with the pending discont flag set and
`next_seqnum = (seqnum + 1) mod 2^16`, the call does not leave at `dropping`
and `next_seqnum` still has that value when it returns. With `max_reorder = 0`
no call leaves at `dropping`, whatever the tracker and the packet, so every
duplicate or reordered packet is one of those that set the flag. -/
theorem old_packet_beyond_max_reorder_is_discont
    (bclass : GstRTPBaseDepayloadClass) (env : Env) (filter : GstRTPBaseDepayload)
    (buf : GstBuffer) (rtp : GstRTPBuffer)
    (hneg : filter.priv.negotiated = true) (hmap : buf.rtp = some rtp) :
    (filter.priv.next_seqnum ≠ G_MAXUINT32 →
      gst_rtp_buffer_get_ssrc rtp = filter.priv.last_ssrc →
      1 ≤ seqnum_behind filter.priv.next_seqnum (gst_rtp_buffer_get_seq rtp) →
      seqnum_behind filter.priv.next_seqnum (gst_rtp_buffer_get_seq rtp) ≤ 32767 →
      filter.priv.max_reorder <
        seqnum_behind filter.priv.next_seqnum (gst_rtp_buffer_get_seq rtp) →
      (∃ a, handle_buffer_accept filter buf = Sum.inr a ∧
        a.filter.priv.discont = true ∧
        a.filter.priv.next_seqnum = (gst_rtp_buffer_get_seq rtp + 1) % 65536) ∧
      ((gst_rtp_base_depayload_handle_buffer bclass env filter buf).exit =
          HandleBufferExit.done ∨
        (gst_rtp_base_depayload_handle_buffer bclass env filter buf).exit =
          HandleBufferExit.no_process) ∧
      (gst_rtp_base_depayload_handle_buffer bclass env filter buf).filter.priv.next_seqnum =
        (gst_rtp_buffer_get_seq rtp + 1) % 65536) ∧
    (filter.priv.max_reorder = 0 →
      (gst_rtp_base_depayload_handle_buffer bclass env filter buf).exit ≠
        HandleBufferExit.dropping) := by
  constructor
  · intro hinit hssrc h1 h2 h3
    have hc := check_seqnum_old filter.priv.next_seqnum filter.priv.last_ssrc
      filter.priv.max_reorder (gst_rtp_buffer_get_ssrc rtp) (gst_rtp_buffer_get_seq rtp)
      buf.discont hinit hssrc h1 h2
    rw [if_neg (by omega)] at hc
    obtain ⟨a, ha, hn, _, hd, _⟩ := accept_of_check_some filter buf rtp true hneg hmap hc
    obtain ⟨ht, hexit⟩ := handle_buffer_of_accept bclass env filter buf a ha
    refine ⟨⟨a, ha, ?_, hn⟩, hexit, ?_⟩
    · rw [hd]; rfl
    · rw [ht.1, hn]
  · intro h0
    cases hc : check_seqnum filter.priv.next_seqnum filter.priv.last_ssrc
        filter.priv.max_reorder (gst_rtp_buffer_get_ssrc rtp) (gst_rtp_buffer_get_seq rtp)
        buf.discont with
    | none =>
      rw [h0] at hc
      exact absurd hc (check_seqnum_max_reorder_zero _ _ _ _ _)
    | some d =>
      obtain ⟨a, ha, _⟩ := accept_of_check_some filter buf rtp d hneg hmap hc
      obtain ⟨_, hexit⟩ := handle_buffer_of_accept bclass env filter buf a ha
      rcases hexit with h | h <;> rw [h] <;> decide

/-- Witness of C2: `max_reorder = 0`, `next_seqnum = 11`, and the packet with
seqnum 10 arrives a second time. -/
theorem old_packet_beyond_max_reorder_is_discont_witness :
    ((∃ a, handle_buffer_accept (sample_filter 11 7 0) (sample_packet 7 10 false) =
        Sum.inr a ∧
        a.filter.priv.discont = true ∧
        a.filter.priv.next_seqnum = (gst_rtp_buffer_get_seq (sample_rtp 7 10) + 1) % 65536) ∧
      ((gst_rtp_base_depayload_handle_buffer sample_class sample_env
          (sample_filter 11 7 0) (sample_packet 7 10 false)).exit = HandleBufferExit.done ∨
        (gst_rtp_base_depayload_handle_buffer sample_class sample_env
          (sample_filter 11 7 0) (sample_packet 7 10 false)).exit =
          HandleBufferExit.no_process) ∧
      (gst_rtp_base_depayload_handle_buffer sample_class sample_env
        (sample_filter 11 7 0) (sample_packet 7 10 false)).filter.priv.next_seqnum =
        (gst_rtp_buffer_get_seq (sample_rtp 7 10) + 1) % 65536) ∧
    (gst_rtp_base_depayload_handle_buffer sample_class sample_env
      (sample_filter 11 7 0) (sample_packet 7 10 false)).exit ≠ HandleBufferExit.dropping :=
  ⟨(old_packet_beyond_max_reorder_is_discont sample_class sample_env
      (sample_filter 11 7 0) (sample_packet 7 10 false) (sample_rtp 7 10) rfl rfl).1
      (by decide) (by decide) (by decide) (by decide) (by decide),
    (old_packet_beyond_max_reorder_is_discont sample_class sample_env
      (sample_filter 11 7 0) (sample_packet 7 10 false) (sample_rtp 7 10) rfl rfl).2 rfl⟩

/-- C3: for an initialised tracker and a packet of the same SSRC whose seqnum is
ahead of `next_seqnum` (`(seqnum - next_seqnum) mod 2^16` in 1..32768, packets
are missing), the packet is accepted whatever `max_reorder` is: it is handed
on with the pending discont flag set, and the call does not leave at
`dropping`. -/
theorem missing_packets_is_discont
    (bclass : GstRTPBaseDepayloadClass) (env : Env) (filter : GstRTPBaseDepayload)
    (buf : GstBuffer) (rtp : GstRTPBuffer)
    (hneg : filter.priv.negotiated = true) (hmap : buf.rtp = some rtp)
    (hinit : filter.priv.next_seqnum ≠ G_MAXUINT32)
    (hssrc : gst_rtp_buffer_get_ssrc rtp = filter.priv.last_ssrc)
    (h1 : 1 ≤ seqnum_ahead filter.priv.next_seqnum (gst_rtp_buffer_get_seq rtp))
    (h2 : seqnum_ahead filter.priv.next_seqnum (gst_rtp_buffer_get_seq rtp) ≤ 32768) :
    (∃ a, handle_buffer_accept filter buf = Sum.inr a ∧ a.filter.priv.discont = true) ∧
    ((gst_rtp_base_depayload_handle_buffer bclass env filter buf).exit =
        HandleBufferExit.done ∨
      (gst_rtp_base_depayload_handle_buffer bclass env filter buf).exit =
        HandleBufferExit.no_process) := by
  have hc := check_seqnum_missing filter.priv.next_seqnum filter.priv.last_ssrc
    filter.priv.max_reorder (gst_rtp_buffer_get_ssrc rtp) (gst_rtp_buffer_get_seq rtp)
    buf.discont hinit hssrc h1 h2
  obtain ⟨a, ha, _, _, hd, _⟩ := accept_of_check_some filter buf rtp true hneg hmap hc
  obtain ⟨_, hexit⟩ := handle_buffer_of_accept bclass env filter buf a ha
  exact ⟨⟨a, ha, by rw [hd]; rfl⟩, hexit⟩

/-- Witness of C3: `next_seqnum = 65530`, the packet with seqnum 5 arrives
(11 ahead across the wrap) with the largest `max_reorder`. -/
theorem missing_packets_is_discont_witness :
    (∃ a, handle_buffer_accept (sample_filter 65530 7 2147483647)
        (sample_packet 7 5 false) = Sum.inr a ∧ a.filter.priv.discont = true) ∧
    ((gst_rtp_base_depayload_handle_buffer sample_class sample_env
        (sample_filter 65530 7 2147483647) (sample_packet 7 5 false)).exit =
        HandleBufferExit.done ∨
      (gst_rtp_base_depayload_handle_buffer sample_class sample_env
        (sample_filter 65530 7 2147483647) (sample_packet 7 5 false)).exit =
        HandleBufferExit.no_process) :=
  missing_packets_is_discont sample_class sample_env
    (sample_filter 65530 7 2147483647) (sample_packet 7 5 false) (sample_rtp 7 5)
    rfl rfl (by decide) (by decide) (by decide) (by decide)

/-- A run of consecutive packets, fed to a tracker that is unset or expects
exactly the first of them. -/
theorem feed_consecutive (bclass : GstRTPBaseDepayloadClass) (env : Env) (ssrc : Nat)
    (bufs : List GstBuffer) :
    ∀ (seqnum : Nat) (filter : GstRTPBaseDepayload),
      filter.priv.negotiated = true →
      (filter.priv.next_seqnum = G_MAXUINT32 ∨
        (filter.priv.next_seqnum = seqnum ∧ filter.priv.last_ssrc = ssrc)) →
      consecutive ssrc seqnum bufs = true →
      ∀ t ∈ feed bclass env filter bufs,
        (t.exit = HandleBufferExit.done ∨ t.exit = HandleBufferExit.no_process) ∧
        t.marked_discont = false ∧
        t.pending_discont = (t.buffer_discont || t.pending_before) := by
  induction bufs with
  | nil =>
    intro seqnum filter _ _ _ t ht
    simp [feed] at ht
  | cons buf rest ih =>
    intro seqnum filter hneg hst hcons t ht
    simp only [consecutive, Bool.and_eq_true] at hcons
    obtain ⟨hhead, hrest⟩ := hcons
    cases hmap : buf.rtp with
    | none => simp [hmap] at hhead
    | some rtp =>
    simp only [hmap, Bool.and_eq_true, decide_eq_true_eq] at hhead
    obtain ⟨hssrc, hseq⟩ := hhead
    have hc : check_seqnum filter.priv.next_seqnum filter.priv.last_ssrc
        filter.priv.max_reorder (gst_rtp_buffer_get_ssrc rtp) (gst_rtp_buffer_get_seq rtp)
        buf.discont = some buf.discont := by
      rcases hst with hu | ⟨hn, hl⟩
      · rw [hu]; exact check_seqnum_unset _ _ _ _ _
      · rw [hn, hl, hssrc, hseq]; exact check_seqnum_in_order _ _ _ _
    obtain ⟨a, ha, hn, hl, hd, hng, _, _, hb, _⟩ :=
      accept_of_check_some filter buf rtp buf.discont hneg hmap hc
    obtain ⟨ht4, hexit⟩ := handle_buffer_of_accept bclass env filter buf a ha
    have hbuf : a.buffer = buf := by
      rw [hb]; simp
    simp only [feed, List.mem_cons] at ht
    rcases ht with h | h
    · subst h
      refine ⟨hexit, ?_, ?_⟩
      · simp [observe, ha, hbuf]
      · simp only [observe, ha]
        exact hd
    · refine ih ((seqnum + 1) % 65536) _ ?_ ?_ hrest t h
      · rw [ht4.2.2.1, hng]
      · right
        rw [ht4.1, ht4.2.1, hn, hl, hseq, hssrc]
        exact ⟨rfl, rfl⟩

/-- C4: a run of packets of one SSRC with consecutive sequence numbers (each one
more than the one before modulo 2^16, the wrap from 65535 to 0 included), fed
to `gst_rtp_base_depayload_handle_buffer` starting from an unset tracker: every
call goes on to the processing of the packet (none leaves at `dropping`), and
on no packet, the first included, does the seqnum check raise a discontinuity:
DISCONT is never marked on an input buffer that did not carry it, and the
pending discont flag `priv->discont` with which the packet is handed to the
subclass is set exactly when the input buffer carried DISCONT itself or the
flag was already pending before the call. -/
theorem consecutive_packets_raise_no_discont
    (bclass : GstRTPBaseDepayloadClass) (env : Env) (filter : GstRTPBaseDepayload)
    (ssrc seqnum : Nat) (bufs : List GstBuffer)
    (hneg : filter.priv.negotiated = true)
    (hunset : filter.priv.next_seqnum = G_MAXUINT32)
    (hcons : consecutive ssrc seqnum bufs = true) :
    ∀ t ∈ feed bclass env filter bufs,
      (t.exit = HandleBufferExit.done ∨ t.exit = HandleBufferExit.no_process) ∧
      t.marked_discont = false ∧
      t.pending_discont = (t.buffer_discont || t.pending_before) :=
  feed_consecutive bclass env ssrc bufs seqnum filter hneg (Or.inl hunset) hcons

/-- Witness of C4: the packets 65535, 0, 1 of SSRC 7 across the wrap form a
consecutive run, each of their three observations is as stated, and the
pending discont flag is raised for none of them. -/
theorem consecutive_packets_raise_no_discont_witness :
    consecutive 7 65535
      [sample_packet 7 65535 false, sample_packet 7 0 false, sample_packet 7 1 false] =
      true ∧
    List.Forall
      (fun t : PacketTrace =>
        (t.exit = HandleBufferExit.done ∨ t.exit = HandleBufferExit.no_process) ∧
        t.marked_discont = false ∧
        t.pending_discont = (t.buffer_discont || t.pending_before))
      (feed sample_class sample_env (sample_filter 4294967295 0 100)
        [sample_packet 7 65535 false, sample_packet 7 0 false, sample_packet 7 1 false]) ∧
    (feed sample_class sample_env (sample_filter 4294967295 0 100)
        [sample_packet 7 65535 false, sample_packet 7 0 false,
          sample_packet 7 1 false]).map (fun t => t.pending_discont) =
      [false, false, false] :=
  ⟨rfl,
    List.forall_iff_forall_mem.mpr
      (consecutive_packets_raise_no_discont sample_class sample_env
        (sample_filter 4294967295 0 100) 7 65535
        [sample_packet 7 65535 false, sample_packet 7 0 false, sample_packet 7 1 false]
        rfl rfl rfl),
    rfl⟩

/-- Counterexample to C5 as stated: the tracker is unset and no discontinuity
is pending; the first packet carries the DISCONT flag itself, and when the call
returns the pending discont flag is set. -/
theorem first_packet_with_discont_sets_pending_flag :
    (sample_filter 4294967295 0 100).priv.next_seqnum = G_MAXUINT32 ∧
    (sample_filter 4294967295 0 100).priv.discont = false ∧
    (gst_rtp_base_depayload_handle_buffer silent_class sample_env
      (sample_filter 4294967295 0 100) (sample_packet 7 10 true)).exit =
      HandleBufferExit.done ∧
    (gst_rtp_base_depayload_handle_buffer silent_class sample_env
      (sample_filter 4294967295 0 100) (sample_packet 7 10 true)).filter.priv.discont =
      true :=
  ⟨rfl, rfl, rfl, rfl⟩

/-- C5, amended: while the tracker is unset, the packet is accepted whatever its
seqnum and SSRC, `next_seqnum` becomes `(seqnum + 1) mod 2^16`, and the seqnum
check raises no discontinuity: the input buffer is handed on as it came, and
the pending discont flag is set by this packet exactly when the buffer itself
carries the DISCONT flag. -/
theorem first_packet_is_accepted
    (bclass : GstRTPBaseDepayloadClass) (env : Env) (filter : GstRTPBaseDepayload)
    (buf : GstBuffer) (rtp : GstRTPBuffer)
    (hneg : filter.priv.negotiated = true) (hmap : buf.rtp = some rtp)
    (hunset : filter.priv.next_seqnum = G_MAXUINT32) :
    (∃ a, handle_buffer_accept filter buf = Sum.inr a ∧
      a.buffer = buf ∧
      a.filter.priv.discont = (buf.discont || filter.priv.discont) ∧
      a.filter.priv.next_seqnum = (gst_rtp_buffer_get_seq rtp + 1) % 65536) ∧
    ((gst_rtp_base_depayload_handle_buffer bclass env filter buf).exit =
        HandleBufferExit.done ∨
      (gst_rtp_base_depayload_handle_buffer bclass env filter buf).exit =
        HandleBufferExit.no_process) ∧
    (gst_rtp_base_depayload_handle_buffer bclass env filter buf).filter.priv.next_seqnum =
      (gst_rtp_buffer_get_seq rtp + 1) % 65536 := by
  have hc : check_seqnum filter.priv.next_seqnum filter.priv.last_ssrc
      filter.priv.max_reorder (gst_rtp_buffer_get_ssrc rtp) (gst_rtp_buffer_get_seq rtp)
      buf.discont = some buf.discont := by
    rw [hunset]; exact check_seqnum_unset _ _ _ _ _
  obtain ⟨a, ha, hn, _, hd, _, _, _, hb, _⟩ :=
    accept_of_check_some filter buf rtp buf.discont hneg hmap hc
  obtain ⟨ht, hexit⟩ := handle_buffer_of_accept bclass env filter buf a ha
  refine ⟨⟨a, ha, ?_, hd, hn⟩, hexit, ?_⟩
  · rw [hb]; simp
  · rw [ht.1, hn]

/-- Witness of C5, amended: a first packet without the DISCONT flag. -/
theorem first_packet_is_accepted_witness :
    (∃ a, handle_buffer_accept (sample_filter 4294967295 0 100) (sample_packet 7 10 false) =
        Sum.inr a ∧
      a.buffer = sample_packet 7 10 false ∧
      a.filter.priv.discont = ((sample_packet 7 10 false).discont ||
        (sample_filter 4294967295 0 100).priv.discont) ∧
      a.filter.priv.next_seqnum = (gst_rtp_buffer_get_seq (sample_rtp 7 10) + 1) % 65536) ∧
    ((gst_rtp_base_depayload_handle_buffer sample_class sample_env
        (sample_filter 4294967295 0 100) (sample_packet 7 10 false)).exit =
        HandleBufferExit.done ∨
      (gst_rtp_base_depayload_handle_buffer sample_class sample_env
        (sample_filter 4294967295 0 100) (sample_packet 7 10 false)).exit =
        HandleBufferExit.no_process) ∧
    (gst_rtp_base_depayload_handle_buffer sample_class sample_env
      (sample_filter 4294967295 0 100)
      (sample_packet 7 10 false)).filter.priv.next_seqnum =
      (gst_rtp_buffer_get_seq (sample_rtp 7 10) + 1) % 65536 :=
  first_packet_is_accepted sample_class sample_env (sample_filter 4294967295 0 100)
    (sample_packet 7 10 false) (sample_rtp 7 10) rfl rfl rfl

/-- C6: for an initialised tracker and a packet whose SSRC differs from
`last_ssrc`, the packet is accepted as coming from a restarted sender, whatever
its seqnum and `max_reorder`: it is handed on with the pending discont flag
set, and the call does not leave at `dropping`. -/
theorem new_ssrc_is_discont
    (bclass : GstRTPBaseDepayloadClass) (env : Env) (filter : GstRTPBaseDepayload)
    (buf : GstBuffer) (rtp : GstRTPBuffer)
    (hneg : filter.priv.negotiated = true) (hmap : buf.rtp = some rtp)
    (hinit : filter.priv.next_seqnum ≠ G_MAXUINT32)
    (hssrc : gst_rtp_buffer_get_ssrc rtp ≠ filter.priv.last_ssrc) :
    (∃ a, handle_buffer_accept filter buf = Sum.inr a ∧ a.filter.priv.discont = true) ∧
    ((gst_rtp_base_depayload_handle_buffer bclass env filter buf).exit =
        HandleBufferExit.done ∨
      (gst_rtp_base_depayload_handle_buffer bclass env filter buf).exit =
        HandleBufferExit.no_process) := by
  have hc := check_seqnum_new_ssrc filter.priv.next_seqnum filter.priv.last_ssrc
    filter.priv.max_reorder (gst_rtp_buffer_get_ssrc rtp) (gst_rtp_buffer_get_seq rtp)
    buf.discont hinit hssrc
  obtain ⟨a, ha, _, _, hd, _⟩ := accept_of_check_some filter buf rtp true hneg hmap hc
  obtain ⟨_, hexit⟩ := handle_buffer_of_accept bclass env filter buf a ha
  exact ⟨⟨a, ha, by rw [hd]; rfl⟩, hexit⟩

/-- Witness of C6: the tracker expects seqnum 11 of SSRC 7 with
`max_reorder = 100`; a packet of SSRC 8 with seqnum 10 arrives, which would be
dropped as old if it came from SSRC 7. -/
theorem new_ssrc_is_discont_witness :
    (∃ a, handle_buffer_accept (sample_filter 11 7 100) (sample_packet 8 10 false) =
        Sum.inr a ∧ a.filter.priv.discont = true) ∧
    ((gst_rtp_base_depayload_handle_buffer sample_class sample_env
        (sample_filter 11 7 100) (sample_packet 8 10 false)).exit =
        HandleBufferExit.done ∨
      (gst_rtp_base_depayload_handle_buffer sample_class sample_env
        (sample_filter 11 7 100) (sample_packet 8 10 false)).exit =
        HandleBufferExit.no_process) :=
  new_ssrc_is_discont sample_class sample_env (sample_filter 11 7 100)
    (sample_packet 8 10 false) (sample_rtp 8 10) rfl rfl (by decide) (by decide)

/-- The early leaves of `handle_buffer_accept` do not touch `next_seqnum`. -/
theorem accept_inl_next_seqnum (filter : GstRTPBaseDepayload) (buf : GstBuffer)
    (r : HandleBufferResult) (h : handle_buffer_accept filter buf = Sum.inl r) :
    r.filter.priv.next_seqnum = filter.priv.next_seqnum ∧
    r.exit ≠ HandleBufferExit.done ∧ r.exit ≠ HandleBufferExit.no_process := by
  unfold handle_buffer_accept at h
  by_cases hneg : filter.priv.negotiated = true
  · cases hmap : buf.rtp with
    | none =>
      simp only [hneg, hmap] at h
      simp at h
      subst h
      simp
    | some rtp =>
      simp only [hneg, hmap] at h
      cases hc : check_seqnum filter.priv.next_seqnum filter.priv.last_ssrc
          filter.priv.max_reorder (gst_rtp_buffer_get_ssrc rtp)
          (gst_rtp_buffer_get_seq rtp) buf.discont with
      | none =>
        simp only [hc] at h
        simp at h
        subst h
        simp
      | some d =>
        simp only [hc] at h
        simp at h
  · simp only [hneg] at h
    simp at h
    subst h
    simp

/-- A packet handed on by `handle_buffer_accept` has set the tracker fields. -/
theorem accept_inr_tracker (filter : GstRTPBaseDepayload) (buf : GstBuffer)
    (a : Accepted) (h : handle_buffer_accept filter buf = Sum.inr a) :
    ∃ rtp, buf.rtp = some rtp ∧
      a.filter.priv.next_seqnum = (gst_rtp_buffer_get_seq rtp + 1) % 65536 ∧
      a.filter.priv.last_ssrc = gst_rtp_buffer_get_ssrc rtp := by
  by_cases hneg : filter.priv.negotiated = true
  · cases hmap : buf.rtp with
    | none =>
      unfold handle_buffer_accept at h
      simp only [hneg, hmap] at h
      simp at h
    | some rtp =>
      cases hc : check_seqnum filter.priv.next_seqnum filter.priv.last_ssrc
          filter.priv.max_reorder (gst_rtp_buffer_get_ssrc rtp)
          (gst_rtp_buffer_get_seq rtp) buf.discont with
      | none =>
        obtain ⟨r, hr, _⟩ := accept_of_check_none filter buf rtp hneg hmap hc
        rw [hr] at h
        simp at h
      | some d =>
        obtain ⟨a1, ha1, hn, hl, _⟩ := accept_of_check_some filter buf rtp d hneg hmap hc
        rw [ha1] at h
        simp at h
        subst h
        exact ⟨rtp, rfl, hn, hl⟩
  · unfold handle_buffer_accept at h
    simp only [hneg] at h
    simp at h

/-- The invariant of `next_seqnum`: the unset marker or a 16-bit value. -/
theorem handle_buffer_keeps_range (bclass : GstRTPBaseDepayloadClass) (env : Env)
    (filter : GstRTPBaseDepayload) (buf : GstBuffer)
    (h : filter.priv.next_seqnum = G_MAXUINT32 ∨ filter.priv.next_seqnum < 65536) :
    (gst_rtp_base_depayload_handle_buffer bclass env filter buf).filter.priv.next_seqnum =
        G_MAXUINT32 ∨
      (gst_rtp_base_depayload_handle_buffer bclass env filter buf).filter.priv.next_seqnum <
        65536 := by
  cases ha : handle_buffer_accept filter buf with
  | inl r =>
    have hr := (accept_inl_next_seqnum filter buf r ha).1
    unfold gst_rtp_base_depayload_handle_buffer
    rw [ha]
    simp only []
    rw [hr]
    exact h
  | inr a =>
    obtain ⟨rtp, _, hn, _⟩ := accept_inr_tracker filter buf a ha
    obtain ⟨ht, _⟩ := handle_buffer_of_accept bclass env filter buf a ha
    right
    rw [ht.1, hn]
    omega

theorem chain_list_keeps_range (bclass : GstRTPBaseDepayloadClass) (env : Env)
    (list : List GstBuffer) :
    ∀ filter : GstRTPBaseDepayload,
      (filter.priv.next_seqnum = G_MAXUINT32 ∨ filter.priv.next_seqnum < 65536) →
      ((gst_rtp_base_depayload_chain_list bclass env filter list).2.priv.next_seqnum =
          G_MAXUINT32 ∨
        (gst_rtp_base_depayload_chain_list bclass env filter list).2.priv.next_seqnum <
          65536) := by
  induction list with
  | nil => intro filter h; exact h
  | cons b rest ih =>
    intro filter h
    have hb := handle_buffer_keeps_range bclass env filter b h
    unfold gst_rtp_base_depayload_chain_list
    simp only []
    split
    · exact hb
    · exact ih _ hb

theorem setcaps_next_seqnum (bclass : GstRTPBaseDepayloadClass)
    (filter : GstRTPBaseDepayload) (caps : GstCaps) :
    (gst_rtp_base_depayload_setcaps bclass filter caps).2.priv.next_seqnum =
        filter.priv.next_seqnum ∧
    (gst_rtp_base_depayload_setcaps bclass filter caps).2.priv.last_ssrc =
        filter.priv.last_ssrc ∧
    (gst_rtp_base_depayload_setcaps bclass filter caps).2.priv.max_reorder =
        filter.priv.max_reorder ∧
    (gst_rtp_base_depayload_setcaps bclass filter caps).2.priv.discont =
        filter.priv.discont := by
  unfold gst_rtp_base_depayload_setcaps
  split
  · exact ⟨rfl, rfl, rfl, rfl⟩
  · cases bclass.set_caps <;> exact ⟨rfl, rfl, rfl, rfl⟩

theorem handle_event_next_seqnum (bclass : GstRTPBaseDepayloadClass) (env : Env)
    (filter : GstRTPBaseDepayload) (event : GstEvent) :
    (gst_rtp_base_depayload_handle_event bclass env filter event).2.priv.next_seqnum =
      (if event = GstEvent.flush_stop then G_MAXUINT32 else filter.priv.next_seqnum) := by
  cases event with
  | flush_stop => rfl
  | caps c =>
    have h := (setcaps_next_seqnum bclass filter c).1
    simp only [gst_rtp_base_depayload_handle_event]
    simpa using h
  | segment sg sq =>
    simp only [gst_rtp_base_depayload_handle_event]
    split <;> simp
  | custom_downstream name st =>
    simp only [gst_rtp_base_depayload_handle_event]
    by_cases hn : name = "GstRTPPacketLost"
    · cases hp : bclass.packet_lost <;> simp [hn]
    · simp [hn]
  | gap t d n =>
    simp [gst_rtp_base_depayload_handle_event]
  | other ty =>
    simp [gst_rtp_base_depayload_handle_event]

theorem sink_event_next_seqnum (bclass : GstRTPBaseDepayloadClass) (env : Env)
    (filter : GstRTPBaseDepayload) (event : GstEvent) :
    (gst_rtp_base_depayload_handle_sink_event bclass env filter event).2.priv.next_seqnum =
      (if event = GstEvent.flush_stop then G_MAXUINT32 else filter.priv.next_seqnum) := by
  unfold gst_rtp_base_depayload_handle_sink_event
  rw [handle_event_next_seqnum]
  cases event with
  | caps c =>
    simp only []
    by_cases hid : _get_extmap_id_for_attribute c.extmap ROI_EXTMAP_STR > 0
    · rw [if_pos hid]
    · rw [if_neg hid]
  | flush_stop => rfl
  | segment sg sq => rfl
  | custom_downstream name st => rfl
  | gap t d n => rfl
  | other ty => rfl

theorem change_state_keeps_range (filter : GstRTPBaseDepayload)
    (transition : GstStateChange)
    (h : filter.priv.next_seqnum = G_MAXUINT32 ∨ filter.priv.next_seqnum < 65536) :
    (gst_rtp_base_depayload_change_state filter transition).priv.next_seqnum = G_MAXUINT32 ∨
      (gst_rtp_base_depayload_change_state filter transition).priv.next_seqnum < 65536 := by
  cases transition
  case GST_STATE_CHANGE_READY_TO_PAUSED => left; rfl
  all_goals exact h

theorem set_property_next_seqnum (filter : GstRTPBaseDepayload) (prop : Property) :
    (gst_rtp_base_depayload_set_property filter prop).priv.next_seqnum =
      filter.priv.next_seqnum := by
  cases prop <;> rfl

theorem step_keeps_range (bclass : GstRTPBaseDepayloadClass) (env : Env)
    (filter : GstRTPBaseDepayload) (a : Action)
    (h : filter.priv.next_seqnum = G_MAXUINT32 ∨ filter.priv.next_seqnum < 65536) :
    (step bclass env filter a).priv.next_seqnum = G_MAXUINT32 ∨
      (step bclass env filter a).priv.next_seqnum < 65536 := by
  cases a with
  | chain buf => exact handle_buffer_keeps_range bclass env filter buf h
  | chain_list list => exact chain_list_keeps_range bclass env list filter h
  | sink_event event =>
    simp only [step]
    rw [sink_event_next_seqnum]
    split
    · left; rfl
    · exact h
  | change_state transition => exact change_state_keeps_range filter transition h
  | set_property prop =>
    simp only [step]
    rw [set_property_next_seqnum]
    exact h

/-- C7: a call of `gst_rtp_base_depayload_handle_buffer` that goes on to the
processing of the packet (it leaves neither at `dropping` nor at one of the
two labels that refuse the buffer) has set `next_seqnum = (seqnum + 1) mod 2^16`
and `last_ssrc = ssrc`; and in every state the element can reach from
`gst_rtp_base_depayload_init` by buffers, buffer lists, events, state changes
and property settings, `next_seqnum` is the unset marker or a value below
65536. -/
theorem next_seqnum_is_unset_or_16_bit (bclass : GstRTPBaseDepayloadClass) (env : Env) :
    (∀ (filter : GstRTPBaseDepayload) (buf : GstBuffer),
      ((gst_rtp_base_depayload_handle_buffer bclass env filter buf).exit =
          HandleBufferExit.done ∨
        (gst_rtp_base_depayload_handle_buffer bclass env filter buf).exit =
          HandleBufferExit.no_process) →
      ∃ rtp, buf.rtp = some rtp ∧
        (gst_rtp_base_depayload_handle_buffer bclass env filter buf).filter.priv.next_seqnum =
          (gst_rtp_buffer_get_seq rtp + 1) % 65536 ∧
        (gst_rtp_base_depayload_handle_buffer bclass env filter buf).filter.priv.last_ssrc =
          gst_rtp_buffer_get_ssrc rtp) ∧
    (∀ filter : GstRTPBaseDepayload, Reachable bclass env filter →
      filter.priv.next_seqnum = G_MAXUINT32 ∨ filter.priv.next_seqnum < 65536) := by
  constructor
  · intro filter buf hexit
    cases ha : handle_buffer_accept filter buf with
    | inl r =>
      have hr := accept_inl_next_seqnum filter buf r ha
      unfold gst_rtp_base_depayload_handle_buffer at hexit
      rw [ha] at hexit
      rcases hexit with h | h
      · exact absurd h hr.2.1
      · exact absurd h hr.2.2
    | inr a =>
      obtain ⟨rtp, hmap, hn, hl⟩ := accept_inr_tracker filter buf a ha
      obtain ⟨ht, _⟩ := handle_buffer_of_accept bclass env filter buf a ha
      exact ⟨rtp, hmap, by rw [ht.1, hn], by rw [ht.2.1, hl]⟩
  · intro filter hr
    induction hr with
    | init => right; decide
    | step f a _ ih => exact step_keeps_range bclass env f a ih

/-- Witness of C7: the packet with seqnum 65535 of SSRC 7 is processed, and the
state after the change from READY to PAUSED is reachable. -/
theorem next_seqnum_is_unset_or_16_bit_witness :
    (∃ rtp, (sample_packet 7 65535 false).rtp = some rtp ∧
      (gst_rtp_base_depayload_handle_buffer sample_class sample_env
        (sample_filter 65535 7 100) (sample_packet 7 65535 false)).filter.priv.next_seqnum =
        (gst_rtp_buffer_get_seq rtp + 1) % 65536 ∧
      (gst_rtp_base_depayload_handle_buffer sample_class sample_env
        (sample_filter 65535 7 100) (sample_packet 7 65535 false)).filter.priv.last_ssrc =
        gst_rtp_buffer_get_ssrc rtp) ∧
    ((step sample_class sample_env gst_rtp_base_depayload_init
        (Action.change_state
          GstStateChange.GST_STATE_CHANGE_READY_TO_PAUSED)).priv.next_seqnum = G_MAXUINT32 ∨
      (step sample_class sample_env gst_rtp_base_depayload_init
        (Action.change_state
          GstStateChange.GST_STATE_CHANGE_READY_TO_PAUSED)).priv.next_seqnum < 65536) :=
  ⟨(next_seqnum_is_unset_or_16_bit sample_class sample_env).1
      (sample_filter 65535 7 100) (sample_packet 7 65535 false) (Or.inl rfl),
    (next_seqnum_is_unset_or_16_bit sample_class sample_env).2 _
      (Reachable.step _ _ Reachable.init)⟩

/-! ## Flush and renegotiation -/

/-- C8: after `gst_rtp_base_depayload_handle_event` has handled a FLUSH_STOP
event, `next_seqnum` is unset, no segment event is queued and the stored
segment is the undefined one; so the next packet is accepted whatever its
seqnum and SSRC, and `next_seqnum` is set from it. -/
theorem flush_stop_resets_tracker
    (bclass : GstRTPBaseDepayloadClass) (env : Env) (filter : GstRTPBaseDepayload)
    (buf : GstBuffer) (rtp : GstRTPBuffer)
    (hneg : filter.priv.negotiated = true) (hmap : buf.rtp = some rtp) :
    (gst_rtp_base_depayload_handle_event bclass env filter
      GstEvent.flush_stop).2.priv.next_seqnum = G_MAXUINT32 ∧
    (gst_rtp_base_depayload_handle_event bclass env filter
      GstEvent.flush_stop).2.priv.segment_event = none ∧
    (gst_rtp_base_depayload_handle_event bclass env filter
      GstEvent.flush_stop).2.segment = gst_segment_init GST_FORMAT_UNDEFINED ∧
    ((gst_rtp_base_depayload_handle_buffer bclass env
        (gst_rtp_base_depayload_handle_event bclass env filter GstEvent.flush_stop).2
        buf).exit = HandleBufferExit.done ∨
      (gst_rtp_base_depayload_handle_buffer bclass env
        (gst_rtp_base_depayload_handle_event bclass env filter GstEvent.flush_stop).2
        buf).exit = HandleBufferExit.no_process) ∧
    (gst_rtp_base_depayload_handle_buffer bclass env
      (gst_rtp_base_depayload_handle_event bclass env filter GstEvent.flush_stop).2
      buf).filter.priv.next_seqnum = (gst_rtp_buffer_get_seq rtp + 1) % 65536 := by
  have hneg1 : (gst_rtp_base_depayload_handle_event bclass env filter
      GstEvent.flush_stop).2.priv.negotiated = true := hneg
  have hc : check_seqnum
      (gst_rtp_base_depayload_handle_event bclass env filter
        GstEvent.flush_stop).2.priv.next_seqnum
      (gst_rtp_base_depayload_handle_event bclass env filter
        GstEvent.flush_stop).2.priv.last_ssrc
      (gst_rtp_base_depayload_handle_event bclass env filter
        GstEvent.flush_stop).2.priv.max_reorder
      (gst_rtp_buffer_get_ssrc rtp) (gst_rtp_buffer_get_seq rtp) buf.discont =
      some buf.discont := check_seqnum_unset _ _ _ _ _
  obtain ⟨a, ha, hn, _⟩ := accept_of_check_some _ buf rtp buf.discont hneg1 hmap hc
  obtain ⟨ht, hexit⟩ := handle_buffer_of_accept bclass env _ buf a ha
  exact ⟨rfl, rfl, rfl, hexit, by rw [ht.1, hn]⟩

/-- Witness of C8: the tracker expects seqnum 11 of SSRC 7; after the flush the
packet with seqnum 10, which would have been dropped, is processed. -/
theorem flush_stop_resets_tracker_witness :
    (gst_rtp_base_depayload_handle_event sample_class sample_env (sample_filter 11 7 100)
      GstEvent.flush_stop).2.priv.next_seqnum = G_MAXUINT32 ∧
    (gst_rtp_base_depayload_handle_event sample_class sample_env (sample_filter 11 7 100)
      GstEvent.flush_stop).2.priv.segment_event = none ∧
    (gst_rtp_base_depayload_handle_event sample_class sample_env (sample_filter 11 7 100)
      GstEvent.flush_stop).2.segment = gst_segment_init GST_FORMAT_UNDEFINED ∧
    ((gst_rtp_base_depayload_handle_buffer sample_class sample_env
        (gst_rtp_base_depayload_handle_event sample_class sample_env
          (sample_filter 11 7 100) GstEvent.flush_stop).2
        (sample_packet 7 10 false)).exit = HandleBufferExit.done ∨
      (gst_rtp_base_depayload_handle_buffer sample_class sample_env
        (gst_rtp_base_depayload_handle_event sample_class sample_env
          (sample_filter 11 7 100) GstEvent.flush_stop).2
        (sample_packet 7 10 false)).exit = HandleBufferExit.no_process) ∧
    (gst_rtp_base_depayload_handle_buffer sample_class sample_env
      (gst_rtp_base_depayload_handle_event sample_class sample_env
        (sample_filter 11 7 100) GstEvent.flush_stop).2
      (sample_packet 7 10 false)).filter.priv.next_seqnum =
      (gst_rtp_buffer_get_seq (sample_rtp 7 10) + 1) % 65536 :=
  flush_stop_resets_tracker sample_class sample_env (sample_filter 11 7 100)
    (sample_packet 7 10 false) (sample_rtp 7 10) rfl rfl

/-- Counterexample to C9 as stated: the tracker expects seqnum 11 of SSRC 7
and the last accepted caps are `sample_caps 0`; the CAPS event with the
different caps `sample_caps 1` is accepted, yet `next_seqnum` is still 11 and
the packet with seqnum 10 that follows is dropped. -/
theorem caps_change_then_old_packet_dropped :
    (gst_rtp_base_depayload_setcaps sample_class (sample_filter_with_caps 11 7 100)
      (sample_caps 1)).1 = true ∧
    (gst_rtp_base_depayload_setcaps sample_class (sample_filter_with_caps 11 7 100)
      (sample_caps 1)).2.priv.last_caps = some (sample_caps 1) ∧
    (gst_rtp_base_depayload_setcaps sample_class (sample_filter_with_caps 11 7 100)
      (sample_caps 1)).2.priv.next_seqnum = 11 ∧
    (gst_rtp_base_depayload_handle_buffer sample_class sample_env
      (gst_rtp_base_depayload_handle_event sample_class sample_env
        (sample_filter_with_caps 11 7 100) (GstEvent.caps (sample_caps 1))).2
      (sample_packet 7 10 false)).exit = HandleBufferExit.dropping :=
  ⟨rfl, rfl, rfl, rfl⟩

/-- C9, amended: a caps renegotiation leaves the tracker as it was.
`gst_rtp_base_depayload_setcaps`, and the CAPS event that calls it, change
neither `next_seqnum` nor `last_ssrc` nor `max_reorder`, whatever the caps and
the answer of the subclass, so the seqnum check of the next packet is the one
it would have been before. The tracker is reset by the change from READY to
PAUSED (and by FLUSH_STOP). -/
theorem renegotiation_keeps_tracker
    (bclass : GstRTPBaseDepayloadClass) (env : Env) (filter : GstRTPBaseDepayload)
    (caps : GstCaps) :
    ((gst_rtp_base_depayload_setcaps bclass filter caps).2.priv.next_seqnum =
        filter.priv.next_seqnum ∧
      (gst_rtp_base_depayload_setcaps bclass filter caps).2.priv.last_ssrc =
        filter.priv.last_ssrc ∧
      (gst_rtp_base_depayload_setcaps bclass filter caps).2.priv.max_reorder =
        filter.priv.max_reorder) ∧
    ((gst_rtp_base_depayload_handle_event bclass env filter
        (GstEvent.caps caps)).2.priv.next_seqnum = filter.priv.next_seqnum ∧
      (gst_rtp_base_depayload_handle_event bclass env filter
        (GstEvent.caps caps)).2.priv.last_ssrc = filter.priv.last_ssrc ∧
      (gst_rtp_base_depayload_handle_event bclass env filter
        (GstEvent.caps caps)).2.priv.max_reorder = filter.priv.max_reorder) ∧
    (gst_rtp_base_depayload_change_state filter
      GstStateChange.GST_STATE_CHANGE_READY_TO_PAUSED).priv.next_seqnum = G_MAXUINT32 := by
  have h := setcaps_next_seqnum bclass filter caps
  refine ⟨⟨h.1, h.2.1, h.2.2.1⟩, ?_, rfl⟩
  simp only [gst_rtp_base_depayload_handle_event]
  exact ⟨by simpa using h.1, by simpa using h.2.1, by simpa using h.2.2.1⟩

/-! ## The audio-level header extension -/

/-- The header byte of a one-byte-form element holds the id and the length. -/
theorem onebyte_header_fields (id len : Nat) (hid : id ≤ 14) (h1 : 1 ≤ len) (h2 : len ≤ 16) :
    (id * 16 + (len - 1)) / 16 % 16 = id ∧ (id * 16 + (len - 1)) % 16 + 1 = len := by
  omega

/-- Reading back an element appended to a well-formed extension area that held
no element with its id. -/
theorem onebyte_scan_append (id : Nat) (data : List Nat)
    (hid1 : 1 ≤ id) (hid2 : id ≤ 14) (h1 : 1 ≤ data.length) (h2 : data.length ≤ 16) :
    ∀ (fuel : Nat) (ext : List Nat), onebyte_without id fuel ext = true →
      ∀ n : Nat, onebyte_scan id (fuel + (n + 1)) 0
        (ext ++ ((id * 16 + (data.length - 1)) :: data)) = some data := by
  have hf := onebyte_header_fields id data.length hid2 h1 h2
  have hlast : ∀ m : Nat, onebyte_scan id (m + 1) 0
      ((id * 16 + (data.length - 1)) :: data) = some data := by
    intro m
    have hne0 : ¬ id = 0 := by omega
    have hne15 : ¬ id = 15 := by omega
    simp only [onebyte_scan, hf.1, hf.2, hne0, hne15, if_false, lt_irrefl, if_true]
    simp
  intro fuel
  induction fuel with
  | zero =>
    intro ext hw n
    cases ext with
    | nil =>
      simp only [List.nil_append, Nat.zero_add]
      exact hlast n
    | cons b rest => simp [onebyte_without] at hw
  | succ fuel ih =>
    intro ext hw n
    cases ext with
    | nil =>
      simp only [List.nil_append]
      rw [show fuel + 1 + (n + 1) = (fuel + 1 + n) + 1 by omega]
      exact hlast _
    | cons b rest =>
      rw [show fuel + 1 + (n + 1) = (fuel + (n + 1)) + 1 by omega]
      simp only [onebyte_without] at hw
      simp only [List.cons_append, onebyte_scan]
      by_cases c0 : b / 16 % 16 = 0
      · simp only [c0, if_true] at hw ⊢
        exact ih rest hw n
      · simp only [c0, if_false] at hw ⊢
        by_cases c15 : b / 16 % 16 = 15
        · simp [c15] at hw
        · simp only [c15, if_false] at hw ⊢
          by_cases cl : rest.length < b % 16 + 1
          · simp [cl] at hw
          · simp only [cl, if_false] at hw
            by_cases ci : b / 16 % 16 = id
            · simp [ci] at hw
            · simp only [ci, if_false] at hw
              have hlen : ¬ (rest ++ ((id * 16 + (data.length - 1)) :: data)).length <
                  b % 16 + 1 := by
                simp only [List.length_append]
                omega
              have hdrop : (rest ++ ((id * 16 + (data.length - 1)) :: data)).drop (b % 16 + 1) =
                  rest.drop (b % 16 + 1) ++ ((id * 16 + (data.length - 1)) :: data) := by
                apply List.drop_append_of_le_length
                omega
              simp only [List.append_eq, hlen, if_false, hdrop]
              rw [if_neg ci]
              exact ih _ hw n

/-- The byte written for an audio level decodes to the same level and voice
activity. -/
theorem audio_level_byte (level : Nat) (voice_activity : Bool) (h : level ≤ 127) :
    ((((level &&& 0x7F) ||| (voice_activity.toNat <<< 7)) % 2 ^ 8) % 2 ^ 8 &&& 0x7F) % 2 ^ 8 =
      level ∧
    ((((((level &&& 0x7F) ||| (voice_activity.toNat <<< 7)) % 2 ^ 8) % 2 ^ 8 &&& 0x80) >>> 7)
      != 0) = voice_activity := by
  have key : ∀ l : Nat, l < 128 → ∀ v : Bool,
      ((((l &&& 0x7F) ||| (v.toNat <<< 7)) % 2 ^ 8) % 2 ^ 8 &&& 0x7F) % 2 ^ 8 = l ∧
      ((((((l &&& 0x7F) ||| (v.toNat <<< 7)) % 2 ^ 8) % 2 ^ 8 &&& 0x80) >>> 7) != 0) = v := by
    decide
  exact key level (by omega) voice_activity

/-- C10: for every level in 0..127, every voice activity and every id in 1..14,
writing an audio-level meta with `gst_rtp_audio_level_meta_add_one_byte_ext`
into a packet whose extension area is well formed and holds no element with
that id yet (a freshly allocated packet in particular) succeeds, and reading
it with `gst_buffer_extract_rtp_audio_level_meta_one_byte_ext` at the same id
attaches a meta with the same level and the same voice activity. -/
theorem audio_level_one_byte_ext_round_trip
    (level : Nat) (voice_activity : Bool) (id : Nat) (rtp : GstRTPBuffer) (out : GstBuffer)
    (hlevel : level ≤ 127) (hid1 : 1 ≤ id) (hid2 : id ≤ 14)
    (hfree : onebyte_without id rtp.ext_onebyte.length rtp.ext_onebyte = true) :
    (gst_rtp_audio_level_meta_add_one_byte_ext level voice_activity rtp id).1 = true ∧
    gst_buffer_extract_rtp_audio_level_meta_one_byte_ext out
        (gst_rtp_audio_level_meta_add_one_byte_ext level voice_activity rtp id).2 id =
      ({ out with metas := out.metas ++ [GstMeta.rtp_audio_level level voice_activity] },
        some (GstMeta.rtp_audio_level level voice_activity)) := by
  have hb := audio_level_byte level voice_activity hlevel
  have hscan := onebyte_scan_append id
    [((level &&& 0x7F) ||| (voice_activity.toNat <<< 7)) % 2 ^ 8] hid1 hid2
    (by simp) (by simp) rtp.ext_onebyte.length rtp.ext_onebyte hfree 1
  have hl : ¬ ¬ level ≤ 127 := by omega
  have h0 : ¬ ¬ 0 < id := by omega
  have h14 : ¬ ¬ id ≤ 14 := by omega
  have hadd : gst_rtp_audio_level_meta_add_one_byte_ext level voice_activity rtp id =
      (true, { rtp with ext_onebyte := rtp.ext_onebyte ++
        ((id * 16 + 0) :: [((level &&& 0x7F) ||| (voice_activity.toNat <<< 7)) % 2 ^ 8]) }) := by
    unfold gst_rtp_audio_level_meta_add_one_byte_ext
      gst_rtp_buffer_add_extension_onebyte_header
    have hx : ¬ (id = 0 ∨ 14 < id ∨
        [((level &&& 0x7F) ||| (voice_activity.toNat <<< 7)) % 2 ^ 8].length = 0 ∨
        16 < [((level &&& 0x7F) ||| (voice_activity.toNat <<< 7)) % 2 ^ 8].length) := by
      simp only [List.length_singleton]
      omega
    simp only [hl, h0, h14, if_false]
    rw [if_neg hx]
    rfl
  rw [hadd]
  refine ⟨rfl, ?_⟩
  have hget : gst_rtp_buffer_get_extension_onebyte_header
      { rtp with ext_onebyte := rtp.ext_onebyte ++
        ((id * 16 + 0) :: [((level &&& 0x7F) ||| (voice_activity.toNat <<< 7)) % 2 ^ 8]) }
      id 0 = some [((level &&& 0x7F) ||| (voice_activity.toNat <<< 7)) % 2 ^ 8] := by
    unfold gst_rtp_buffer_get_extension_onebyte_header
    have hx : ¬ (id = 0 ∨ 14 < id) := by omega
    rw [if_neg hx]
    simp only [List.length_append, List.length_cons, List.length_nil]
    simpa using hscan
  unfold gst_buffer_extract_rtp_audio_level_meta_one_byte_ext
  simp only [h0, h14, if_false, hget, gst_buffer_add_rtp_audio_level_meta]
  rw [hb.1, hb.2]

/-- Witness of C10: level 45 with voice activity, written at id 5 into a freshly
allocated packet and read back into a new buffer. -/
theorem audio_level_one_byte_ext_round_trip_witness :
    (gst_rtp_audio_level_meta_add_one_byte_ext 45 true gst_rtp_buffer_new_allocate 5).1 =
      true ∧
    gst_buffer_extract_rtp_audio_level_meta_one_byte_ext gst_buffer_new
        (gst_rtp_audio_level_meta_add_one_byte_ext 45 true gst_rtp_buffer_new_allocate 5).2
        5 =
      ({ gst_buffer_new with
          metas := gst_buffer_new.metas ++ [GstMeta.rtp_audio_level 45 true] },
        some (GstMeta.rtp_audio_level 45 true)) :=
  audio_level_one_byte_ext_round_trip 45 true 5 gst_rtp_buffer_new_allocate gst_buffer_new
    (by decide) (by decide) (by decide) rfl

/-- The byte written for a level and a voice activity, as a sum. -/
theorem audio_level_byte_encode (level : Nat) (voice_activity : Bool) (h : level ≤ 127) :
    ((level &&& 0x7F) ||| (voice_activity.toNat <<< 7)) % 2 ^ 8 =
      level + 128 * voice_activity.toNat := by
  have key : ∀ l : Nat, l < 128 → ∀ v : Bool,
      ((l &&& 0x7F) ||| (v.toNat <<< 7)) % 2 ^ 8 = l + 128 * v.toNat := by
    decide
  exact key level (by omega) voice_activity

set_option maxRecDepth 8000 in
/-- The level and the voice activity read from a payload byte. -/
theorem audio_level_byte_decode (b : Nat) (h : b < 256) :
    ((b % 2 ^ 8) &&& 0x7F) % 2 ^ 8 = b % 128 ∧
    ((((b % 2 ^ 8) &&& 0x80) >>> 7) != 0) = decide (128 ≤ b) := by
  have key : ∀ c : Nat, c < 256 →
      ((c % 2 ^ 8) &&& 0x7F) % 2 ^ 8 = c % 128 ∧
      ((((c % 2 ^ 8) &&& 0x80) >>> 7) != 0) = decide (128 ≤ c) := by
    decide
  exact key b h

/-- C11: the one-byte audio-level payload follows RFC 6464. For every level in
0..127, every voice activity and every id in 1..14,
`gst_rtp_audio_level_meta_add_one_byte_ext` hands the single byte
`level + 128 * voice_activity` to the one-byte-form writer; and whenever the
first element with the id has the payload byte `b`,
`gst_buffer_extract_rtp_audio_level_meta_one_byte_ext` attaches the meta with
`level = b mod 128` and `voice_activity = (b ≥ 128)`. -/
theorem audio_level_payload_follows_rfc6464
    (level : Nat) (voice_activity : Bool) (id : Nat) (rtp rtp2 : GstRTPBuffer)
    (buffer : GstBuffer) (b : Nat) (rest : List Nat)
    (hlevel : level ≤ 127) (hid1 : 1 ≤ id) (hid2 : id ≤ 14) (hb : b < 256)
    (hget : gst_rtp_buffer_get_extension_onebyte_header rtp2 id 0 = some (b :: rest)) :
    gst_rtp_audio_level_meta_add_one_byte_ext level voice_activity rtp id =
      gst_rtp_buffer_add_extension_onebyte_header rtp id
        [level + 128 * voice_activity.toNat] ∧
    gst_buffer_extract_rtp_audio_level_meta_one_byte_ext buffer rtp2 id =
      ({ buffer with
          metas := buffer.metas ++ [GstMeta.rtp_audio_level (b % 128) (decide (128 ≤ b))] },
        some (GstMeta.rtp_audio_level (b % 128) (decide (128 ≤ b)))) := by
  have hl : ¬ ¬ level ≤ 127 := by omega
  have h0 : ¬ ¬ 0 < id := by omega
  have h14 : ¬ ¬ id ≤ 14 := by omega
  have hd := audio_level_byte_decode b hb
  constructor
  · unfold gst_rtp_audio_level_meta_add_one_byte_ext
    simp only [hl, h0, h14, if_false]
    rw [audio_level_byte_encode level voice_activity hlevel]
  · unfold gst_buffer_extract_rtp_audio_level_meta_one_byte_ext
    simp only [h0, h14, if_false, hget, gst_buffer_add_rtp_audio_level_meta]
    rw [hd.1, hd.2]

/-- Witness of C11: level 45 with voice activity at id 5 is written as the byte
173, and a packet whose element with id 5 holds the byte 173 is read as level
45 with voice activity. -/
theorem audio_level_payload_follows_rfc6464_witness :
    gst_rtp_audio_level_meta_add_one_byte_ext 45 true gst_rtp_buffer_new_allocate 5 =
      gst_rtp_buffer_add_extension_onebyte_header gst_rtp_buffer_new_allocate 5
        [45 + 128 * true.toNat] ∧
    gst_buffer_extract_rtp_audio_level_meta_one_byte_ext gst_buffer_new
        { gst_rtp_buffer_new_allocate with ext_onebyte := [80, 173] } 5 =
      ({ gst_buffer_new with
          metas := gst_buffer_new.metas ++
            [GstMeta.rtp_audio_level (173 % 128) (decide (128 ≤ 173))] },
        some (GstMeta.rtp_audio_level (173 % 128) (decide (128 ≤ 173)))) :=
  audio_level_payload_follows_rfc6464 45 true 5 gst_rtp_buffer_new_allocate
    { gst_rtp_buffer_new_allocate with ext_onebyte := [80, 173] } gst_buffer_new 173 []
    (by decide) (by decide) (by decide) (by decide) rfl

/-- Counterexample to C12 as stated: `gst_buffer_add_rtp_audio_level_meta`
called with the level 200 attaches a meta whose level is 200. -/
theorem add_audio_level_meta_keeps_level_200 :
    (gst_buffer_add_rtp_audio_level_meta gst_buffer_new 200 false).1.metas =
      [GstMeta.rtp_audio_level 200 false] ∧
    ¬ (200 ≤ 127) :=
  ⟨rfl, by decide⟩

/-- C12, amended: every audio-level meta attached by
`gst_buffer_extract_rtp_audio_level_meta_one_byte_ext`, for any packet and
payload byte, has its level in 0..127; `gst_buffer_add_rtp_audio_level_meta`
attaches a meta with the `guint8` level it is given, whatever that is, and
`gst_rtp_audio_level_meta_add_one_byte_ext` refuses to write a level above
127. -/
theorem extracted_audio_level_is_at_most_127
    (buffer : GstBuffer) (rtp : GstRTPBuffer) (id level : Nat) (voice_activity : Bool) :
    (∀ l v, (gst_buffer_extract_rtp_audio_level_meta_one_byte_ext buffer rtp id).2 =
        some (GstMeta.rtp_audio_level l v) →
      l ≤ 127 ∧
      (gst_buffer_extract_rtp_audio_level_meta_one_byte_ext buffer rtp id).1.metas =
        buffer.metas ++ [GstMeta.rtp_audio_level l v]) ∧
    (gst_buffer_add_rtp_audio_level_meta buffer level voice_activity).2 =
      GstMeta.rtp_audio_level (level % 2 ^ 8) voice_activity ∧
    (gst_buffer_add_rtp_audio_level_meta buffer level voice_activity).1.metas =
      buffer.metas ++ [GstMeta.rtp_audio_level (level % 2 ^ 8) voice_activity] ∧
    (127 < level → (gst_rtp_audio_level_meta_add_one_byte_ext level voice_activity rtp id) =
      (false, rtp)) := by
  refine ⟨?_, rfl, rfl, ?_⟩
  · intro l v h
    unfold gst_buffer_extract_rtp_audio_level_meta_one_byte_ext at h ⊢
    by_cases h0 : 0 < id
    · by_cases h14 : id ≤ 14
      · simp only [h0, h14, not_true_eq_false, if_false] at h ⊢
        cases hg : gst_rtp_buffer_get_extension_onebyte_header rtp id 0 with
        | none => simp [hg] at h
        | some data =>
          cases data with
          | nil => simp [hg] at h
          | cons d ds =>
            simp only [hg, gst_buffer_add_rtp_audio_level_meta, Option.some.injEq,
              GstMeta.rtp_audio_level.injEq] at h ⊢
            obtain ⟨h1, h2⟩ := h
            have hle : ((d % 2 ^ 8) &&& 0x7F) % 2 ^ 8 ≤ 127 :=
              Nat.le_trans (Nat.mod_le _ _) Nat.and_le_right
            rw [h1] at hle
            refine ⟨hle, ?_⟩
            rw [h1, h2]
      · simp [h0, h14] at h
    · simp [h0] at h
  · intro hl
    unfold gst_rtp_audio_level_meta_add_one_byte_ext
    have : ¬ level ≤ 127 := by omega
    simp [this]

/-- Witness of C12, amended: the packet whose element with id 5 holds the byte
255 is read as level 127, and the level 200 is refused by the one-byte
writer. -/
theorem extracted_audio_level_is_at_most_127_witness :
    (127 ≤ 127 ∧
      (gst_buffer_extract_rtp_audio_level_meta_one_byte_ext gst_buffer_new
        { gst_rtp_buffer_new_allocate with ext_onebyte := [80, 255] } 5).1.metas =
        gst_buffer_new.metas ++ [GstMeta.rtp_audio_level 127 true]) ∧
    gst_rtp_audio_level_meta_add_one_byte_ext 200 false
      { gst_rtp_buffer_new_allocate with ext_onebyte := [80, 255] } 5 =
      (false, { gst_rtp_buffer_new_allocate with ext_onebyte := [80, 255] }) :=
  ⟨(extracted_audio_level_is_at_most_127 gst_buffer_new
      { gst_rtp_buffer_new_allocate with ext_onebyte := [80, 255] } 5 200 false).1
      127 true rfl,
    (extracted_audio_level_is_at_most_127 gst_buffer_new
      { gst_rtp_buffer_new_allocate with ext_onebyte := [80, 255] } 5 200 false).2.2.2
      (by decide)⟩

/-! ## The NTP header extensions -/

/-- A list of at least 7 elements, taken apart. -/
theorem list_of_length_ge_7 (data : List Nat) (h : 7 ≤ data.length) :
    ∃ b0 b1 b2 b3 b4 b5 b6 rest, data = b0 :: b1 :: b2 :: b3 :: b4 :: b5 :: b6 :: rest := by
  match data, h with
  | b0 :: b1 :: b2 :: b3 :: b4 :: b5 :: b6 :: rest, _ => exact ⟨b0, b1, b2, b3, b4, b5, b6, rest, rfl⟩

/-- The bytes the loop of `gst_rtp_hdrext_set_ntp_56` leaves. -/
theorem set_ntp_56_loop_eq (b0 b1 b2 b3 b4 b5 b6 : Nat) (rest : List Nat) (v : Nat) :
    (set_ntp_56_loop (b0 :: b1 :: b2 :: b3 :: b4 :: b5 :: b6 :: rest) v).1 =
      (v % 2 ^ 64 / 2 ^ 48 % 256) :: (v % 2 ^ 64 / 2 ^ 40 % 256) :: (v % 2 ^ 64 / 2 ^ 32 % 256) ::
      (v % 2 ^ 64 / 2 ^ 24 % 256) :: (v % 2 ^ 64 / 2 ^ 16 % 256) :: (v % 2 ^ 64 / 2 ^ 8 % 256) ::
      (v % 2 ^ 64 % 256) :: rest := by
  have hr : List.range 7 = [0, 1, 2, 3, 4, 5, 6] := by decide
  have hand : ∀ x : Nat, x &&& 0xff = x % 256 := fun x => Nat.and_pow_two_sub_one_eq_mod x 8
  unfold set_ntp_56_loop
  rw [hr]
  simp only [List.foldl, List.set, hand, Nat.shiftRight_eq_div_pow]
  simp only [Nat.div_div_eq_div_mul]
  norm_num


/-- One round of the loop of `gst_rtp_hdrext_get_ntp_56`, as arithmetic. -/
theorem shl8_or (t b : Nat) (ht : t < 2 ^ 56) (hb : b < 2 ^ 8) :
    ((t <<< 8) % 2 ^ 64) ||| b = t * 256 + b := by
  rw [Nat.shiftLeft_eq]
  have h1 : t * 2 ^ 8 % 2 ^ 64 = 2 ^ 8 * t := by omega
  rw [h1, ← Nat.mul_add_lt_is_or hb t]
  omega

/-- The value the loop of `gst_rtp_hdrext_get_ntp_56` computes. -/
theorem get_ntp_56_loop_eq (c0 c1 c2 c3 c4 c5 c6 : Nat) (rest : List Nat) :
    get_ntp_56_loop (c0 :: c1 :: c2 :: c3 :: c4 :: c5 :: c6 :: rest) =
      (c0 % 256) * 2 ^ 48 + (c1 % 256) * 2 ^ 40 + (c2 % 256) * 2 ^ 32 + (c3 % 256) * 2 ^ 24 +
      (c4 % 256) * 2 ^ 16 + (c5 % 256) * 2 ^ 8 + c6 % 256 := by
  have hr : List.range 7 = [0, 1, 2, 3, 4, 5, 6] := by decide
  unfold get_ntp_56_loop
  rw [hr]
  simp only [List.foldl, read_guint8, List.getD_cons_zero, List.getD_cons_succ]
  have e0 : c0 % 2 ^ 8 < 2 ^ 8 := Nat.mod_lt _ (by norm_num)
  have e1 : c1 % 2 ^ 8 < 2 ^ 8 := Nat.mod_lt _ (by norm_num)
  have e2 : c2 % 2 ^ 8 < 2 ^ 8 := Nat.mod_lt _ (by norm_num)
  have e3 : c3 % 2 ^ 8 < 2 ^ 8 := Nat.mod_lt _ (by norm_num)
  have e4 : c4 % 2 ^ 8 < 2 ^ 8 := Nat.mod_lt _ (by norm_num)
  have e5 : c5 % 2 ^ 8 < 2 ^ 8 := Nat.mod_lt _ (by norm_num)
  have e6 : c6 % 2 ^ 8 < 2 ^ 8 := Nat.mod_lt _ (by norm_num)
  rw [shl8_or 0 _ (by norm_num) e0]
  rw [shl8_or _ _ (by omega) e1]
  rw [shl8_or _ _ (by omega) e2]
  rw [shl8_or _ _ (by omega) e3]
  rw [shl8_or _ _ (by omega) e4]
  rw [shl8_or _ _ (by omega) e5]
  rw [shl8_or _ _ (by omega) e6]
  omega


/-- Or-ing in bits below a multiple of a power of two is adding them. -/
theorem or_disjoint (a b i : Nat) (hb : b < 2 ^ i) (ha : 2 ^ i ∣ a) : a ||| b = a + b := by
  obtain ⟨k, rfl⟩ := ha
  exact (Nat.mul_add_lt_is_or hb k).symm

/-- The bytes `GST_WRITE_UINT64_BE` leaves. -/
theorem write_uint64_be_eq (b0 b1 b2 b3 b4 b5 b6 b7 : Nat) (rest : List Nat) (v : Nat) :
    GST_WRITE_UINT64_BE (b0 :: b1 :: b2 :: b3 :: b4 :: b5 :: b6 :: b7 :: rest) v =
      (v % 2 ^ 64 / 2 ^ 56 % 256) :: (v % 2 ^ 64 / 2 ^ 48 % 256) ::
      (v % 2 ^ 64 / 2 ^ 40 % 256) :: (v % 2 ^ 64 / 2 ^ 32 % 256) ::
      (v % 2 ^ 64 / 2 ^ 24 % 256) :: (v % 2 ^ 64 / 2 ^ 16 % 256) ::
      (v % 2 ^ 64 / 2 ^ 8 % 256) :: (v % 2 ^ 64 % 256) :: rest := by
  have hand : ∀ x : Nat, x &&& 0xff = x % 256 := fun x => Nat.and_pow_two_sub_one_eq_mod x 8
  unfold GST_WRITE_UINT64_BE
  simp only [List.set, hand, Nat.shiftRight_eq_div_pow]

/-- The value `GST_READ_UINT64_BE` reads. -/
theorem read_uint64_be_eq (c0 c1 c2 c3 c4 c5 c6 c7 : Nat) (rest : List Nat) :
    GST_READ_UINT64_BE (c0 :: c1 :: c2 :: c3 :: c4 :: c5 :: c6 :: c7 :: rest) =
      (c0 % 256) * 2 ^ 56 + (c1 % 256) * 2 ^ 48 + (c2 % 256) * 2 ^ 40 + (c3 % 256) * 2 ^ 32 +
      (c4 % 256) * 2 ^ 24 + (c5 % 256) * 2 ^ 16 + (c6 % 256) * 2 ^ 8 + c7 % 256 := by
  unfold GST_READ_UINT64_BE
  simp only [read_guint8, List.getD_cons_zero, List.getD_cons_succ, Nat.shiftLeft_eq]
  have e0 : c0 % 2 ^ 8 < 2 ^ 8 := Nat.mod_lt _ (by norm_num)
  have e1 : c1 % 2 ^ 8 < 2 ^ 8 := Nat.mod_lt _ (by norm_num)
  have e2 : c2 % 2 ^ 8 < 2 ^ 8 := Nat.mod_lt _ (by norm_num)
  have e3 : c3 % 2 ^ 8 < 2 ^ 8 := Nat.mod_lt _ (by norm_num)
  have e4 : c4 % 2 ^ 8 < 2 ^ 8 := Nat.mod_lt _ (by norm_num)
  have e5 : c5 % 2 ^ 8 < 2 ^ 8 := Nat.mod_lt _ (by norm_num)
  have e6 : c6 % 2 ^ 8 < 2 ^ 8 := Nat.mod_lt _ (by norm_num)
  have e7 : c7 % 2 ^ 8 < 2 ^ 8 := Nat.mod_lt _ (by norm_num)
  rw [or_disjoint (c0 % 2 ^ 8 * 2 ^ 56) (c1 % 2 ^ 8 * 2 ^ 48) 56 (by omega) (by omega)]
  rw [or_disjoint (c0 % 2 ^ 8 * 2 ^ 56 + c1 % 2 ^ 8 * 2 ^ 48) (c2 % 2 ^ 8 * 2 ^ 40) 48
    (by omega) (by omega)]
  rw [or_disjoint _ (c3 % 2 ^ 8 * 2 ^ 32) 40 (by omega) (by omega)]
  rw [or_disjoint _ (c4 % 2 ^ 8 * 2 ^ 24) 32 (by omega) (by omega)]
  rw [or_disjoint _ (c5 % 2 ^ 8 * 2 ^ 16) 24 (by omega) (by omega)]
  rw [or_disjoint _ (c6 % 2 ^ 8 * 2 ^ 8) 16 (by omega) (by omega)]
  rw [or_disjoint _ (c7 % 2 ^ 8) 8 (by omega) (by omega)]
  omega

/-- The sum of the eight bytes of a 64-bit value, each at its place. -/
theorem bytes_of_uint64_sum (v : Nat) (hv : v < 2 ^ 64) :
    v % 2 ^ 64 / 2 ^ 56 % 256 % 256 * 2 ^ 56 + v % 2 ^ 64 / 2 ^ 48 % 256 % 256 * 2 ^ 48 +
      v % 2 ^ 64 / 2 ^ 40 % 256 % 256 * 2 ^ 40 + v % 2 ^ 64 / 2 ^ 32 % 256 % 256 * 2 ^ 32 +
      v % 2 ^ 64 / 2 ^ 24 % 256 % 256 * 2 ^ 24 + v % 2 ^ 64 / 2 ^ 16 % 256 % 256 * 2 ^ 16 +
      v % 2 ^ 64 / 2 ^ 8 % 256 % 256 * 2 ^ 8 + v % 2 ^ 64 % 256 % 256 = v := by
  have hm : v % 2 ^ 64 = v := Nat.mod_eq_of_lt hv
  simp only [hm, Nat.mod_mod]
  have e0 : v = 256 * (v / 2 ^ 8) + v % 256 := by omega
  have e1 : v / 2 ^ 8 = 256 * (v / 2 ^ 16) + v / 2 ^ 8 % 256 := by omega
  have e2 : v / 2 ^ 16 = 256 * (v / 2 ^ 24) + v / 2 ^ 16 % 256 := by omega
  have e3 : v / 2 ^ 24 = 256 * (v / 2 ^ 32) + v / 2 ^ 24 % 256 := by omega
  have e4 : v / 2 ^ 32 = 256 * (v / 2 ^ 40) + v / 2 ^ 32 % 256 := by omega
  have e5 : v / 2 ^ 40 = 256 * (v / 2 ^ 48) + v / 2 ^ 40 % 256 := by omega
  have e6 : v / 2 ^ 48 = 256 * (v / 2 ^ 56) + v / 2 ^ 48 % 256 := by omega
  have e7 : v / 2 ^ 56 = v / 2 ^ 56 % 256 := by omega
  generalize v / 2 ^ 56 % 256 = r7 at *
  generalize v / 2 ^ 48 % 256 = r6 at *
  generalize v / 2 ^ 40 % 256 = r5 at *
  generalize v / 2 ^ 32 % 256 = r4 at *
  generalize v / 2 ^ 24 % 256 = r3 at *
  generalize v / 2 ^ 16 % 256 = r2 at *
  generalize v / 2 ^ 8 % 256 = r1 at *
  generalize v % 256 = r0 at *
  generalize v / 2 ^ 56 = q7 at *
  generalize v / 2 ^ 48 = q6 at *
  generalize v / 2 ^ 40 = q5 at *
  generalize v / 2 ^ 32 = q4 at *
  generalize v / 2 ^ 24 = q3 at *
  generalize v / 2 ^ 16 = q2 at *
  generalize v / 2 ^ 8 = q1 at *
  omega

/-- The sum of the seven low bytes of a value, each at its place. -/
theorem bytes_of_uint56_sum (v : Nat) :
    v % 2 ^ 64 / 2 ^ 48 % 256 % 256 * 2 ^ 48 + v % 2 ^ 64 / 2 ^ 40 % 256 % 256 * 2 ^ 40 +
      v % 2 ^ 64 / 2 ^ 32 % 256 % 256 * 2 ^ 32 + v % 2 ^ 64 / 2 ^ 24 % 256 % 256 * 2 ^ 24 +
      v % 2 ^ 64 / 2 ^ 16 % 256 % 256 * 2 ^ 16 + v % 2 ^ 64 / 2 ^ 8 % 256 % 256 * 2 ^ 8 +
      v % 2 ^ 64 % 256 % 256 = v % 2 ^ 56 := by
  simp only [Nat.mod_mod]
  have f : v % 2 ^ 56 + 2 ^ 56 * (v % 2 ^ 64 / 2 ^ 56) = v % 2 ^ 64 := by omega
  generalize v % 2 ^ 56 = t at *
  generalize v % 2 ^ 64 = w at *
  have e0 : w = 256 * (w / 2 ^ 8) + w % 256 := by omega
  have e1 : w / 2 ^ 8 = 256 * (w / 2 ^ 16) + w / 2 ^ 8 % 256 := by omega
  have e2 : w / 2 ^ 16 = 256 * (w / 2 ^ 24) + w / 2 ^ 16 % 256 := by omega
  have e3 : w / 2 ^ 24 = 256 * (w / 2 ^ 32) + w / 2 ^ 24 % 256 := by omega
  have e4 : w / 2 ^ 32 = 256 * (w / 2 ^ 40) + w / 2 ^ 32 % 256 := by omega
  have e5 : w / 2 ^ 40 = 256 * (w / 2 ^ 48) + w / 2 ^ 40 % 256 := by omega
  have e6 : w / 2 ^ 48 = 256 * (w / 2 ^ 56) + w / 2 ^ 48 % 256 := by omega
  generalize w / 2 ^ 48 % 256 = r6 at *
  generalize w / 2 ^ 40 % 256 = r5 at *
  generalize w / 2 ^ 32 % 256 = r4 at *
  generalize w / 2 ^ 24 % 256 = r3 at *
  generalize w / 2 ^ 16 % 256 = r2 at *
  generalize w / 2 ^ 8 % 256 = r1 at *
  generalize w % 256 = r0 at *
  generalize w / 2 ^ 56 = q7 at *
  generalize w / 2 ^ 48 = q6 at *
  generalize w / 2 ^ 40 = q5 at *
  generalize w / 2 ^ 32 = q4 at *
  generalize w / 2 ^ 24 = q3 at *
  generalize w / 2 ^ 16 = q2 at *
  generalize w / 2 ^ 8 = q1 at *
  omega

/-- Reading back what `GST_WRITE_UINT64_BE` wrote. -/
theorem read_write_uint64_be (v : Nat) (hv : v < 2 ^ 64)
    (b0 b1 b2 b3 b4 b5 b6 b7 : Nat) (rest : List Nat) :
    GST_READ_UINT64_BE
      (GST_WRITE_UINT64_BE (b0 :: b1 :: b2 :: b3 :: b4 :: b5 :: b6 :: b7 :: rest) v) = v := by
  rw [write_uint64_be_eq, read_uint64_be_eq]
  exact bytes_of_uint64_sum v hv

/-- A list of at least 8 elements, taken apart. -/
theorem list_of_length_ge_8 (data : List Nat) (h : 8 ≤ data.length) :
    ∃ b0 b1 b2 b3 b4 b5 b6 b7 rest,
      data = b0 :: b1 :: b2 :: b3 :: b4 :: b5 :: b6 :: b7 :: rest := by
  match data, h with
  | b0 :: b1 :: b2 :: b3 :: b4 :: b5 :: b6 :: b7 :: rest, _ =>
    exact ⟨b0, b1, b2, b3, b4, b5, b6, b7, rest, rfl⟩

/-- C13: for every value `v` and every buffer of at least 7 bytes,
`gst_rtp_hdrext_set_ntp_56` followed by `gst_rtp_hdrext_get_ntp_56` on the
same bytes succeeds and yields `v mod 2^56`; so a value below 2^56 comes back
as it was. -/
theorem ntp_56_round_trip (v : Nat) (data : List Nat) (size : Nat)
    (hsize : 7 ≤ size) (hlen : 7 ≤ data.length) :
    (gst_rtp_hdrext_set_ntp_56 (some data) size v).1 = true ∧
    gst_rtp_hdrext_get_ntp_56 (gst_rtp_hdrext_set_ntp_56 (some data) size v).2 size =
      (true, some (v % 2 ^ 56)) ∧
    (v < 2 ^ 56 →
      gst_rtp_hdrext_get_ntp_56 (gst_rtp_hdrext_set_ntp_56 (some data) size v).2 size =
        (true, some v)) := by
  obtain ⟨b0, b1, b2, b3, b4, b5, b6, rest, rfl⟩ := list_of_length_ge_7 data hlen
  have hs : ¬ ¬ size ≥ GST_RTP_HDREXT_NTP_56_SIZE := by
    unfold GST_RTP_HDREXT_NTP_56_SIZE; omega
  have hget : gst_rtp_hdrext_get_ntp_56
      (gst_rtp_hdrext_set_ntp_56 (some (b0 :: b1 :: b2 :: b3 :: b4 :: b5 :: b6 :: rest))
        size v).2 size = (true, some (v % 2 ^ 56)) := by
    unfold gst_rtp_hdrext_set_ntp_56 gst_rtp_hdrext_get_ntp_56
    simp only [hs, if_false, set_ntp_56_loop_eq, get_ntp_56_loop_eq]
    rw [bytes_of_uint56_sum v]
  refine ⟨?_, hget, ?_⟩
  · unfold gst_rtp_hdrext_set_ntp_56
    simp only [hs, if_false]
  · intro hv
    rw [hget, Nat.mod_eq_of_lt hv]

/-- Witness of C13: the value `0x00A1B2C3D4E5F6` written into seven zero bytes
and read back. -/
theorem ntp_56_round_trip_witness :
    (gst_rtp_hdrext_set_ntp_56 (some [0, 0, 0, 0, 0, 0, 0]) 7 0x00A1B2C3D4E5F6).1 = true ∧
    gst_rtp_hdrext_get_ntp_56
        (gst_rtp_hdrext_set_ntp_56 (some [0, 0, 0, 0, 0, 0, 0]) 7 0x00A1B2C3D4E5F6).2 7 =
      (true, some (0x00A1B2C3D4E5F6 % 2 ^ 56)) ∧
    gst_rtp_hdrext_get_ntp_56
        (gst_rtp_hdrext_set_ntp_56 (some [0, 0, 0, 0, 0, 0, 0]) 7 0x00A1B2C3D4E5F6).2 7 =
      (true, some 0x00A1B2C3D4E5F6) :=
  ⟨(ntp_56_round_trip 0x00A1B2C3D4E5F6 [0, 0, 0, 0, 0, 0, 0] 7 (by decide) (by decide)).1,
    (ntp_56_round_trip 0x00A1B2C3D4E5F6 [0, 0, 0, 0, 0, 0, 0] 7 (by decide) (by decide)).2.1,
    (ntp_56_round_trip 0x00A1B2C3D4E5F6 [0, 0, 0, 0, 0, 0, 0] 7 (by decide) (by decide)).2.2
      (by decide)⟩

/-- C14: for every 64-bit value `v` and every buffer of at least 8 bytes,
`gst_rtp_hdrext_set_ntp_64` succeeds and leaves the 8 bytes of `v`, most
significant byte first, in front of the bytes that followed, and
`gst_rtp_hdrext_get_ntp_64` on those bytes succeeds and yields exactly `v`. -/
theorem ntp_64_round_trip (v : Nat) (data : List Nat) (size : Nat)
    (hv : v < 2 ^ 64) (hsize : 8 ≤ size) (hlen : 8 ≤ data.length) :
    gst_rtp_hdrext_set_ntp_64 (some data) size v =
      (true, some ([v / 2 ^ 56 % 256, v / 2 ^ 48 % 256, v / 2 ^ 40 % 256, v / 2 ^ 32 % 256,
        v / 2 ^ 24 % 256, v / 2 ^ 16 % 256, v / 2 ^ 8 % 256, v % 256] ++ data.drop 8)) ∧
    gst_rtp_hdrext_get_ntp_64 (gst_rtp_hdrext_set_ntp_64 (some data) size v).2 size =
      (true, some v) := by
  obtain ⟨b0, b1, b2, b3, b4, b5, b6, b7, rest, rfl⟩ := list_of_length_ge_8 data hlen
  have hs : ¬ ¬ size ≥ GST_RTP_HDREXT_NTP_64_SIZE := by
    unfold GST_RTP_HDREXT_NTP_64_SIZE; omega
  have hm : v % 2 ^ 64 = v := Nat.mod_eq_of_lt hv
  constructor
  · unfold gst_rtp_hdrext_set_ntp_64
    simp only [hs, if_false, write_uint64_be_eq, hm]
    simp
  · unfold gst_rtp_hdrext_set_ntp_64 gst_rtp_hdrext_get_ntp_64
    simp only [hs, if_false]
    rw [read_write_uint64_be v hv]

/-- Witness of C14: the value `0x0123456789ABCDEF` written into a buffer of nine
bytes and read back. -/
theorem ntp_64_round_trip_witness :
    gst_rtp_hdrext_set_ntp_64 (some [9, 9, 9, 9, 9, 9, 9, 9, 9]) 9 0x0123456789ABCDEF =
      (true, some ([0x0123456789ABCDEF / 2 ^ 56 % 256, 0x0123456789ABCDEF / 2 ^ 48 % 256,
        0x0123456789ABCDEF / 2 ^ 40 % 256, 0x0123456789ABCDEF / 2 ^ 32 % 256,
        0x0123456789ABCDEF / 2 ^ 24 % 256, 0x0123456789ABCDEF / 2 ^ 16 % 256,
        0x0123456789ABCDEF / 2 ^ 8 % 256, 0x0123456789ABCDEF % 256] ++
        [9, 9, 9, 9, 9, 9, 9, 9, 9].drop 8)) ∧
    gst_rtp_hdrext_get_ntp_64
        (gst_rtp_hdrext_set_ntp_64 (some [9, 9, 9, 9, 9, 9, 9, 9, 9]) 9
          0x0123456789ABCDEF).2 9 =
      (true, some 0x0123456789ABCDEF) :=
  ntp_64_round_trip 0x0123456789ABCDEF [9, 9, 9, 9, 9, 9, 9, 9, 9] 9
    (by decide) (by decide) (by decide)

/-- C15: NTP-56 is the NTP-64 encoding truncated. For every value `v`, what
`gst_rtp_hdrext_set_ntp_56` leaves in its destination is bytes 1..7 (the last
seven) of the 8 bytes `gst_rtp_hdrext_set_ntp_64` writes for the same `v`,
followed by the bytes after the first 7 of the destination as they were. -/
theorem ntp_56_is_ntp_64_truncated (v : Nat) (data56 data64 : List Nat) (size56 size64 : Nat)
    (h56 : 7 ≤ size56) (hlen56 : 7 ≤ data56.length)
    (h64 : 8 ≤ size64) (hlen64 : 8 ≤ data64.length) :
    gst_rtp_hdrext_set_ntp_64 (some data64) size64 v =
      (true, some (GST_WRITE_UINT64_BE data64 v)) ∧
    gst_rtp_hdrext_set_ntp_56 (some data56) size56 v =
      (true, some (((GST_WRITE_UINT64_BE data64 v).drop 1).take 7 ++ data56.drop 7)) := by
  obtain ⟨b0, b1, b2, b3, b4, b5, b6, rest, rfl⟩ := list_of_length_ge_7 data56 hlen56
  obtain ⟨c0, c1, c2, c3, c4, c5, c6, c7, rest2, rfl⟩ := list_of_length_ge_8 data64 hlen64
  have hs56 : ¬ ¬ size56 ≥ GST_RTP_HDREXT_NTP_56_SIZE := by
    unfold GST_RTP_HDREXT_NTP_56_SIZE; omega
  have hs64 : ¬ ¬ size64 ≥ GST_RTP_HDREXT_NTP_64_SIZE := by
    unfold GST_RTP_HDREXT_NTP_64_SIZE; omega
  constructor
  · unfold gst_rtp_hdrext_set_ntp_64
    simp only [hs64, if_false]
  · unfold gst_rtp_hdrext_set_ntp_56
    simp only [hs56, if_false, set_ntp_56_loop_eq, write_uint64_be_eq]
    simp

/-- Witness of C15: the value `0x0123456789ABCDEF` written in both forms, the
destination of the NTP-56 form being nine bytes long. -/
theorem ntp_56_is_ntp_64_truncated_witness :
    gst_rtp_hdrext_set_ntp_64 (some [0, 0, 0, 0, 0, 0, 0, 0]) 8 0x0123456789ABCDEF =
      (true, some (GST_WRITE_UINT64_BE [0, 0, 0, 0, 0, 0, 0, 0] 0x0123456789ABCDEF)) ∧
    gst_rtp_hdrext_set_ntp_56 (some [9, 9, 9, 9, 9, 9, 9, 8, 7]) 9 0x0123456789ABCDEF =
      (true, some (((GST_WRITE_UINT64_BE [0, 0, 0, 0, 0, 0, 0, 0]
        0x0123456789ABCDEF).drop 1).take 7 ++ [9, 9, 9, 9, 9, 9, 9, 8, 7].drop 7)) :=
  ntp_56_is_ntp_64_truncated 0x0123456789ABCDEF [9, 9, 9, 9, 9, 9, 9, 8, 7]
    [0, 0, 0, 0, 0, 0, 0, 0] 9 8 (by decide) (by decide) (by decide) (by decide)

/-! ## The source meta -/

/-- C16 at the failing input: `gst_buffer_add_rtp_source_meta` is called with
an SSRC and 15 CSRCs, both in memory of the allocator as the function asks for.
The meta is created, and `gst_rtp_source_meta_get_source_count` returns 16 for
it, where the test `test_rtp_source_meta_set_get_max_sources` expects the
count of a meta with an SSRC and 15 CSRCs to be 15. -/
theorem source_count_of_ssrc_and_15_csrcs_is_16 :
    (gst_buffer_add_rtp_source_meta gst_buffer_new (some (Guint32Memory.allocated [1000]))
      (some (Guint32Memory.allocated [0, 0, 0, 0, 0, 0, 0, 0, 0, 0, 0, 0, 0, 0, 0])) 15).2 =
      some (GstMeta.rtp_source (some (Guint32Memory.allocated [1000]))
        (some (Guint32Memory.allocated [0, 0, 0, 0, 0, 0, 0, 0, 0, 0, 0, 0, 0, 0, 0])) 15) ∧
    gst_rtp_source_meta_get_source_count
      (GstMeta.rtp_source (some (Guint32Memory.allocated [1000]))
        (some (Guint32Memory.allocated [0, 0, 0, 0, 0, 0, 0, 0, 0, 0, 0, 0, 0, 0, 0])) 15) =
      16 ∧
    ¬ gst_rtp_source_meta_get_source_count
      (GstMeta.rtp_source (some (Guint32Memory.allocated [1000]))
        (some (Guint32Memory.allocated [0, 0, 0, 0, 0, 0, 0, 0, 0, 0, 0, 0, 0, 0, 0])) 15) ≤
      15 :=
  ⟨by decide, by decide, by decide⟩

/-- Every source meta created by `gst_buffer_add_rtp_source_meta` holds the
pointers it was handed and a `csrc_count` of at most 15, the SSRC being present
or absent; `gst_rtp_source_meta_get_source_count` is `csrc_count` plus one for
a present SSRC, so it is at most 15 whenever the SSRC is absent or there are
at most 14 CSRCs, and 16 otherwise. -/
theorem source_meta_has_at_most_15_csrcs (buffer : GstBuffer)
    (ssrc csrc : Option Guint32Memory) (csrc_count : Nat) (meta : GstMeta)
    (hcount : csrc_count < 2 ^ 32)
    (hadd : (gst_buffer_add_rtp_source_meta buffer ssrc csrc csrc_count).2 = some meta) :
    meta = GstMeta.rtp_source ssrc csrc csrc_count ∧
    csrc_count ≤ 15 ∧
    (ssrc = none ∨ csrc_count ≤ 14 → gst_rtp_source_meta_get_source_count meta ≤ 15) ∧
    (ssrc ≠ none → csrc_count = 15 → gst_rtp_source_meta_get_source_count meta = 16) := by
  have hmod : csrc_count % 2 ^ 32 = csrc_count := Nat.mod_eq_of_lt hcount
  unfold gst_buffer_add_rtp_source_meta at hadd
  rw [hmod] at hadd
  by_cases hle : csrc_count ≤ 15
  · simp only [hle, not_true_eq_false, if_false] at hadd
    split at hadd
    · simp at hadd
    · simp only [Option.some.injEq] at hadd
      subst hadd
      refine ⟨rfl, hle, ?_, ?_⟩
      · intro h
        unfold gst_rtp_source_meta_get_source_count
        rcases h with h | h
        · subst h
          simp only [Option.isSome_none, Bool.false_eq_true, if_false]
          omega
        · cases ssrc with
          | none =>
            simp only [Option.isSome_none, Bool.false_eq_true, if_false]
            omega
          | some v =>
            simp only [Option.isSome_some, if_true]
            omega
      · intro hs h15
        unfold gst_rtp_source_meta_get_source_count
        cases ssrc with
        | none => exact absurd rfl hs
        | some v =>
          simp only [Option.isSome_some, if_true]
          omega
  · simp [hle] at hadd

/-! ## The outgoing headers -/

theorem same_but_metas_refl (a : GstBuffer) : same_but_metas a a :=
  ⟨rfl, rfl, rfl, rfl, rfl⟩

theorem same_but_metas_trans {a b c : GstBuffer} (h1 : same_but_metas a b)
    (h2 : same_but_metas b c) : same_but_metas a c := by
  unfold same_but_metas at *
  obtain ⟨a1, a2, a3, a4, a5⟩ := h1
  obtain ⟨b1, b2, b3, b4, b5⟩ := h2
  exact ⟨a1.trans b1, a2.trans b2, a3.trans b3, a4.trans b4, a5.trans b5⟩

theorem add_rtp_source_meta_same (outbuf rtpbuf : GstBuffer) :
    same_but_metas (add_rtp_source_meta outbuf rtpbuf) outbuf := by
  unfold add_rtp_source_meta
  cases rtpbuf.rtp with
  | none => exact same_but_metas_refl _
  | some rtp =>
    simp only [gst_buffer_add_rtp_source_meta]
    split
    · exact ⟨rfl, rfl, rfl, rfl, rfl⟩
    · exact ⟨rfl, rfl, rfl, rfl, rfl⟩

theorem extract_audio_level_same (buffer : GstBuffer) (rtp : GstRTPBuffer) (id : Nat) :
    same_but_metas (gst_buffer_extract_rtp_audio_level_meta_one_byte_ext buffer rtp id).1
      buffer := by
  unfold gst_buffer_extract_rtp_audio_level_meta_one_byte_ext
  split
  · exact same_but_metas_refl _
  · split
    · exact same_but_metas_refl _
    · split
      · exact ⟨rfl, rfl, rfl, rfl, rfl⟩
      · exact same_but_metas_refl _

theorem add_rtp_audio_level_meta_same (out rtpbuf : GstBuffer) (id : Nat) :
    same_but_metas (add_rtp_audio_level_meta out rtpbuf id) out := by
  unfold add_rtp_audio_level_meta
  cases rtpbuf.rtp with
  | none => exact same_but_metas_refl _
  | some rtp => exact extract_audio_level_same out rtp id

theorem add_rtp_roi_meta_same (env : Env) (out rtpbuf : GstBuffer) (id : Nat) :
    same_but_metas (add_rtp_roi_meta env out rtpbuf id) out := by
  unfold add_rtp_roi_meta
  cases rtpbuf.rtp with
  | none => exact same_but_metas_refl _
  | some rtp => exact ⟨rfl, rfl, rfl, rfl, rfl⟩

/-- The metas apart, the buffer `set_headers` returns is the buffer it was given
with the carried timestamps filled in and DISCONT set when it was pending. -/
theorem set_headers_buffer (env : Env) (buffer : GstBuffer) (f : GstRTPBaseDepayload) :
    same_but_metas (set_headers env buffer f).1
      (if f.priv.discont then
        { buffer with
          pts := if !GST_CLOCK_TIME_IS_VALID buffer.pts then f.priv.pts else buffer.pts,
          dts := if !GST_CLOCK_TIME_IS_VALID buffer.dts then f.priv.dts else buffer.dts,
          duration := if !GST_CLOCK_TIME_IS_VALID buffer.duration then f.priv.duration
            else buffer.duration,
          discont := true }
      else
        { buffer with
          pts := if !GST_CLOCK_TIME_IS_VALID buffer.pts then f.priv.pts else buffer.pts,
          dts := if !GST_CLOCK_TIME_IS_VALID buffer.dts then f.priv.dts else buffer.dts,
          duration := if !GST_CLOCK_TIME_IS_VALID buffer.duration then f.priv.duration
            else buffer.duration }) := by
  have h3 : ∀ (b : GstBuffer) (si : Bool) (ib : Option GstBuffer),
      same_but_metas
        (match si, ib with
          | true, some input_buffer => add_rtp_source_meta b input_buffer
          | _, _ => b) b := by
    intro b si ib
    split
    · exact add_rtp_source_meta_same _ _
    · exact same_but_metas_refl _
  have h4 : ∀ (b : GstBuffer) (al : Bool) (ib : Option GstBuffer) (id : Nat),
      same_but_metas
        (match al, ib with
          | true, some input_buffer => add_rtp_audio_level_meta b input_buffer id
          | _, _ => b) b := by
    intro b al ib id
    split
    · exact add_rtp_audio_level_meta_same _ _ _
    · exact same_but_metas_refl _
  have h5 : ∀ (b : GstBuffer) (ib : Option GstBuffer) (roi : Bool) (id : Nat),
      same_but_metas
        (match ib, roi with
          | some input_buffer, true =>
            (match env.roi_ext_hdr_read with
            | some reader =>
              (match input_buffer.rtp with
              | some rtp => { b with metas := b.metas ++ reader b rtp id }
              | none => b)
            | none => add_rtp_roi_meta env b input_buffer id)
          | _, _ => b) b := by
    intro b ib roi id
    split
    · split
      · split
        · exact ⟨rfl, rfl, rfl, rfl, rfl⟩
        · exact same_but_metas_refl _
      · exact add_rtp_roi_meta_same _ _ _ _
    · exact same_but_metas_refl _
  unfold set_headers
  exact same_but_metas_trans (h5 _ _ _ _)
    (same_but_metas_trans (h4 _ _ _ _) (same_but_metas_trans (h3 _ _ _)
      (by split <;> exact same_but_metas_refl _)))

/-- The timestamps and the DISCONT flag of the buffer `set_headers` returns. -/
theorem set_headers_fields (env : Env) (buffer : GstBuffer) (f : GstRTPBaseDepayload) :
    (set_headers env buffer f).1.pts =
      (if !GST_CLOCK_TIME_IS_VALID buffer.pts then f.priv.pts else buffer.pts) ∧
    (set_headers env buffer f).1.dts =
      (if !GST_CLOCK_TIME_IS_VALID buffer.dts then f.priv.dts else buffer.dts) ∧
    (set_headers env buffer f).1.duration =
      (if !GST_CLOCK_TIME_IS_VALID buffer.duration then f.priv.duration
        else buffer.duration) ∧
    (set_headers env buffer f).1.discont = (if f.priv.discont then true else buffer.discont) := by
  obtain ⟨h1, h2, h3, h4, _⟩ := set_headers_buffer env buffer f
  by_cases hd : f.priv.discont = true
  · rw [if_pos hd] at h1 h2 h3 h4
    rw [if_pos hd]
    exact ⟨h1, h2, h3, h4⟩
  · rw [if_neg hd] at h1 h2 h3 h4
    rw [if_neg hd]
    exact ⟨h1, h2, h3, h4⟩

/-- A timestamp that is not valid is `GST_CLOCK_TIME_NONE`, so filling it with
`GST_CLOCK_TIME_NONE` leaves it as it was. -/
theorem fill_with_none (t : Nat) :
    (if !GST_CLOCK_TIME_IS_VALID t then GST_CLOCK_TIME_NONE else t) = t := by
  unfold GST_CLOCK_TIME_IS_VALID
  by_cases h : t = GST_CLOCK_TIME_NONE
  · simp [h]
  · simp [h]

/-- C17: in `set_headers`, for each of PTS, DTS and duration on its own, an
output buffer that already has a valid value keeps it and one that has none
receives the value carried from the last input packet; after the call the
three carried values are `GST_CLOCK_TIME_NONE`, so a second output buffer
made from the same input packet comes out with the timestamps it went in
with. -/
theorem set_headers_carries_timestamps_once (env : Env) (buffer buffer2 : GstBuffer)
    (depayload : GstRTPBaseDepayload) :
    ((set_headers env buffer depayload).1.pts =
        (if GST_CLOCK_TIME_IS_VALID buffer.pts then buffer.pts else depayload.priv.pts) ∧
      (set_headers env buffer depayload).1.dts =
        (if GST_CLOCK_TIME_IS_VALID buffer.dts then buffer.dts else depayload.priv.dts) ∧
      (set_headers env buffer depayload).1.duration =
        (if GST_CLOCK_TIME_IS_VALID buffer.duration then buffer.duration
          else depayload.priv.duration)) ∧
    ((set_headers env buffer depayload).2.priv.pts = GST_CLOCK_TIME_NONE ∧
      (set_headers env buffer depayload).2.priv.dts = GST_CLOCK_TIME_NONE ∧
      (set_headers env buffer depayload).2.priv.duration = GST_CLOCK_TIME_NONE) ∧
    ((set_headers env buffer2 (set_headers env buffer depayload).2).1.pts = buffer2.pts ∧
      (set_headers env buffer2 (set_headers env buffer depayload).2).1.dts = buffer2.dts ∧
      (set_headers env buffer2 (set_headers env buffer depayload).2).1.duration =
        buffer2.duration) := by
  obtain ⟨h1, h2, h3, _⟩ := set_headers_fields env buffer depayload
  obtain ⟨k1, k2, k3, _⟩ := set_headers_fields env buffer2 (set_headers env buffer depayload).2
  refine ⟨⟨?_, ?_, ?_⟩, ⟨rfl, rfl, rfl⟩, ⟨?_, ?_, ?_⟩⟩
  · rw [h1]; cases GST_CLOCK_TIME_IS_VALID buffer.pts <;> rfl
  · rw [h2]; cases GST_CLOCK_TIME_IS_VALID buffer.dts <;> rfl
  · rw [h3]; cases GST_CLOCK_TIME_IS_VALID buffer.duration <;> rfl
  · rw [k1]; exact fill_with_none _
  · rw [k2]; exact fill_with_none _
  · rw [k3]; exact fill_with_none _

/-- C18: the pending discont flag is consumed exactly once. If it is set when
`set_headers` runs, the output buffer gets the DISCONT flag and the pending
flag is cleared; if it is not set, the DISCONT flag of the output buffer is
left as it was and the pending flag stays clear, which is the case of every
output buffer that follows until a new discontinuity is detected. -/
theorem pending_discont_is_consumed_once (env : Env) (buffer : GstBuffer)
    (depayload : GstRTPBaseDepayload) :
    (depayload.priv.discont = true →
      (set_headers env buffer depayload).1.discont = true ∧
      (set_headers env buffer depayload).2.priv.discont = false) ∧
    (depayload.priv.discont = false →
      (set_headers env buffer depayload).1.discont = buffer.discont ∧
      (set_headers env buffer depayload).2.priv.discont = false) ∧
    (∀ buffer2 : GstBuffer,
      (set_headers env buffer2 (set_headers env buffer depayload).2).1.discont =
        buffer2.discont) := by
  obtain ⟨_, _, _, h4⟩ := set_headers_fields env buffer depayload
  have hafter : (set_headers env buffer depayload).2.priv.discont = false := by
    rw [set_headers_state]
    cases hd : depayload.priv.discont <;> simp [hd]
  refine ⟨?_, ?_, ?_⟩
  · intro hd
    rw [h4, hd]
    exact ⟨rfl, hafter⟩
  · intro hd
    rw [h4, hd]
    exact ⟨by simp, hafter⟩
  · intro buffer2
    obtain ⟨_, _, _, k4⟩ :=
      set_headers_fields env buffer2 (set_headers env buffer depayload).2
    rw [k4, hafter]
    simp

/-- Witness of C18: a discontinuity is pending; the first output buffer gets the
DISCONT flag and clears the pending flag, and the second one, pushed after it,
is left without the flag. -/
theorem pending_discont_is_consumed_once_witness :
    ((set_headers sample_env gst_buffer_new (sample_filter_pending true 5 6 7)).1.discont =
        true ∧
      (set_headers sample_env gst_buffer_new
        (sample_filter_pending true 5 6 7)).2.priv.discont = false) ∧
    ((set_headers sample_env gst_buffer_new
        (set_headers sample_env gst_buffer_new
          (sample_filter_pending true 5 6 7)).2).1.discont = gst_buffer_new.discont ∧
      (set_headers sample_env gst_buffer_new
        (set_headers sample_env gst_buffer_new
          (sample_filter_pending true 5 6 7)).2).2.priv.discont = false) :=
  ⟨(pending_discont_is_consumed_once sample_env gst_buffer_new
      (sample_filter_pending true 5 6 7)).1 rfl,
    (pending_discont_is_consumed_once sample_env gst_buffer_new
      (set_headers sample_env gst_buffer_new (sample_filter_pending true 5 6 7)).2).2.1 rfl⟩

/-- What `foreach_metadata_drop` keeps: the metas that are no source metas. -/
theorem foreach_metadata_drop_eq (metas : List GstMeta) :
    foreach_metadata_drop metas = metas.filter (fun m => !is_rtp_source_meta m) := by
  unfold foreach_metadata_drop
  congr 1
  funext m
  cases m <;> rfl

/-- Appending CSRCs keeps a source meta a source meta and does not touch its
SSRC pointer. -/
theorem append_csrcs_keep_ssrc (s : Option Guint32Memory) (cs : List Nat) :
    ∀ (c : Option Guint32Memory) (n : Nat),
      ∃ c2 n2,
        cs.foldl (fun m csrc => (gst_rtp_source_meta_append_csrc m [csrc % 2 ^ 32]).2)
          (GstMeta.rtp_source s c n) = GstMeta.rtp_source s c2 n2 := by
  induction cs with
  | nil => intro c n; exact ⟨c, n, rfl⟩
  | cons x xs ih =>
    intro c n
    have hstep : ∃ c1 n1, (gst_rtp_source_meta_append_csrc (GstMeta.rtp_source s c n)
        [x % 2 ^ 32]).2 = GstMeta.rtp_source s c1 n1 := by
      simp only [gst_rtp_source_meta_append_csrc]
      by_cases h15 : 15 < n + [x % 2 ^ 32].length
      · rw [if_pos h15]
        exact ⟨c, n, rfl⟩
      · rw [if_neg h15]
        cases c with
        | none => exact ⟨_, _, rfl⟩
        | some m =>
          cases m with
          | allocated v => exact ⟨_, _, rfl⟩
          | automatic v => exact ⟨_, _, rfl⟩
          | expired => exact ⟨_, _, rfl⟩
    obtain ⟨c1, n1, h1⟩ := hstep
    rw [List.foldl_cons, h1]
    exact ih c1 n1

/-- The buffer `add_rtp_source_meta` returns for a packet that maps: the metas
of another kind, in order, followed by one source meta, whose SSRC pointer is
the address of a variable that is gone. -/
theorem add_rtp_source_meta_eq (outbuf rtpbuf : GstBuffer) (rtp : GstRTPBuffer)
    (hmap : rtpbuf.rtp = some rtp) :
    ∃ csrc csrc_count,
      add_rtp_source_meta outbuf rtpbuf =
        { outbuf with
          metas := outbuf.metas.filter (fun m => !is_rtp_source_meta m) ++
            [GstMeta.rtp_source (some Guint32Memory.expired) csrc csrc_count] } := by
  obtain ⟨c2, n2, h2⟩ := append_csrcs_keep_ssrc
    (some (Guint32Memory.automatic [gst_rtp_buffer_get_ssrc rtp]))
    (rtp.csrc.take (gst_rtp_buffer_get_csrc_count rtp)) none 0
  refine ⟨expire c2, n2, ?_⟩
  unfold add_rtp_source_meta
  simp only [hmap, gst_buffer_add_rtp_source_meta]
  simp only [Nat.zero_mod, Nat.zero_le, not_true_eq_false, if_false, true_and, ne_eq,
    not_true_eq_false, and_false, or_false, and_self]
  rw [h2, foreach_metadata_drop_eq]
  rfl

/-- C19 at the failing input: an output buffer with a source meta and a meta of
another kind, tagged from a packet of SSRC 7 without CSRCs. One source meta is
left and the meta of another kind is kept, but the SSRC of the source meta is
not that of the packet: `gst_buffer_add_rtp_source_meta` stored the pointer it
was handed, the address of the variable `ssrc` of `add_rtp_source_meta`, and
that variable is gone when the function has returned, so nothing can be read
through the pointer. A second tagging removes this meta, and the buffer then
runs `gst_rtp_source_meta_free` on it, which hands the pointer to `g_free`:
that call is undefined, so tagging twice is not the same as tagging once. -/
theorem source_meta_points_to_expired_variable :
    (add_rtp_source_meta
      { gst_buffer_new with
        metas := [GstMeta.rtp_source (some (Guint32Memory.allocated [1])) none 0,
          GstMeta.other 3 4] }
      (sample_packet 7 10 false)).metas =
      [GstMeta.other 3 4, GstMeta.rtp_source (some Guint32Memory.expired) none 0] ∧
    guint32_read (some Guint32Memory.expired) = none ∧
    guint32_read (some Guint32Memory.expired) ≠ some [gst_rtp_buffer_get_ssrc (sample_rtp 7 10)] ∧
    (gst_buffer_add_rtp_source_meta gst_buffer_new (some (Guint32Memory.automatic [7]))
      none 0).2 = some (GstMeta.rtp_source (some (Guint32Memory.automatic [7])) none 0) ∧
    gst_rtp_source_meta_free (GstMeta.rtp_source (some Guint32Memory.expired) none 0) = none :=
  ⟨by decide, by decide, by decide, by decide, by decide⟩

/-! ## The segment event -/

/-- Counterexample to C20 as stated: the caps gave `npt-start = 10` and
`npt-stop = 5`, and the stored segment starts at 100. The segment of the event
has `start = 100` and `stop = 95`, both defined, and `stop < start`. -/
theorem segment_stop_before_start_example :
    (gst_event_parse_segment
      (create_segment_event sample_env (sample_filter_npt 10 5 100) 0
        GST_CLOCK_TIME_NONE)).map (fun seg => (seg.start, seg.stop)) = some (100, 95) ∧
    (100 : Nat) ≠ GST_CLOCK_TIME_NONE ∧ (95 : Nat) ≠ GST_CLOCK_TIME_NONE ∧ (95 : Nat) < 100 :=
  ⟨rfl, by decide, by decide, by decide⟩

/-- C20, amended: the segment produced by `create_segment_event` satisfies
`stop ≥ start` whenever `npt_stop` is known, `npt_start ≤ npt_stop` and
`start + (npt_stop - npt_start)` is below 2^64, for all values of the upstream
segment, the clock base, the RTP time and the position. When `npt_stop` is
unknown, `stop` is the stop of the upstream segment as it is. -/
theorem segment_stop_not_before_start (env : Env) (filter : GstRTPBaseDepayload)
    (rtptime position : Nat) (seg : GstSegment)
    (hseg : gst_event_parse_segment (create_segment_event env filter rtptime position) =
      some seg) :
    (filter.priv.npt_stop ≠ GST_CLOCK_TIME_NONE →
      filter.priv.npt_start ≤ filter.priv.npt_stop →
      seg.start + (filter.priv.npt_stop - filter.priv.npt_start) < 2 ^ 64 →
      seg.start ≤ seg.stop) ∧
    (filter.priv.npt_stop = GST_CLOCK_TIME_NONE → seg.stop = filter.segment.stop) := by
  unfold create_segment_event gst_event_parse_segment at hseg
  simp only [Option.some.injEq] at hseg
  subst hseg
  constructor
  · intro hknown hle hfit
    simp only [hknown, ne_eq, not_false_eq_true, if_true] at hfit ⊢
    have hd : (filter.priv.npt_stop + 2 ^ 64 - filter.priv.npt_start) % 2 ^ 64 =
        filter.priv.npt_stop - filter.priv.npt_start := by omega
    rw [hd, Nat.mod_eq_of_lt hfit]
    omega
  · intro hunknown
    simp [hunknown]

/-- Witness of C20, amended: `npt-start = 5`, `npt-stop = 10` and a stored
segment that starts at 100 give a segment from 100 to 105. -/
theorem segment_stop_not_before_start_witness :
    gst_event_parse_segment
        (create_segment_event sample_env (sample_filter_npt 5 10 100) 0
          GST_CLOCK_TIME_NONE) =
      some { gst_segment_init GST_FORMAT_TIME with
        start := 100, stop := 105, time := 5, position := 100, base := 100 } ∧
    ({ gst_segment_init GST_FORMAT_TIME with
        start := 100, stop := 105, time := 5, position := 100, base := 100 } :
        GstSegment).start ≤
      ({ gst_segment_init GST_FORMAT_TIME with
        start := 100, stop := 105, time := 5, position := 100, base := 100 } :
        GstSegment).stop :=
  ⟨rfl,
    (segment_stop_not_before_start sample_env (sample_filter_npt 5 10 100) 0
      GST_CLOCK_TIME_NONE
      { gst_segment_init GST_FORMAT_TIME with
        start := 100, stop := 105, time := 5, position := 100, base := 100 } rfl).1
      (by decide) (by decide) (by decide)⟩

/-- Counterexample to C21 as stated: the caps gave no `npt-stop` and the stored
segment runs from 100 to 500. The segment of the event stops at 500, a defined
time, although `npt_stop` is unknown. -/
theorem segment_stop_defined_without_npt_stop :
    (sample_filter_upstream 100 500).priv.npt_stop = GST_CLOCK_TIME_NONE ∧
    (gst_event_parse_segment
      (create_segment_event sample_env (sample_filter_upstream 100 500) 0
        GST_CLOCK_TIME_NONE)).map (fun seg => seg.stop) = some 500 ∧
    (500 : Nat) ≠ GST_CLOCK_TIME_NONE :=
  ⟨rfl, rfl, by decide⟩

/-- C21, amended: in the segment produced by `create_segment_event`, when
`npt_stop` is known, `stop` is `start + (npt_stop - npt_start)` in unsigned
64-bit arithmetic, that is the integer `start + npt_stop - npt_start` reduced
modulo 2^64; when `npt_stop` is unknown, `stop` is the stop of the upstream
segment as it is (unresolved only if that one is). -/
theorem segment_stop_follows_npt_range (env : Env) (filter : GstRTPBaseDepayload)
    (rtptime position : Nat) (seg : GstSegment)
    (hseg : gst_event_parse_segment (create_segment_event env filter rtptime position) =
      some seg)
    (hstart : filter.priv.npt_start < 2 ^ 64) :
    (filter.priv.npt_stop ≠ GST_CLOCK_TIME_NONE →
      (seg.stop : Int) =
        ((seg.start : Int) + (filter.priv.npt_stop : Int) - (filter.priv.npt_start : Int)) %
          2 ^ 64) ∧
    (filter.priv.npt_stop = GST_CLOCK_TIME_NONE → seg.stop = filter.segment.stop) := by
  unfold create_segment_event gst_event_parse_segment at hseg
  simp only [Option.some.injEq] at hseg
  subst hseg
  constructor
  · intro hknown
    simp only [hknown, ne_eq, not_false_eq_true, if_true]
    omega
  · intro hunknown
    simp [hunknown]

/-- Witness of C21, amended: `npt-start = 5`, `npt-stop = 10` and a stored
segment that starts at 100 give a segment from 100 to 105. -/
theorem segment_stop_follows_npt_range_witness :
    gst_event_parse_segment
        (create_segment_event sample_env (sample_filter_npt 5 10 100) 0
          GST_CLOCK_TIME_NONE) = some (sample_segment 100 105 5) ∧
    (sample_filter_npt 5 10 100).priv.npt_start < 2 ^ 64 ∧
    (sample_filter_npt 5 10 100).priv.npt_stop ≠ GST_CLOCK_TIME_NONE ∧
    ((sample_segment 100 105 5).stop : Int) =
      (((sample_segment 100 105 5).start : Int) +
        ((sample_filter_npt 5 10 100).priv.npt_stop : Int) -
        ((sample_filter_npt 5 10 100).priv.npt_start : Int)) % 2 ^ 64 :=
  ⟨rfl, by decide, by decide,
    (segment_stop_follows_npt_range sample_env (sample_filter_npt 5 10 100) 0
      GST_CLOCK_TIME_NONE (sample_segment 100 105 5) rfl (by decide)).1 (by decide)⟩

/-! ## Lost packets -/

/-- Counterexample to C22 as stated: a notification with timestamp, duration
and `might-have-been-fec = TRUE` that arrives before any segment was sent on
the source pad. The function returns `FALSE`, not success. -/
theorem packet_lost_with_fec_before_segment_fails :
    gst_rtp_base_depayload_packet_lost sample_env none (sample_filter 11 7 100)
      (sample_packet_lost (some 10) (some 20) none (some true)) = (false, []) :=
  rfl

/-- C22, amended: `gst_rtp_base_depayload_packet_lost` sends a GAP event if and
only if the notification carries both timestamp and duration, the source pad
has a sticky segment event, and `might-have-been-fec` is absent or false; the
GAP event then carries exactly that timestamp and duration and the
`no-packet-loss` hint (false when the notification has none), it is the only
event sent, and the result is that of pushing it. The function returns `FALSE`
without sending anything when timestamp or duration is absent or no segment
event is on the source pad, and `TRUE` without sending anything when all three
are present and `might-have-been-fec` is true. -/
theorem packet_lost_sends_gap_or_not (env : Env) (sticky_segment : Option GstEvent)
    (filter : GstRTPBaseDepayload) (name : String) (s : GstRTPPacketLost) :
    ((gst_rtp_base_depayload_packet_lost env sticky_segment filter
        (GstEvent.custom_downstream name s)).2 ≠ [] ↔
      (s.timestamp.isSome ∧ s.duration.isSome ∧ sticky_segment.isSome ∧
        s.might_have_been_fec ≠ some true)) ∧
    (∀ timestamp duration : Nat, s.timestamp = some timestamp → s.duration = some duration →
      sticky_segment.isSome → s.might_have_been_fec ≠ some true →
      gst_rtp_base_depayload_packet_lost env sticky_segment filter
          (GstEvent.custom_downstream name s) =
        (env.gst_pad_push_event filter.srcpad
            (GstEvent.gap timestamp duration (s.no_packet_loss.getD false)),
          [GstEvent.gap timestamp duration (s.no_packet_loss.getD false)])) ∧
    (s.timestamp = none ∨ s.duration = none ∨ sticky_segment = none →
      gst_rtp_base_depayload_packet_lost env sticky_segment filter
          (GstEvent.custom_downstream name s) = (false, [])) ∧
    (s.timestamp.isSome → s.duration.isSome → sticky_segment.isSome →
      s.might_have_been_fec = some true →
      gst_rtp_base_depayload_packet_lost env sticky_segment filter
          (GstEvent.custom_downstream name s) = (true, [])) := by
  obtain ⟨timestamp, duration, no_packet_loss, might_have_been_fec⟩ := s
  unfold gst_rtp_base_depayload_packet_lost gst_event_get_structure
  cases timestamp <;> cases duration <;> cases sticky_segment <;>
    cases might_have_been_fec with
    | none => cases no_packet_loss <;> simp
    | some b => cases b <;> cases no_packet_loss <;> simp

/-- Witness of C22, amended: a notification with timestamp 10, duration 20 and
the hint `no-packet-loss = TRUE`, after a segment was sent, gives the GAP event
with these three values. -/
theorem packet_lost_sends_gap_or_not_witness :
    gst_rtp_base_depayload_packet_lost sample_env (some sample_sticky_segment)
        (sample_filter 11 7 100) (sample_packet_lost (some 10) (some 20) (some true) none) =
      (true, [GstEvent.gap 10 20 true]) :=
  (packet_lost_sends_gap_or_not sample_env (some sample_sticky_segment)
    (sample_filter 11 7 100) "GstRTPPacketLost"
    { timestamp := some 10, duration := some 20, no_packet_loss := some true,
      might_have_been_fec := none }).2.1 10 20 rfl rfl rfl (by decide)

/-! ## The latched flow return -/

theorem push_flow_ret (env : Env) (f : GstRTPBaseDepayload) (b : GstBuffer) :
    (gst_rtp_base_depayload_push env f b).2.priv.process_flow_ret =
      if (gst_rtp_base_depayload_push env f b).1 ≠ GST_FLOW_OK then
        (gst_rtp_base_depayload_push env f b).1
      else f.priv.process_flow_ret := by
  unfold gst_rtp_base_depayload_push gst_rtp_base_depayload_prepare_push
  simp only [set_headers_state]
  cases f.priv.segment_event <;> simp <;> split <;> simp_all

theorem last_failure_cons (r : GstFlowReturn) (rs : List GstFlowReturn)
    (d : GstFlowReturn) :
    (last_failure (r :: rs)).getD d =
      (last_failure rs).getD (if r ≠ GST_FLOW_OK then r else d) := by
  unfold last_failure
  by_cases h : r = GST_FLOW_OK
  · simp [h]
  · simp only [List.filter_cons, h, ne_eq, not_false_eq_true, decide_True, if_true]
    cases hf : List.filter (fun r => decide (r ≠ GST_FLOW_OK)) rs with
    | nil => simp
    | cons x xs =>
      cases h2 : (x :: xs).getLast? with
      | none => simp at h2
      | some y => simp [h2]

theorem push_all_flow_ret (env : Env) (bs : List GstBuffer) :
    ∀ f : GstRTPBaseDepayload,
      (push_all env f bs).priv.process_flow_ret =
        (last_failure (push_results env f bs)).getD f.priv.process_flow_ret := by
  induction bs with
  | nil => intro f; rfl
  | cons b bs ih =>
    intro f
    show (push_all env (gst_rtp_base_depayload_push env f b).2 bs).priv.process_flow_ret = _
    rw [ih, push_flow_ret]
    show _ = (last_failure ((gst_rtp_base_depayload_push env f b).1 ::
      push_results env (gst_rtp_base_depayload_push env f b).2 bs)).getD _
    rw [last_failure_cons]
theorem handle_buffer_process_eq (bclass : GstRTPBaseDepayloadClass) (env : Env)
    (a : Accepted) :
    handle_buffer_process bclass env a =
      match subclass_process bclass env a with
      | none => ⟨HandleBufferExit.no_process, GST_FLOW_ERROR, process_input env a⟩
      | some r =>
        let filter3 := push_all env (process_input env a) r.pushed
        let filter4 := match r.out_buf with
          | some out_buf =>
            if filter3.priv.process_flow_ret = GST_FLOW_OK then
              let q := gst_rtp_base_depayload_push env filter3 out_buf
              { q.2 with priv := { q.2.priv with process_flow_ret := q.1 } }
            else filter3
          | none => filter3
        let filter5 := { filter4 with priv := { filter4.priv with input_buffer := none } }
        ⟨HandleBufferExit.done, filter5.priv.process_flow_ret, filter5⟩ := by
  unfold handle_buffer_process subclass_process process_input
  cases bclass.process_rtp_packet with
  | some pf => rfl
  | none =>
    cases bclass.process with
    | some pf => rfl
    | none => rfl

theorem handle_buffer_process_latched (bclass : GstRTPBaseDepayloadClass) (env : Env)
    (a : Accepted) (r : ProcessResult) (hproc : subclass_process bclass env a = some r)
    (hfail : (push_all env (process_input env a) r.pushed).priv.process_flow_ret ≠
      GST_FLOW_OK) :
    (handle_buffer_process bclass env a).ret =
      (push_all env (process_input env a) r.pushed).priv.process_flow_ret ∧
    (handle_buffer_process bclass env a).filter.srcpad =
      (push_all env (process_input env a) r.pushed).srcpad ∧
    (handle_buffer_process bclass env a).filter.priv.process_flow_ret =
      (push_all env (process_input env a) r.pushed).priv.process_flow_ret := by
  rw [handle_buffer_process_eq, hproc]
  dsimp only
  cases r.out_buf with
  | none => exact ⟨rfl, rfl, rfl⟩
  | some ob =>
    simp only [hfail, if_false]
    simp
theorem accept_resets_flow_ret (filter : GstRTPBaseDepayload) (buf : GstBuffer)
    (a : Accepted) (hacc : handle_buffer_accept filter buf = Sum.inr a) :
    a.filter.priv.process_flow_ret = GST_FLOW_OK := by
  unfold handle_buffer_accept at hacc
  by_cases hneg : filter.priv.negotiated = true
  · cases hmap : buf.rtp with
    | none => simp [hneg, hmap] at hacc
    | some rtp =>
      simp only [hneg, hmap, not_true_eq_false, if_false] at hacc
      cases hc : check_seqnum filter.priv.next_seqnum filter.priv.last_ssrc
          filter.priv.max_reorder (gst_rtp_buffer_get_ssrc rtp) (gst_rtp_buffer_get_seq rtp)
          buf.discont with
      | none => simp [hc] at hacc
      | some discont =>
        simp only [hc, Sum.inr.injEq] at hacc
        subst hacc
        cases discont <;> rfl
  · simp [hneg] at hacc

theorem process_input_flow_ret (env : Env) (a : Accepted) :
    (process_input env a).priv.process_flow_ret = a.filter.priv.process_flow_ret := by
  unfold process_input
  split <;> rfl

/-- Counterexample to C23 as stated: the downstream peer refuses the first
buffer with `GST_FLOW_ERROR` and accepts what follows. The first packet returns
`GST_FLOW_ERROR`, which is stored in `process_flow_ret`; no caps event follows,
yet for the next packet a second buffer is pushed and the call returns
`GST_FLOW_OK`. -/
theorem latched_flow_return_is_gone_at_next_packet :
    (gst_rtp_base_depayload_handle_buffer sample_class failing_once_env
      (sample_filter 4294967295 0 100) (sample_packet 7 10 false)).ret = GST_FLOW_ERROR ∧
    (gst_rtp_base_depayload_handle_buffer sample_class failing_once_env
      (sample_filter 4294967295 0 100)
      (sample_packet 7 10 false)).filter.priv.process_flow_ret = GST_FLOW_ERROR ∧
    (gst_rtp_base_depayload_handle_buffer sample_class failing_once_env
      (sample_filter 4294967295 0 100) (sample_packet 7 10 false)).filter.srcpad.length = 1 ∧
    (gst_rtp_base_depayload_handle_buffer sample_class failing_once_env
      (gst_rtp_base_depayload_handle_buffer sample_class failing_once_env
        (sample_filter 4294967295 0 100) (sample_packet 7 10 false)).filter
      (sample_packet 7 11 false)).ret = GST_FLOW_OK ∧
    (gst_rtp_base_depayload_handle_buffer sample_class failing_once_env
      (gst_rtp_base_depayload_handle_buffer sample_class failing_once_env
        (sample_filter 4294967295 0 100) (sample_packet 7 10 false)).filter
      (sample_packet 7 11 false)).filter.srcpad.length = 2 :=
  ⟨rfl, rfl, rfl, rfl, rfl⟩

/-- C23, amended: a non-OK result of a push the subclass makes through
`gst_rtp_base_depayload_push` while it processes a packet is stored in
`process_flow_ret`, the last such result standing; for the rest of that call of
`gst_rtp_base_depayload_handle_buffer` the buffer the subclass returns is not
pushed, nothing more is sent on the source pad, and the stored result is what
the call returns. The stored result does not outlive the call: whatever
`process_flow_ret` held before, it is `GST_FLOW_OK` again when the subclass is
called for the packet. -/
theorem push_failure_is_latched_for_one_packet (bclass : GstRTPBaseDepayloadClass)
    (env : Env) (filter : GstRTPBaseDepayload) (buf : GstBuffer) (a : Accepted)
    (r : ProcessResult) (res : GstFlowReturn)
    (hacc : handle_buffer_accept filter buf = Sum.inr a)
    (hproc : subclass_process bclass env a = some r)
    (hfail : last_failure (push_results env (process_input env a) r.pushed) = some res) :
    res ≠ GST_FLOW_OK ∧
    (process_input env a).priv.process_flow_ret = GST_FLOW_OK ∧
    (push_all env (process_input env a) r.pushed).priv.process_flow_ret = res ∧
    (gst_rtp_base_depayload_handle_buffer bclass env filter buf).ret = res ∧
    (gst_rtp_base_depayload_handle_buffer bclass env filter buf).filter.priv.process_flow_ret =
      res ∧
    (gst_rtp_base_depayload_handle_buffer bclass env filter buf).filter.srcpad =
      (push_all env (process_input env a) r.pushed).srcpad := by
  have hres : res ≠ GST_FLOW_OK := by
    have hmem := List.mem_of_getLast?_eq_some hfail
    simpa using (List.mem_filter.mp hmem).2
  have hreset : (process_input env a).priv.process_flow_ret = GST_FLOW_OK := by
    rw [process_input_flow_ret]
    exact accept_resets_flow_ret filter buf a hacc
  have hlatch : (push_all env (process_input env a) r.pushed).priv.process_flow_ret = res := by
    rw [push_all_flow_ret, hfail]
    rfl
  have hne : (push_all env (process_input env a) r.pushed).priv.process_flow_ret ≠
      GST_FLOW_OK := by
    rw [hlatch]; exact hres
  obtain ⟨h1, h2, h3⟩ := handle_buffer_process_latched bclass env a r hproc hne
  unfold gst_rtp_base_depayload_handle_buffer
  rw [hacc]
  exact ⟨hres, hreset, hlatch, h1.trans hlatch, h3.trans hlatch, h2⟩

/-- Witness of C23, amended: the subclass pushes one buffer itself, which the
peer refuses with `GST_FLOW_ERROR`, and returns another one. The call returns
`GST_FLOW_ERROR` and only the refused buffer was sent. -/
theorem push_failure_is_latched_for_one_packet_witness :
    handle_buffer_accept (sample_filter 4294967295 0 100) (sample_packet 7 10 false) =
      Sum.inr sample_accepted ∧
    (gst_rtp_base_depayload_handle_buffer pushing_class failing_once_env
      (sample_filter 4294967295 0 100) (sample_packet 7 10 false)).ret = GST_FLOW_ERROR ∧
    (gst_rtp_base_depayload_handle_buffer pushing_class failing_once_env
      (sample_filter 4294967295 0 100) (sample_packet 7 10 false)).filter.srcpad.length = 1 :=
  ⟨rfl,
    (push_failure_is_latched_for_one_packet pushing_class failing_once_env
      (sample_filter 4294967295 0 100) (sample_packet 7 10 false) sample_accepted
      { pushed := [gst_buffer_new], out_buf := some gst_buffer_new } GST_FLOW_ERROR
      rfl rfl rfl).2.2.2.1,
    rfl⟩

/-! ## Segments in another format -/

/-- Counterexample to C24 as stated: a SEGMENT event in the BYTES format. Out
of ONVIF mode the handler returns `FALSE`, but the stored segment is the new
one and no longer the one stored before; in ONVIF mode with a peer that takes
the event the segment is stored as well and the handler returns `TRUE`. -/
theorem segment_in_bytes_format_is_stored :
    sample_segment_bytes.format ≠ GST_FORMAT_TIME ∧
    (sample_filter_onvif false).segment ≠ sample_segment_bytes ∧
    (gst_rtp_base_depayload_handle_event sample_class sample_env (sample_filter_onvif false)
      (GstEvent.segment sample_segment_bytes 42)).1 = false ∧
    (gst_rtp_base_depayload_handle_event sample_class sample_env (sample_filter_onvif false)
      (GstEvent.segment sample_segment_bytes 42)).2.segment = sample_segment_bytes ∧
    (gst_rtp_base_depayload_handle_event sample_class sample_env (sample_filter_onvif true)
      (GstEvent.segment sample_segment_bytes 42)).1 = true ∧
    (gst_rtp_base_depayload_handle_event sample_class sample_env (sample_filter_onvif true)
      (GstEvent.segment sample_segment_bytes 42)).2.segment = sample_segment_bytes :=
  ⟨by decide, by decide, rfl, rfl, rfl, rfl⟩

/-- C24, amended: when `gst_rtp_base_depayload_handle_event` receives a SEGMENT
event whose format is not TIME, the segment and the seqnum of the event are
stored in `filter->segment` and `segment_seqnum` all the same. Out of ONVIF
mode the handler returns `FALSE` and sends nothing on the source pad; in ONVIF
mode the event is forwarded and the handler returns the result of pushing
it. -/
theorem non_time_segment_is_stored (bclass : GstRTPBaseDepayloadClass) (env : Env)
    (filter : GstRTPBaseDepayload) (segment : GstSegment) (seqnum : Nat)
    (hformat : segment.format ≠ GST_FORMAT_TIME) :
    (gst_rtp_base_depayload_handle_event bclass env filter
      (GstEvent.segment segment seqnum)).2.segment = segment ∧
    (gst_rtp_base_depayload_handle_event bclass env filter
      (GstEvent.segment segment seqnum)).2.priv.segment_seqnum = seqnum ∧
    (filter.priv.onvif_mode = false →
      (gst_rtp_base_depayload_handle_event bclass env filter
        (GstEvent.segment segment seqnum)).1 = false ∧
      (gst_rtp_base_depayload_handle_event bclass env filter
        (GstEvent.segment segment seqnum)).2.srcpad = filter.srcpad) ∧
    (filter.priv.onvif_mode = true →
      (gst_rtp_base_depayload_handle_event bclass env filter
        (GstEvent.segment segment seqnum)).1 =
          env.gst_pad_push_event filter.srcpad (GstEvent.segment segment seqnum) ∧
      (gst_rtp_base_depayload_handle_event bclass env filter
        (GstEvent.segment segment seqnum)).2.srcpad =
          filter.srcpad ++ [PadItem.event (GstEvent.segment segment seqnum)]) := by
  unfold gst_rtp_base_depayload_handle_event
  cases honvif : filter.priv.onvif_mode <;> simp [hformat, honvif]

/-- Witness of C24, amended: the BYTES segment of the counterexample, out of
ONVIF mode. -/
theorem non_time_segment_is_stored_witness :
    sample_segment_bytes.format ≠ GST_FORMAT_TIME ∧
    (gst_rtp_base_depayload_handle_event sample_class sample_env (sample_filter_onvif false)
      (GstEvent.segment sample_segment_bytes 42)).2.segment = sample_segment_bytes :=
  ⟨by decide,
    (non_time_segment_is_stored sample_class sample_env (sample_filter_onvif false)
      sample_segment_bytes 42 (by decide)).1⟩

/-! ## The header-extension base class -/

/-- Counterexample to C25 as stated: the sample codec reports a maximum size of
2 for every input, and the destination holds 1 byte.
`gst_rtp_header_extension_write` does not fail: it returns 1 and the byte 42 is
in the destination. -/
theorem write_into_short_destination_succeeds :
    (1 : Nat) < gst_rtp_header_extension_get_max_size sample_hdr_ext_class sample_hdr_ext
      (some gst_buffer_new) ∧
    gst_rtp_header_extension_write sample_hdr_ext_class sample_hdr_ext (some gst_buffer_new) 0
        (some gst_buffer_new) true (some [0]) 1 =
      some { ret := 1, data := some [42], output := some gst_buffer_new,
             ext := sample_hdr_ext } :=
  ⟨by decide, rfl⟩

/-- C25, amended: `gst_rtp_header_extension_write` does not compare the size of
the destination with `gst_rtp_header_extension_get_max_size`. For every codec
that has a `write` method and every destination size, once the arguments pass
the checks of the function (buffers, writable output, `data` not `NULL`,
`ext_id` at most `MAX_RTP_EXT_ID`), the call returns what the `write` method
returns for this destination and size, and the destination is as that method
left it. A destination smaller than the maximum size is refused only if the
codec refuses it. -/
theorem header_extension_write_hands_size_to_codec {σ : Type}
    (klass : GstRTPHeaderExtensionClass σ) (ext : GstRTPHeaderExtension σ)
    (input_meta : GstBuffer) (write_flags : Nat) (output : GstBuffer) (data : List Nat)
    (size : Nat)
    (write : GstRTPHeaderExtension σ → GstBuffer → Nat → GstBuffer → List Nat → Nat →
      Option (WriteResult σ))
    (hid : ext.ext_id ≤ MAX_RTP_EXT_ID) (hwrite : klass.write = some write) :
    gst_rtp_header_extension_write klass ext (some input_meta) write_flags (some output) true
        (some data) size =
      (write ext input_meta write_flags output data size).map (fun w =>
        { ret := w.written, data := some w.data, output := some w.output, ext := w.ext }) := by
  unfold gst_rtp_header_extension_write
  simp [hid, hwrite]

/-- Witness of C25, amended: the run of the test `rtp_header_ext_write`. The
codec of the tests with the id 1 writes its byte into a destination of the
size it asked for. -/
theorem header_extension_write_hands_size_to_codec_witness :
    (gst_rtp_header_extension_set_id rtp_dummy_hdr_ext_new 1).ext_id ≤ MAX_RTP_EXT_ID ∧
    gst_rtp_header_extension_write gst_rtp_dummy_hdr_ext_class
        (gst_rtp_header_extension_set_id rtp_dummy_hdr_ext_new 1) (some gst_buffer_new) 0
        (some gst_buffer_new) true (some [0]) 1 =
      (gst_rtp_dummy_hdr_ext_write (gst_rtp_header_extension_set_id rtp_dummy_hdr_ext_new 1)
        gst_buffer_new 0 gst_buffer_new [0] 1).map (fun w =>
        { ret := w.written, data := some w.data, output := some w.output, ext := w.ext }) ∧
    (gst_rtp_dummy_hdr_ext_write (gst_rtp_header_extension_set_id rtp_dummy_hdr_ext_new 1)
        gst_buffer_new 0 gst_buffer_new [0] 1).map (fun w => (w.written, w.data)) =
      some (1, [TEST_DATA_BYTE]) :=
  ⟨by decide,
    header_extension_write_hands_size_to_codec gst_rtp_dummy_hdr_ext_class
      (gst_rtp_header_extension_set_id rtp_dummy_hdr_ext_new 1) gst_buffer_new 0
      gst_buffer_new [0] 1 gst_rtp_dummy_hdr_ext_write (by decide) rfl,
    rfl⟩

/-- For every `ext_id` above `MAX_RTP_EXT_ID`, the initial
value `G_MAXUINT32` included, `gst_rtp_header_extension_write` and
`gst_rtp_header_extension_read` return 0 and `FALSE` and leave the
destination, the buffers and the instance as they were, whatever the codec
does; and `gst_rtp_header_extension_set_id` with a value of 256 or more leaves
`ext_id` unchanged. -/
theorem header_extension_refuses_ids_above_256 {σ : Type}
    (klass : GstRTPHeaderExtensionClass σ) (ext : GstRTPHeaderExtension σ)
    (input_meta output buffer : Option GstBuffer) (flags : Nat) (writable : Bool)
    (data : Option (List Nat)) (size : Nat) (hid : MAX_RTP_EXT_ID < ext.ext_id) :
    gst_rtp_header_extension_write klass ext input_meta flags output writable data size =
      some { ret := 0, data := data, output := output, ext := ext } ∧
    gst_rtp_header_extension_read klass ext flags data size buffer writable =
      some { ret := false, buffer := buffer, ext := ext } ∧
    (∀ ext_id : Nat, ext_id < 2 ^ 32 → MAX_RTP_EXT_ID ≤ ext_id →
      gst_rtp_header_extension_set_id ext ext_id = ext) := by
  have hnot : ¬ ext.ext_id ≤ MAX_RTP_EXT_ID := by omega
  refine ⟨?_, ?_, ?_⟩
  · unfold gst_rtp_header_extension_write
    cases input_meta <;> cases output <;> cases data <;> cases writable <;> simp [hnot]
  · unfold gst_rtp_header_extension_read
    cases buffer <;> cases data <;> cases writable <;> simp [hnot]
  · intro ext_id hlt hge
    unfold gst_rtp_header_extension_set_id
    have hmod : ext_id % 2 ^ 32 = ext_id := Nat.mod_eq_of_lt hlt
    have hn : ¬ ext_id < MAX_RTP_EXT_ID := by omega
    simp only [hmod, hn, not_false_eq_true, if_true]

/-- C26 at the failing input: the codec of the tests with 256 in the public
field `ext_id`, a value outside 0..255 that `gst_rtp_header_extension_set_id`
itself refuses. `gst_rtp_header_extension_write` calls the codec all the same:
it returns 1, the test byte is in the destination and `write_count` is 1; and
`gst_rtp_header_extension_read` calls it too, `read_count` is 1. -/
theorem ext_id_256_reaches_the_codec :
    ¬ ((256 : Nat) < MAX_RTP_EXT_ID) ∧
    gst_rtp_header_extension_set_id rtp_dummy_hdr_ext_new 256 = rtp_dummy_hdr_ext_new ∧
    gst_rtp_header_extension_write gst_rtp_dummy_hdr_ext_class
        { rtp_dummy_hdr_ext_new with ext_id := 256 } (some gst_buffer_new) 0
        (some gst_buffer_new) true (some [0]) 1 =
      some { ret := 1, data := some [TEST_DATA_BYTE], output := some gst_buffer_new,
             ext := { ext_id := 256,
                      subclass := { supported_flags := 3, read_count := 0,
                                    write_count := 1 } } } ∧
    gst_rtp_header_extension_read gst_rtp_dummy_hdr_ext_class
        { rtp_dummy_hdr_ext_new with ext_id := 256 } 0 (some [TEST_DATA_BYTE]) 1
        (some gst_buffer_new) true =
      some { ret := true, buffer := some gst_buffer_new,
             ext := { ext_id := 256,
                      subclass := { supported_flags := 3, read_count := 1,
                                    write_count := 0 } } } :=
  ⟨by decide, by decide, by decide, by decide⟩

/-! ## The statistics -/

/-- C27 at the failing input, which is every state of the depayloader: the
`GstStructure` built by `gst_rtp_base_depayload_create_stats` has the nine fields
`clock_rate`, `npt-start`, `npt-stop`, `play-speed`, `play-scale`,
`running-time-dts`, `running-time-pts`, `seqnum` and `timestamp`. Its first
field is spelt with an underscore, so the names are not the documented ones,
which begin with `clock-rate`. -/
theorem stats_clock_rate_field_has_underscore (env : Env)
    (depayload : GstRTPBaseDepayload) :
    (gst_rtp_base_depayload_create_stats env depayload).fields.map Prod.fst =
      ["clock_rate", "npt-start", "npt-stop", "play-speed", "play-scale",
       "running-time-dts", "running-time-pts", "seqnum", "timestamp"] ∧
    (gst_rtp_base_depayload_create_stats env depayload).fields.map Prod.fst ≠
      documented_stats_fields ∧
    ((gst_rtp_base_depayload_create_stats env depayload).fields.map Prod.fst).tail =
      documented_stats_fields.tail := by
  refine ⟨rfl, ?_, rfl⟩
  show ["clock_rate", "npt-start", "npt-stop", "play-speed", "play-scale",
       "running-time-dts", "running-time-pts", "seqnum", "timestamp"] ≠
      documented_stats_fields
  decide

/-! ## The signed gap -/

/-- Counterexample to C28 as stated: with `next_seqnum = 3` a packet with
seqnum 5 is two ahead. The gap the tracker computes is -2, which is not
congruent to `seqnum - next_seqnum = 2` modulo 65536; the tracker takes the
negative gap for missing packets and marks a discontinuity. -/
theorem gap_of_packet_ahead_is_negative :
    gst_rtp_buffer_compare_seqnum 5 3 = -2 ∧
    ¬ (gst_rtp_buffer_compare_seqnum 5 3 - ((5 : Int) - 3)) % 65536 = 0 ∧
    check_seqnum 3 7 100 7 5 false = some true :=
  ⟨by decide, by decide, by decide⟩

/-- C28, amended: the signed gap the tracker computes for a packet,
`gst_rtp_buffer_compare_seqnum (seqnum, next_seqnum)`, is
`signed_mod16 (next_seqnum - seqnum)`: for all `seqnum` and `next_seqnum` it is
the one value in -32768..32767 that is congruent to `next_seqnum - seqnum`
modulo 65536, and it is 0 when `seqnum = next_seqnum`. -/
theorem tracker_gap_is_signed_distance_to_next (seqnum next_seqnum : Nat) :
    -32768 ≤ gst_rtp_buffer_compare_seqnum seqnum next_seqnum ∧
    gst_rtp_buffer_compare_seqnum seqnum next_seqnum ≤ 32767 ∧
    (gst_rtp_buffer_compare_seqnum seqnum next_seqnum -
      ((next_seqnum : Int) - (seqnum : Int))) % 65536 = 0 ∧
    (∀ g : Int, -32768 ≤ g → g ≤ 32767 →
      (g - ((next_seqnum : Int) - (seqnum : Int))) % 65536 = 0 →
      g = gst_rtp_buffer_compare_seqnum seqnum next_seqnum) ∧
    (seqnum = next_seqnum → gst_rtp_buffer_compare_seqnum seqnum next_seqnum = 0) := by
  unfold gst_rtp_buffer_compare_seqnum to_gint16
  refine ⟨?_, ?_, ?_, ?_, ?_⟩
  · split <;> omega
  · split <;> omega
  · split <;> omega
  · intro g h1 h2 h3
    split <;> omega
  · intro h
    subst h
    simp

/-! ## The start of the segment -/

/-- The start of the segment produced by `create_segment_event` in terms of the
gap it computes: when the clock base is known, the position is valid and the
position is above the gap, the start is the position less the gap, which does
not wrap; in every other case it is the start of the upstream segment. -/
theorem segment_start_of_gap (env : Env) (filter : GstRTPBaseDepayload)
    (rtptime position : Nat) (seg : GstSegment)
    (hseg : gst_event_parse_segment (create_segment_event env filter rtptime position) =
      some seg) :
    (filter.priv.clock_base ≠ G_MAXUINT32 → position ≠ GST_CLOCK_TIME_NONE →
      gst_util_uint64_scale_int
        ((env.gst_rtp_buffer_ext_timestamp filter.priv.clock_base rtptime + 2 ^ 64 -
          filter.priv.clock_base) % 2 ^ 64) (to_gint filter.clock_rate) GST_SECOND <
        position →
      seg.start + gst_util_uint64_scale_int
        ((env.gst_rtp_buffer_ext_timestamp filter.priv.clock_base rtptime + 2 ^ 64 -
          filter.priv.clock_base) % 2 ^ 64) (to_gint filter.clock_rate) GST_SECOND =
        position) ∧
    (filter.priv.clock_base ≠ G_MAXUINT32 → position ≠ GST_CLOCK_TIME_NONE →
      position ≤ gst_util_uint64_scale_int
        ((env.gst_rtp_buffer_ext_timestamp filter.priv.clock_base rtptime + 2 ^ 64 -
          filter.priv.clock_base) % 2 ^ 64) (to_gint filter.clock_rate) GST_SECOND →
      seg.start = filter.segment.start) ∧
    (filter.priv.clock_base = G_MAXUINT32 ∨ position = GST_CLOCK_TIME_NONE →
      seg.start = filter.segment.start) := by
  unfold create_segment_event gst_event_parse_segment at hseg
  simp only [Option.some.injEq] at hseg
  subst hseg
  refine ⟨?_, ?_, ?_⟩
  · intro h1 h2 h3
    simp only [h1, h2, ne_eq, not_false_eq_true, and_self, if_true, gt_iff_lt, h3]
    omega
  · intro h1 h2 h3
    have h4 : ¬ position > gst_util_uint64_scale_int
        ((env.gst_rtp_buffer_ext_timestamp filter.priv.clock_base rtptime + 2 ^ 64 -
          filter.priv.clock_base) % 2 ^ 64) (to_gint filter.clock_rate) GST_SECOND := by
      omega
    simp only [h1, h2, ne_eq, not_false_eq_true, and_self, if_true, h4, if_false]
  · intro h
    rcases h with h | h <;> simp [h]

/-- C29 at the failing input: clock rate 90000, clock base 0, RTP time 90000
(one second of ticks) and position 2 s. The code scales the 90000 ticks by
`clock_rate / GST_SECOND`, which gives a gap of 8, and the segment starts at
1999999992; the duration of 90000 ticks at 90000 ticks per second is
`90000 * 10^9 / 90000 = 10^9` ns, with which the segment would start at
10^9. -/
theorem segment_gap_is_scaled_by_clock_rate_over_second :
    gst_util_uint64_scale_int 90000 (to_gint (sample_filter_clock 0 90000).clock_rate)
      GST_SECOND = 8 ∧
    (gst_event_parse_segment
      (create_segment_event sample_env (sample_filter_clock 0 90000) 90000
        2000000000)).map (fun seg => seg.start) = some 1999999992 ∧
    (90000 - 0) * 1000000000 / 90000 = (1000000000 : Nat) ∧
    (2000000000 - 1000000000 : Nat) ≠ 1999999992 :=
  ⟨by decide, by decide, by decide, by decide⟩

/-! ## A wide reorder window -/

theorem check_seqnum_wide_window (next_seqnum last_ssrc : Nat) (max_reorder : Int)
    (seqnum : Nat) (hinit : next_seqnum ≠ G_MAXUINT32) (hmax : 32767 ≤ max_reorder)
    (hc : check_seqnum next_seqnum last_ssrc max_reorder last_ssrc seqnum false = some true) :
    1 ≤ seqnum_ahead next_seqnum seqnum ∧ seqnum_ahead next_seqnum seqnum ≤ 32768 := by
  unfold check_seqnum gst_rtp_buffer_compare_seqnum to_gint16 at hc
  unfold seqnum_ahead
  simp only [hinit, ne_eq, not_false_eq_true, not_true_eq_false, if_true, if_false] at hc
  split at hc
  · split at hc
    · split at hc
      · omega
      · split at hc
        · simp at hc
        · omega
    · simp at hc
  · split at hc
    · split at hc
      · omega
      · split at hc
        · simp at hc
        · omega
    · simp at hc

/-- C30: if `max_reorder` is 32767 or more, then for every initialised tracker
every packet of the same SSRC whose seqnum is behind `next_seqnum` (by 1 to
32767) is dropped: the call leaves at `dropping` with `GST_FLOW_OK`, nothing is
sent and `next_seqnum` stays. A discontinuity is then marked on a buffer that
did not carry one only when the SSRC changed or the seqnum is ahead of
`next_seqnum` (by 1 to 32768), never for a packet that is behind. -/
theorem wide_reorder_window_drops_every_old_packet
    (bclass : GstRTPBaseDepayloadClass) (env : Env) (filter : GstRTPBaseDepayload)
    (buf : GstBuffer) (rtp : GstRTPBuffer)
    (hneg : filter.priv.negotiated = true) (hmap : buf.rtp = some rtp)
    (hinit : filter.priv.next_seqnum ≠ G_MAXUINT32)
    (hmax : 32767 ≤ filter.priv.max_reorder) :
    (gst_rtp_buffer_get_ssrc rtp = filter.priv.last_ssrc →
      1 ≤ seqnum_behind filter.priv.next_seqnum (gst_rtp_buffer_get_seq rtp) →
      seqnum_behind filter.priv.next_seqnum (gst_rtp_buffer_get_seq rtp) ≤ 32767 →
      (gst_rtp_base_depayload_handle_buffer bclass env filter buf).exit =
        HandleBufferExit.dropping ∧
      (gst_rtp_base_depayload_handle_buffer bclass env filter buf).ret = GST_FLOW_OK ∧
      (gst_rtp_base_depayload_handle_buffer bclass env filter buf).filter.srcpad =
        filter.srcpad ∧
      (gst_rtp_base_depayload_handle_buffer bclass env filter buf).filter.priv.next_seqnum =
        filter.priv.next_seqnum) ∧
    ((observe bclass env filter buf).marked_discont = true →
      gst_rtp_buffer_get_ssrc rtp ≠ filter.priv.last_ssrc ∨
      (1 ≤ seqnum_ahead filter.priv.next_seqnum (gst_rtp_buffer_get_seq rtp) ∧
        seqnum_ahead filter.priv.next_seqnum (gst_rtp_buffer_get_seq rtp) ≤ 32768)) := by
  constructor
  · intro hssrc h1 h2
    have hc := check_seqnum_old filter.priv.next_seqnum filter.priv.last_ssrc
      filter.priv.max_reorder (gst_rtp_buffer_get_ssrc rtp) (gst_rtp_buffer_get_seq rtp)
      buf.discont hinit hssrc h1 h2
    rw [if_pos (by omega)] at hc
    obtain ⟨r, hr, he, hret, hpad, hnext, _, _⟩ :=
      accept_of_check_none filter buf rtp hneg hmap hc
    unfold gst_rtp_base_depayload_handle_buffer
    rw [hr]
    exact ⟨he, hret, hpad, hnext⟩
  · intro hmark
    by_cases hssrc : gst_rtp_buffer_get_ssrc rtp = filter.priv.last_ssrc
    · right
      unfold observe at hmark
      cases hc : check_seqnum filter.priv.next_seqnum filter.priv.last_ssrc
          filter.priv.max_reorder (gst_rtp_buffer_get_ssrc rtp) (gst_rtp_buffer_get_seq rtp)
          buf.discont with
      | none =>
        obtain ⟨r, hr, _⟩ := accept_of_check_none filter buf rtp hneg hmap hc
        simp [hr] at hmark
      | some discont =>
        obtain ⟨a, ha, _, _, _, _, _, _, hbuf, _⟩ :=
          accept_of_check_some filter buf rtp discont hneg hmap hc
        simp only [ha, hbuf, Bool.and_eq_true, Bool.not_eq_true'] at hmark
        obtain ⟨hd, hb⟩ := hmark
        have hdis : discont = true := by
          cases discont
          · simp [hb] at hd
          · rfl
        rw [hdis, hb, hssrc] at hc
        exact check_seqnum_wide_window _ _ _ _ hinit hmax hc
    · left
      exact hssrc

/-- Witness of C30: `max_reorder = 32767`, `next_seqnum = 40000` and a packet
of the same SSRC with seqnum 7233, which is 32767 behind, the farthest a
packet can be behind. The packet is dropped. -/
theorem wide_reorder_window_drops_every_old_packet_witness :
    (32767 : Int) ≤ (sample_filter 40000 7 32767).priv.max_reorder ∧
    seqnum_behind (sample_filter 40000 7 32767).priv.next_seqnum
      (gst_rtp_buffer_get_seq (sample_rtp 7 7233)) = 32767 ∧
    (gst_rtp_base_depayload_handle_buffer sample_class sample_env
      (sample_filter 40000 7 32767) (sample_packet 7 7233 false)).exit =
      HandleBufferExit.dropping ∧
    (gst_rtp_base_depayload_handle_buffer sample_class sample_env
      (sample_filter 40000 7 32767) (sample_packet 7 7233 false)).ret = GST_FLOW_OK ∧
    (gst_rtp_base_depayload_handle_buffer sample_class sample_env
      (sample_filter 40000 7 32767) (sample_packet 7 7233 false)).filter.srcpad =
      (sample_filter 40000 7 32767).srcpad ∧
    (gst_rtp_base_depayload_handle_buffer sample_class sample_env
      (sample_filter 40000 7 32767)
      (sample_packet 7 7233 false)).filter.priv.next_seqnum =
      (sample_filter 40000 7 32767).priv.next_seqnum :=
  ⟨by decide, by decide,
    (wide_reorder_window_drops_every_old_packet sample_class sample_env
      (sample_filter 40000 7 32767) (sample_packet 7 7233 false) (sample_rtp 7 7233)
      rfl rfl (by decide) (by decide)).1 rfl (by decide) (by decide)⟩

end GstRtp
